import Mathlib

/-! # PostGIS topology backend adapter (`topology/postgis_topology.c`)

A shallow embedding of the storage adapter: the query builder (`add*Fields`,
`add*Values`, `add*Update`), the row materializer (`fill*Fields`) and the
backend callbacks (`cb_*`), followed by theorems about them.

Conventions of the embedding

* C integers are `Int`; a narrowing read or an arithmetic step that can leave
  the type's range is wrapped explicitly (`toInt32`, `toInt64`).
* A `StringInfo` is a `String`; every `appendStringInfo*` is `++`.
* Arrays with an element count are lists.
* `SPI_execute` is the store: the answers it gives, in call order, are a
  parameter (`SPIScript`), and every call made is recorded in `Backend.calls`.
-/

namespace PostgisTopology

/-! ## Machine integers -/

/-- Value of a 64-bit word read as a signed 32-bit integer (`(int32) x`). -/
def toInt32 (v : Int) : Int := (v + 2147483648) % 4294967296 - 2147483648

/-- Value of an integer wrapped to the signed 64-bit range. -/
def toInt64 (v : Int) : Int :=
  (v + 9223372036854775808) % 18446744073709551616 - 9223372036854775808

/-- Range of `int32`. -/
def isInt32 (v : Int) : Prop := -2147483648 ≤ v ∧ v ≤ 2147483647

/-- Range of `int64` (`LWT_ELEMID`). -/
def isInt64 (v : Int) : Prop := -9223372036854775808 ≤ v ∧ v ≤ 9223372036854775807

instance (v : Int) : Decidable (isInt32 v) := by unfold isInt32; infer_instance
instance (v : Int) : Decidable (isInt64 v) := by unfold isInt64; infer_instance

/-- Unary minus on an `int64` (`-x`). -/
def neg64 (x : Int) : Int := toInt64 (-x)

/-- The macro `#define ABS(x) (x<0?-x:x)` at type `int64`. -/
def ABS (x : Int) : Int := if x < 0 then neg64 x else x

/-- Text printed by `%d` and by `%" PRId64 "`. -/
def fmtInt (v : Int) : String := toString v

/-! ## Geometry values (liblwgeom), kept abstract

The adapter never computes with a geometry: it prints it as hex EWKB and reads
it back from a serialized datum. A geometry is identified with its hex EWKB
text; a `double` with the text `%g` prints for it. -/

/-- A C `double`, as far as the adapter looks at it: whether it is zero
(`if ( dist )`) and what `%g` prints. -/
structure Double where
  isZero : Bool
  g : String
deriving DecidableEq, Repr

/-- Bounding box `GBOX` (the four ordinates the adapter prints). -/
structure GBOX where
  xmin : Double
  ymin : Double
  xmax : Double
  ymax : Double
deriving DecidableEq, Repr

/-- Line geometry `LWLINE`. -/
structure LWLINE where
  hexewkb : String
deriving DecidableEq, Repr

/-- Point geometry `LWPOINT`. -/
structure LWPOINT where
  hexewkb : String
deriving DecidableEq, Repr

/-- Any geometry `LWGEOM`: a point, a line, or something else; `bbox` is what
`lwgeom_get_bbox` finds (nothing for an empty geometry). -/
inductive LWGEOM where
  | point (p : LWPOINT)
  | line (l : LWLINE)
  | other (hexewkb : String) (bbox : Option GBOX)
deriving DecidableEq, Repr

def lwline_as_lwgeom (l : LWLINE) : LWGEOM := LWGEOM.line l
def lwpoint_as_lwgeom (p : LWPOINT) : LWGEOM := LWGEOM.point p

/-- Downcast `lwgeom_as_lwline`: NULL unless the geometry is a line. -/
def lwgeom_as_lwline : LWGEOM → Option LWLINE
  | LWGEOM.line l => some l
  | _ => none

/-- Downcast `lwgeom_as_lwpoint`: NULL unless the geometry is a point. -/
def lwgeom_as_lwpoint : LWGEOM → Option LWPOINT
  | LWGEOM.point p => some p
  | _ => none

/-- Hex EWKB text `lwgeom_to_hexwkb(g, WKB_EXTENDED, ..)`. -/
def lwgeom_to_hexwkb : LWGEOM → String
  | LWGEOM.point p => p.hexewkb
  | LWGEOM.line l => l.hexewkb
  | LWGEOM.other h _ => h

/-- Cached box `lwgeom_get_bbox`; points and lines are not used as face MBRs
by the adapter, their box is not modelled. -/
def lwgeom_get_bbox : LWGEOM → Option GBOX
  | LWGEOM.other _ b => b
  | _ => none

/-! ## Element records (`liblwgeom_topo.h`) -/

/-- Element identifier `LWT_ELEMID` (`int64`). -/
abbrev LWT_ELEMID := Int

structure LWT_ISO_NODE where
  node_id : LWT_ELEMID
  containing_face : LWT_ELEMID
  geom : Option LWPOINT
deriving DecidableEq, Repr

structure LWT_ISO_EDGE where
  edge_id : LWT_ELEMID
  start_node : LWT_ELEMID
  end_node : LWT_ELEMID
  face_left : LWT_ELEMID
  face_right : LWT_ELEMID
  next_left : LWT_ELEMID
  next_right : LWT_ELEMID
  geom : Option LWLINE
deriving DecidableEq, Repr

structure LWT_ISO_FACE where
  face_id : LWT_ELEMID
  mbr : Option GBOX
deriving DecidableEq, Repr

/-! ## Field-set vocabulary (`LWT_COL_*` of `liblwgeom_topo.h`)

The header is not part of the reviewed sources; the constants are the
single-bit masks it declares, in the canonical column order. -/

def LWT_COL_NODE_NODE_ID : Int := 1
def LWT_COL_NODE_CONTAINING_FACE : Int := 2
def LWT_COL_NODE_GEOM : Int := 4
def LWT_COL_NODE_ALL : Int := 7

def LWT_COL_EDGE_EDGE_ID : Int := 1
def LWT_COL_EDGE_START_NODE : Int := 2
def LWT_COL_EDGE_END_NODE : Int := 4
def LWT_COL_EDGE_FACE_LEFT : Int := 8
def LWT_COL_EDGE_FACE_RIGHT : Int := 16
def LWT_COL_EDGE_NEXT_LEFT : Int := 32
def LWT_COL_EDGE_NEXT_RIGHT : Int := 64
def LWT_COL_EDGE_GEOM : Int := 128
def LWT_COL_EDGE_ALL : Int := 255

def LWT_COL_FACE_FACE_ID : Int := 1
def LWT_COL_FACE_MBR : Int := 2
def LWT_COL_FACE_ALL : Int := 3

/-- The C test `fields & col` (non-zero is true). -/
def hasField (fields col : Int) : Bool := Int.land fields col != 0

/-! ## Result rows (SPI) -/

/-- A `Datum`: a machine word passed by value, or a pointer to a serialized
geometry. -/
inductive Datum where
  | word (v : Int)
  | geom (g : LWGEOM)
deriving DecidableEq, Repr

/-- The macro `DatumGetInt32`: the low 32 bits of the word, signed. The address
bits of a pointer datum are not modelled (0). -/
def DatumGetInt32 : Datum → Int
  | Datum.word v => toInt32 v
  | Datum.geom _ => 0

/-- The macro `DatumGetInt64`. -/
def DatumGetInt64 : Datum → Int
  | Datum.word v => toInt64 v
  | Datum.geom _ => 0

/-- The macro `DatumGetBool`. -/
def DatumGetBool : Datum → Bool
  | Datum.word v => v != 0
  | Datum.geom _ => true

/-- A result row `HeapTuple`: its columns, `none` for SQL NULL. -/
abbrev HeapTuple := List (Option Datum)

/-- Column read `SPI_getbinval(row, desc, colno, &isnull)`: columns count from 1;
a NULL column, or a column the row does not have, gives the zero datum with
`isnull` set. -/
def SPI_getbinval (row : HeapTuple) (colno : Nat) : Datum × Bool :=
  if colno = 0 then (Datum.word 0, true)
  else
    match row.get? (colno - 1) with
    | some (some d) => (d, false)
    | _ => (Datum.word 0, true)

/-- Deserialisation `lwgeom_from_gserialized(PG_DETOAST_DATUM_COPY(dat))`; a
by-value word is not a geometry. -/
def lwgeom_from_gserialized : Datum → LWGEOM
  | Datum.geom g => g
  | Datum.word _ => LWGEOM.other "" none

/-! ## Query builder: projections -/

/-- Projection `addEdgeFields(str, fields, fullEdgeData)`. -/
def addEdgeFields (str : String) (fields : Int) (fullEdgeData : Bool) : String :=
  let sep := ""
  let (str, sep) :=
    if hasField fields LWT_COL_EDGE_EDGE_ID then (str ++ "edge_id", ",") else (str, sep)
  let (str, sep) :=
    if hasField fields LWT_COL_EDGE_START_NODE then (str ++ sep ++ "start_node", ",")
    else (str, sep)
  let (str, sep) :=
    if hasField fields LWT_COL_EDGE_END_NODE then (str ++ sep ++ "end_node", ",")
    else (str, sep)
  let (str, sep) :=
    if hasField fields LWT_COL_EDGE_FACE_LEFT then (str ++ sep ++ "left_face", ",")
    else (str, sep)
  let (str, sep) :=
    if hasField fields LWT_COL_EDGE_FACE_RIGHT then (str ++ sep ++ "right_face", ",")
    else (str, sep)
  let (str, sep) :=
    if hasField fields LWT_COL_EDGE_NEXT_LEFT then
      let str := str ++ sep ++ "next_left_edge"
      let str := if fullEdgeData then str ++ ", abs_next_left_edge" else str
      (str, ",")
    else (str, sep)
  let (str, sep) :=
    if hasField fields LWT_COL_EDGE_NEXT_RIGHT then
      let str := str ++ sep ++ "next_right_edge"
      let str := if fullEdgeData then str ++ ", abs_next_right_edge" else str
      (str, ",")
    else (str, sep)
  if hasField fields LWT_COL_EDGE_GEOM then str ++ sep ++ "geom" else str

/-- Projection `addNodeFields(str, fields)`. -/
def addNodeFields (str : String) (fields : Int) : String :=
  let sep := ""
  let (str, sep) :=
    if hasField fields LWT_COL_NODE_NODE_ID then (str ++ "node_id", ",") else (str, sep)
  let (str, sep) :=
    if hasField fields LWT_COL_NODE_CONTAINING_FACE then (str ++ sep ++ "containing_face", ",")
    else (str, sep)
  if hasField fields LWT_COL_NODE_GEOM then str ++ sep ++ "geom" else str

/-- Projection `addFaceFields(str, fields)`. -/
def addFaceFields (str : String) (fields : Int) : String :=
  let sep := ""
  let (str, sep) :=
    if hasField fields LWT_COL_FACE_FACE_ID then (str ++ "face_id", ",") else (str, sep)
  if hasField fields LWT_COL_FACE_MBR then str ++ sep ++ "mbr" else str

/-! ## Row materializer -/

/-- Materializer `fillEdgeFields(edge, row, rowdesc, fields)` (build without
`POSTGIS_DEBUG_LEVEL`). On a NULL integer column the record gets `-1` in the
field the source names there, and then the field is assigned the value read
from the (zero) datum all the same. -/
def fillEdgeFields (edge : LWT_ISO_EDGE) (row : HeapTuple) (fields : Int) : LWT_ISO_EDGE :=
  let colno := 0
  let (edge, colno) :=
    if hasField fields LWT_COL_EDGE_EDGE_ID then
      let colno := colno + 1
      let (dat, isnull) := SPI_getbinval row colno
      let edge := if isnull then { edge with edge_id := -1 } else edge
      let val := DatumGetInt32 dat
      ({ edge with edge_id := val }, colno)
    else (edge, colno)
  let (edge, colno) :=
    if hasField fields LWT_COL_EDGE_START_NODE then
      let colno := colno + 1
      let (dat, isnull) := SPI_getbinval row colno
      let edge := if isnull then { edge with start_node := -1 } else edge
      let val := DatumGetInt32 dat
      ({ edge with start_node := val }, colno)
    else (edge, colno)
  let (edge, colno) :=
    if hasField fields LWT_COL_EDGE_END_NODE then
      let colno := colno + 1
      let (dat, isnull) := SPI_getbinval row colno
      let edge := if isnull then { edge with start_node := -1 } else edge
      let val := DatumGetInt32 dat
      ({ edge with end_node := val }, colno)
    else (edge, colno)
  let (edge, colno) :=
    if hasField fields LWT_COL_EDGE_FACE_LEFT then
      let colno := colno + 1
      let (dat, isnull) := SPI_getbinval row colno
      let edge := if isnull then { edge with start_node := -1 } else edge
      let val := DatumGetInt32 dat
      ({ edge with face_left := val }, colno)
    else (edge, colno)
  let (edge, colno) :=
    if hasField fields LWT_COL_EDGE_FACE_RIGHT then
      let colno := colno + 1
      let (dat, isnull) := SPI_getbinval row colno
      let edge := if isnull then { edge with start_node := -1 } else edge
      let val := DatumGetInt32 dat
      ({ edge with face_right := val }, colno)
    else (edge, colno)
  let (edge, colno) :=
    if hasField fields LWT_COL_EDGE_NEXT_LEFT then
      let colno := colno + 1
      let (dat, isnull) := SPI_getbinval row colno
      let edge := if isnull then { edge with start_node := -1 } else edge
      let val := DatumGetInt32 dat
      ({ edge with next_left := val }, colno)
    else (edge, colno)
  let (edge, colno) :=
    if hasField fields LWT_COL_EDGE_NEXT_RIGHT then
      let colno := colno + 1
      let (dat, isnull) := SPI_getbinval row colno
      let edge := if isnull then { edge with start_node := -1 } else edge
      let val := DatumGetInt32 dat
      ({ edge with next_right := val }, colno)
    else (edge, colno)
  if hasField fields LWT_COL_EDGE_GEOM then
    let colno := colno + 1
    let (dat, isnull) := SPI_getbinval row colno
    if !isnull then { edge with geom := lwgeom_as_lwline (lwgeom_from_gserialized dat) }
    else { edge with geom := none }
  else edge

/-- Materializer `fillNodeFields(node, row, rowdesc, fields)`. -/
def fillNodeFields (node : LWT_ISO_NODE) (row : HeapTuple) (fields : Int) : LWT_ISO_NODE :=
  let colno := 0
  let (node, colno) :=
    if hasField fields LWT_COL_NODE_NODE_ID then
      let colno := colno + 1
      let (dat, _) := SPI_getbinval row colno
      ({ node with node_id := DatumGetInt32 dat }, colno)
    else (node, colno)
  let (node, colno) :=
    if hasField fields LWT_COL_NODE_CONTAINING_FACE then
      let colno := colno + 1
      let (dat, isnull) := SPI_getbinval row colno
      (if isnull then { node with containing_face := -1 }
       else { node with containing_face := DatumGetInt32 dat }, colno)
    else (node, colno)
  if hasField fields LWT_COL_NODE_GEOM then
    let colno := colno + 1
    let (dat, isnull) := SPI_getbinval row colno
    if !isnull then { node with geom := lwgeom_as_lwpoint (lwgeom_from_gserialized dat) }
    else { node with geom := none }
  else node

/-- Materializer `fillFaceFields(face, row, rowdesc, fields)`. -/
def fillFaceFields (face : LWT_ISO_FACE) (row : HeapTuple) (fields : Int) : LWT_ISO_FACE :=
  let colno := 0
  let (face, colno) :=
    if hasField fields LWT_COL_FACE_FACE_ID then
      let colno := colno + 1
      let (dat, _) := SPI_getbinval row colno
      ({ face with face_id := DatumGetInt32 dat }, colno)
    else (face, colno)
  if hasField fields LWT_COL_FACE_MBR then
    let colno := colno + 1
    let (dat, isnull) := SPI_getbinval row colno
    if !isnull then
      match lwgeom_get_bbox (lwgeom_from_gserialized dat) with
      | some box => { face with mbr := some box }
      | none => { face with mbr := none }
    else { face with mbr := none }
  else face


/-! ## Query builder: insert value lists -/

/-- Insert values `addEdgeValues(str, edge, fields, fullEdgeData)`, parentheses
included. -/
def addEdgeValues (str : String) (edge : LWT_ISO_EDGE) (fields : Int) (fullEdgeData : Bool) :
    String :=
  let sep := ""
  let str := str ++ "("
  let (str, sep) :=
    if hasField fields LWT_COL_EDGE_EDGE_ID then
      (if edge.edge_id != -1 then str ++ fmtInt edge.edge_id else str ++ "DEFAULT", ",")
    else (str, sep)
  let (str, sep) :=
    if hasField fields LWT_COL_EDGE_START_NODE then (str ++ sep ++ fmtInt edge.start_node, ",")
    else (str, sep)
  let (str, sep) :=
    if hasField fields LWT_COL_EDGE_END_NODE then (str ++ sep ++ fmtInt edge.end_node, ",")
    else (str, sep)
  let (str, sep) :=
    if hasField fields LWT_COL_EDGE_FACE_LEFT then (str ++ sep ++ fmtInt edge.face_left, ",")
    else (str, sep)
  let (str, sep) :=
    if hasField fields LWT_COL_EDGE_FACE_RIGHT then (str ++ sep ++ fmtInt edge.face_right, ",")
    else (str, sep)
  let (str, sep) :=
    if hasField fields LWT_COL_EDGE_NEXT_LEFT then
      let str := str ++ sep ++ fmtInt edge.next_left
      let str := if fullEdgeData then str ++ "," ++ fmtInt (ABS edge.next_left) else str
      (str, ",")
    else (str, sep)
  let (str, sep) :=
    if hasField fields LWT_COL_EDGE_NEXT_RIGHT then
      let str := str ++ sep ++ fmtInt edge.next_right
      let str := if fullEdgeData then str ++ "," ++ fmtInt (ABS edge.next_right) else str
      (str, ",")
    else (str, sep)
  let str :=
    if hasField fields LWT_COL_EDGE_GEOM then
      match edge.geom with
      | some l => str ++ sep ++ "'" ++ lwgeom_to_hexwkb (lwline_as_lwgeom l) ++ "'::geometry"
      | none => str ++ sep ++ "null"
    else str
  str ++ ")"

/-- Insert values `addNodeValues(str, node, fields)`. The containing_face block
of the source does not set the separator. -/
def addNodeValues (str : String) (node : LWT_ISO_NODE) (fields : Int) : String :=
  let sep := ""
  let str := str ++ "("
  let (str, sep) :=
    if hasField fields LWT_COL_NODE_NODE_ID then
      (if node.node_id != -1 then str ++ fmtInt node.node_id else str ++ "DEFAULT", ",")
    else (str, sep)
  let str :=
    if hasField fields LWT_COL_NODE_CONTAINING_FACE then
      if node.containing_face != -1 then str ++ sep ++ fmtInt node.containing_face
      else str ++ sep ++ "null"
    else str
  let str :=
    if hasField fields LWT_COL_NODE_GEOM then
      match node.geom with
      | some pt => str ++ sep ++ "'" ++ lwgeom_to_hexwkb (lwpoint_as_lwgeom pt) ++ "'::geometry"
      | none => str ++ sep ++ "null"
    else str
  str ++ ")"

/-- Envelope text `ST_SetSRID(ST_MakeEnvelope(%g,%g,%g,%g),%d)`. -/
def fmtEnvelope (box : GBOX) (srid : Int) : String :=
  "ST_SetSRID(ST_MakeEnvelope(" ++ box.xmin.g ++ "," ++ box.ymin.g ++ "," ++ box.xmax.g ++ ","
    ++ box.ymax.g ++ ")," ++ fmtInt srid ++ ")"

/-- Insert values `addFaceValues(str, face, srid)`. -/
def addFaceValues (str : String) (face : LWT_ISO_FACE) (srid : Int) : String :=
  let str :=
    if face.face_id != -1 then str ++ "(" ++ fmtInt face.face_id else str ++ "(DEFAULT"
  match face.mbr with
  | some box => str ++ "," ++ fmtEnvelope box srid ++ ")"
  | none => str ++ ",null)"

/-! ## Query builder: update clauses -/

inductive UpdateType where
  | updSet
  | updSel
  | updNot
deriving DecidableEq, Repr

/-- Operator chosen by the `switch (updType)` of the update renderers. -/
def updOp : UpdateType → String
  | UpdateType.updSet => "="
  | UpdateType.updSel => "="
  | UpdateType.updNot => "!="

/-- Separator chosen by the `switch (updType)` of the update renderers. -/
def updSep1 : UpdateType → String
  | UpdateType.updSet => ","
  | UpdateType.updSel => " AND "
  | UpdateType.updNot => " AND "

/-- Hex text of an edge geometry that may be NULL. The source passes a NULL
geometry on to `lwgeom_to_hexwkb`; the model prints nothing for it. -/
def hexOfLine : Option LWLINE → String
  | some l => lwgeom_to_hexwkb (lwline_as_lwgeom l)
  | none => ""

/-- Hex text of a node geometry that may be NULL (as `hexOfLine`). -/
def hexOfPoint : Option LWPOINT → String
  | some pt => lwgeom_to_hexwkb (lwpoint_as_lwgeom pt)
  | none => ""

/-- Update clause `addEdgeUpdate(str, edge, fields, fullEdgeData, updType)`. -/
def addEdgeUpdate (str : String) (edge : LWT_ISO_EDGE) (fields : Int) (fullEdgeData : Bool)
    (updType : UpdateType) : String :=
  let sep := ""
  let sep1 := updSep1 updType
  let op := updOp updType
  let (str, sep) :=
    if hasField fields LWT_COL_EDGE_EDGE_ID then
      (str ++ "edge_id " ++ op ++ " " ++ fmtInt edge.edge_id, sep1)
    else (str, sep)
  let (str, sep) :=
    if hasField fields LWT_COL_EDGE_START_NODE then
      (str ++ sep ++ "start_node " ++ op ++ " " ++ fmtInt edge.start_node, sep1)
    else (str, sep)
  let (str, sep) :=
    if hasField fields LWT_COL_EDGE_END_NODE then
      (str ++ sep ++ "end_node" ++ op ++ " " ++ fmtInt edge.end_node, sep1)
    else (str, sep)
  let (str, sep) :=
    if hasField fields LWT_COL_EDGE_FACE_LEFT then
      (str ++ sep ++ "left_face" ++ op ++ " " ++ fmtInt edge.face_left, sep1)
    else (str, sep)
  let (str, sep) :=
    if hasField fields LWT_COL_EDGE_FACE_RIGHT then
      (str ++ sep ++ "right_face" ++ op ++ " " ++ fmtInt edge.face_right, sep1)
    else (str, sep)
  let (str, sep) :=
    if hasField fields LWT_COL_EDGE_NEXT_LEFT then
      let str := str ++ sep ++ "next_left_edge" ++ op ++ " " ++ fmtInt edge.next_left
      let sep := sep1
      let str :=
        if fullEdgeData then
          str ++ sep ++ " abs_next_left_edge" ++ op ++ " " ++ fmtInt (ABS edge.next_left)
        else str
      (str, sep)
    else (str, sep)
  let (str, sep) :=
    if hasField fields LWT_COL_EDGE_NEXT_RIGHT then
      let str := str ++ sep ++ "next_right_edge" ++ op ++ " " ++ fmtInt edge.next_right
      let sep := sep1
      let str :=
        if fullEdgeData then
          str ++ sep ++ " abs_next_right_edge" ++ op ++ " " ++ fmtInt (ABS edge.next_right)
        else str
      (str, sep)
    else (str, sep)
  if hasField fields LWT_COL_EDGE_GEOM then
    str ++ sep ++ "geom" ++ op ++ "'" ++ hexOfLine edge.geom ++ "'::geometry"
  else str

/-- Update clause `addNodeUpdate(str, node, fields, fullNodeData, updType)`;
`fullNodeData` is not used by the source. -/
def addNodeUpdate (str : String) (node : LWT_ISO_NODE) (fields : Int) (_fullNodeData : Bool)
    (updType : UpdateType) : String :=
  let sep := ""
  let sep1 := updSep1 updType
  let op := updOp updType
  let (str, sep) :=
    if hasField fields LWT_COL_NODE_NODE_ID then
      (str ++ "node_id " ++ op ++ " " ++ fmtInt node.node_id, sep1)
    else (str, sep)
  let (str, sep) :=
    if hasField fields LWT_COL_NODE_CONTAINING_FACE then
      let str := str ++ sep ++ "containing_face " ++ op
      let str :=
        if node.containing_face != -1 then str ++ fmtInt node.containing_face
        else str ++ "NULL"
      (str, sep1)
    else (str, sep)
  if hasField fields LWT_COL_NODE_GEOM then
    str ++ sep ++ "geom" ++ op ++ "'" ++ hexOfPoint node.geom ++ "'::geometry"
  else str

/-! ## The store (SPI) and the session context -/

def SPI_OK_SELECT : Int := 5
def SPI_OK_INSERT : Int := 7
def SPI_OK_DELETE : Int := 8
def SPI_OK_UPDATE : Int := 9
def SPI_OK_INSERT_RETURNING : Int := 11
def SPI_OK_DELETE_RETURNING : Int := 12

/-- One call `SPI_execute(sql, read_only, count)`. -/
structure SPICall where
  sql : String
  read_only : Bool
  count : Int
deriving DecidableEq, Repr

/-- What the store answers to one call: the return code, `SPI_processed` and
the rows of `SPI_tuptable`. -/
structure SPIResult where
  status : Int
  processed : Nat
  vals : List HeapTuple
deriving DecidableEq, Repr

/-- The store's answers, by position of the call in the session. -/
abbrev SPIScript := Nat → SPIResult

/-- Session context `LWT_BE_DATA`. -/
structure LWT_BE_DATA where
  lastErrorMsg : String
  data_changed : Bool
deriving DecidableEq, Repr

/-- The session: the context and the statements issued so far, oldest first. -/
structure Backend where
  be_data : LWT_BE_DATA
  calls : List SPICall
deriving DecidableEq, Repr

/-- Topology handle `LWT_BE_TOPOLOGY` (its `be_data` pointer is the session's). -/
structure LWT_BE_TOPOLOGY where
  name : String
  id : Int
  srid : Int
  precision : Int
deriving DecidableEq, Repr

def MAXERRLEN : Nat := 256

/-- Error recording `cberror(be, fmt, ...)`: the formatted text, cut to
`MAXERRLEN - 1` characters, replaces the last error. -/
def cberror (be : Backend) (msg : String) : Backend :=
  { be with be_data :=
      { be.be_data with lastErrorMsg := String.mk (msg.data.take (MAXERRLEN - 1)) } }

/-- Accessor `cb_lastErrorMessage`. -/
def cb_lastErrorMessage (be : Backend) : String := be.be_data.lastErrorMsg

/-- Statement execution `SPI_execute`: the call is recorded and answered by the
script at its position. -/
def SPI_execute (spi : SPIScript) (be : Backend) (sql : String) (read_only : Bool)
    (count : Int) : Backend × SPIResult :=
  ({ be with calls := be.calls ++ [{ sql := sql, read_only := read_only, count := count }] },
   spi be.calls.length)

/-- Flag update `if ( SPI_processed ) topo->be_data->data_changed = true`. -/
def markChanged (be : Backend) (processed : Nat) : Backend :=
  if processed != 0 then { be with be_data := { be.be_data with data_changed := true } } else be

/-- Message `unexpected return (%d) from query execution: %s`. -/
def unexpectedReturn (spi_result : Int) (sql : String) : String :=
  "unexpected return (" ++ fmtInt spi_result ++ ") from query execution: " ++ sql

/-- Message `processed %d rows, expected %d`. -/
def processedExpected (processed : Nat) (expected : Int) : String :=
  "processed " ++ fmtInt processed ++ " rows, expected " ++ fmtInt expected

/-- The loops `for (i=0; i<n; ++i) appendStringInfo(sql, "%s%" PRId64, (i?",":""), ids[i])`. -/
def appendIds (str : String) : Nat → List LWT_ELEMID → String
  | _, [] => str
  | i, id :: rest => appendIds (str ++ (if i != 0 then "," else "") ++ fmtInt id) (i + 1) rest

/-- The loops `for (i=0; i<n; ++i) { if ( i ) append(","); render(&elems[i]); }`. -/
def appendEach {α : Type} (render : String → α → String) (str : String) :
    Nat → List α → String
  | _, [] => str
  | i, x :: rest => appendEach render (render (if i != 0 then str ++ "," else str) x) (i + 1) rest

/-- The loops `for (i=0; i<SPI_processed; ++i) fill(&elems[i], vals[i], fields)` over a
freshly allocated array; `mem i` is what slot `i` held before. A row index the
table does not have reads as a row without columns. -/
def fillRows {α : Type} (fill : α → HeapTuple → Int → α) (mem : Nat → α)
    (vals : List HeapTuple) (fields : Int) (n : Nat) : List α :=
  (List.range n).map (fun i => fill (mem i) (vals.getD i []) fields)

/-- The loops `for (i..) { if ( elems[i].id != -1 ) continue; fill(&elems[i], vals[i], ID); }`. -/
def fillMissingIds {α : Type} (hasId : α → Bool) (fill : α → HeapTuple → α)
    (vals : List HeapTuple) : Nat → List α → List α
  | _, [] => []
  | i, x :: rest =>
    (if hasId x then x else fill x (vals.getD i [])) :: fillMissingIds hasId fill vals (i + 1) rest

/-- What a fetch callback hands back: the array (NULL is `none`) and `*numelems`. -/
structure Fetched (α : Type) where
  elems : Option (List α)
  numelems : Int
deriving DecidableEq, Repr

/-! ## Callbacks: topology lookup and fetches -/

/-- Callback `cb_loadTopologyByName`. -/
def cb_loadTopologyByName (spi : SPIScript) (name : String) (be : Backend) :
    Backend × Option LWT_BE_TOPOLOGY :=
  let sql := "SELECT id,srid FROM topology.topology WHERE name = '" ++ name ++ "'"
  let (be, r) := SPI_execute spi be sql (!be.be_data.data_changed) 0
  if r.status != SPI_OK_SELECT then (cberror be (unexpectedReturn r.status sql), none)
  else if r.processed = 0 then
    (cberror be "SQL/MM Spatial exception - invalid topology name", none)
  else if r.processed > 1 then
    (cberror be ("multiple topologies named '" ++ name ++ "' were found"), none)
  else
    let (dat, isnull) := SPI_getbinval (r.vals.getD 0 []) 1
    if isnull then (cberror be ("Topology '" ++ name ++ "' has null identifier"), none)
    else
      let id := DatumGetInt32 dat
      let (dat, isnull) := SPI_getbinval (r.vals.getD 0 []) 2
      if isnull then (cberror be ("Topology '" ++ name ++ "' has null SRID"), none)
      else (be, some { name := name, id := id, srid := DatumGetInt32 dat, precision := 0 })

/-- Callback `cb_getEdgeById`. -/
def cb_getEdgeById (spi : SPIScript) (topo : LWT_BE_TOPOLOGY) (mem : Nat → LWT_ISO_EDGE)
    (ids : List LWT_ELEMID) (fields : Int) (be : Backend) : Backend × Fetched LWT_ISO_EDGE :=
  let sql := "SELECT "
  let sql := addEdgeFields sql fields false
  let sql := sql ++ " FROM \"" ++ topo.name ++ "\".edge_data"
  let sql := sql ++ " WHERE edge_id IN ("
  let sql := appendIds sql 0 ids
  let sql := sql ++ ")"
  let (be, r) := SPI_execute spi be sql (!be.be_data.data_changed) ids.length
  if r.status != SPI_OK_SELECT then
    (cberror be (unexpectedReturn r.status sql), { elems := none, numelems := -1 })
  else if r.processed = 0 then (be, { elems := none, numelems := r.processed })
  else
    (be, { elems := some (fillRows fillEdgeFields mem r.vals fields r.processed),
           numelems := r.processed })

/-- Callback `cb_getEdgeByNode`. -/
def cb_getEdgeByNode (spi : SPIScript) (topo : LWT_BE_TOPOLOGY) (mem : Nat → LWT_ISO_EDGE)
    (ids : List LWT_ELEMID) (fields : Int) (be : Backend) : Backend × Fetched LWT_ISO_EDGE :=
  let sql := "SELECT "
  let sql := addEdgeFields sql fields false
  let sql := sql ++ " FROM \"" ++ topo.name ++ "\".edge_data"
  let sql := sql ++ " WHERE start_node IN ("
  let sql := appendIds sql 0 ids
  let sql := sql ++ ") OR end_node IN ("
  let sql := appendIds sql 0 ids
  let sql := sql ++ ")"
  let (be, r) := SPI_execute spi be sql (!be.be_data.data_changed) 0
  if r.status != SPI_OK_SELECT then
    (cberror be (unexpectedReturn r.status sql), { elems := none, numelems := -1 })
  else if r.processed = 0 then (be, { elems := none, numelems := r.processed })
  else
    (be, { elems := some (fillRows fillEdgeFields mem r.vals fields r.processed),
           numelems := r.processed })

/-- Callback `cb_getEdgeByFace`. -/
def cb_getEdgeByFace (spi : SPIScript) (topo : LWT_BE_TOPOLOGY) (mem : Nat → LWT_ISO_EDGE)
    (ids : List LWT_ELEMID) (fields : Int) (be : Backend) : Backend × Fetched LWT_ISO_EDGE :=
  let sql := "SELECT "
  let sql := addEdgeFields sql fields false
  let sql := sql ++ " FROM \"" ++ topo.name ++ "\".edge_data"
  let sql := sql ++ " WHERE left_face IN ("
  let sql := appendIds sql 0 ids
  let sql := sql ++ ") OR right_face IN ("
  let sql := appendIds sql 0 ids
  let sql := sql ++ ")"
  let (be, r) := SPI_execute spi be sql (!be.be_data.data_changed) 0
  if r.status != SPI_OK_SELECT then
    (cberror be (unexpectedReturn r.status sql), { elems := none, numelems := -1 })
  else if r.processed = 0 then (be, { elems := none, numelems := r.processed })
  else
    (be, { elems := some (fillRows fillEdgeFields mem r.vals fields r.processed),
           numelems := r.processed })

/-- Callback `cb_getFacesById`. -/
def cb_getFacesById (spi : SPIScript) (topo : LWT_BE_TOPOLOGY) (mem : Nat → LWT_ISO_FACE)
    (ids : List LWT_ELEMID) (fields : Int) (be : Backend) : Backend × Fetched LWT_ISO_FACE :=
  let sql := "SELECT "
  let sql := addFaceFields sql fields
  let sql := sql ++ " FROM \"" ++ topo.name ++ "\".face"
  let sql := sql ++ " WHERE face_id IN ("
  let sql := appendIds sql 0 ids
  let sql := sql ++ ")"
  let (be, r) := SPI_execute spi be sql (!be.be_data.data_changed) 0
  if r.status != SPI_OK_SELECT then
    (cberror be (unexpectedReturn r.status sql), { elems := none, numelems := -1 })
  else if r.processed = 0 then (be, { elems := none, numelems := r.processed })
  else
    (be, { elems := some (fillRows fillFaceFields mem r.vals fields r.processed),
           numelems := r.processed })

/-- The `WITH RECURSIVE edgering` statement of `cb_getRingEdges`. -/
def ringEdgesQuery (name : String) (edge : LWT_ELEMID) : String :=
  "WITH RECURSIVE edgering AS ( SELECT " ++ fmtInt edge ++
  " as signed_edge_id, edge_id, next_left_edge, next_right_edge FROM \"" ++ name ++
  "\".edge_data WHERE edge_id = " ++ fmtInt (ABS edge) ++
  " UNION SELECT CASE WHEN p.signed_edge_id < 0 THEN p.next_right_edge ELSE p.next_left_edge END, " ++
  "e.edge_id, e.next_left_edge, e.next_right_edge FROM \"" ++ name ++
  "\".edge_data e, edgering p WHERE e.edge_id = CASE WHEN p.signed_edge_id < 0 THEN " ++
  "abs(p.next_right_edge) ELSE abs(p.next_left_edge) END ) SELECT * FROM edgering"

/-- The row loop of `cb_getRingEdges`: the first column of every row, read as
`int32`; `none` as soon as a row has it NULL. -/
def ringEdgeIds : List HeapTuple → Option (List LWT_ELEMID)
  | [] => some []
  | row :: rest =>
    let (dat, isnull) := SPI_getbinval row 1
    if isnull then none
    else
      match ringEdgeIds rest with
      | some ids => some (DatumGetInt32 dat :: ids)
      | none => none

/-- Callback `cb_getRingEdges`; `limit` is an `int`, incremented when non-zero. -/
def cb_getRingEdges (spi : SPIScript) (topo : LWT_BE_TOPOLOGY) (edge : LWT_ELEMID)
    (limit : Int) (be : Backend) : Backend × Fetched LWT_ELEMID :=
  let sql := ringEdgesQuery topo.name edge
  let (limit, sql) :=
    if limit != 0 then
      let limit := toInt32 (limit + 1)
      (limit, sql ++ " LIMIT " ++ fmtInt limit)
    else (limit, sql)
  let (be, r) := SPI_execute spi be sql (!be.be_data.data_changed) limit
  if r.status != SPI_OK_SELECT then
    (cberror be (unexpectedReturn r.status sql), { elems := none, numelems := -1 })
  else if r.processed = 0 then (be, { elems := none, numelems := r.processed })
  else if limit != 0 && (r.processed : Int) == limit then
    (cberror be ("Max traversing limit hit: " ++ fmtInt (toInt32 (limit - 1))),
     { elems := none, numelems := -1 })
  else
    match ringEdgeIds ((List.range r.processed).map (fun i => r.vals.getD i [])) with
    | none => (cberror be "Found edge with NULL edge_id", { elems := none, numelems := -1 })
    | some edges => (be, { elems := some edges, numelems := r.processed })

/-- Callback `cb_getNodeById`. -/
def cb_getNodeById (spi : SPIScript) (topo : LWT_BE_TOPOLOGY) (mem : Nat → LWT_ISO_NODE)
    (ids : List LWT_ELEMID) (fields : Int) (be : Backend) : Backend × Fetched LWT_ISO_NODE :=
  let sql := "SELECT "
  let sql := addNodeFields sql fields
  let sql := sql ++ " FROM \"" ++ topo.name ++ "\".node"
  let sql := sql ++ " WHERE node_id IN ("
  let sql := appendIds sql 0 ids
  let sql := sql ++ ")"
  let (be, r) := SPI_execute spi be sql (!be.be_data.data_changed) ids.length
  if r.status != SPI_OK_SELECT then
    (cberror be (unexpectedReturn r.status sql), { elems := none, numelems := -1 })
  else if r.processed = 0 then (be, { elems := none, numelems := r.processed })
  else
    (be, { elems := some (fillRows fillNodeFields mem r.vals fields r.processed),
           numelems := r.processed })

/-- Callback `cb_getNodeByFace`. -/
def cb_getNodeByFace (spi : SPIScript) (topo : LWT_BE_TOPOLOGY) (mem : Nat → LWT_ISO_NODE)
    (ids : List LWT_ELEMID) (fields : Int) (be : Backend) : Backend × Fetched LWT_ISO_NODE :=
  let sql := "SELECT "
  let sql := addNodeFields sql fields
  let sql := sql ++ " FROM \"" ++ topo.name ++ "\".node"
  let sql := sql ++ " WHERE containing_face IN ("
  let sql := appendIds sql 0 ids
  let sql := sql ++ ")"
  let (be, r) := SPI_execute spi be sql (!be.be_data.data_changed) 0
  if r.status != SPI_OK_SELECT then
    (cberror be (unexpectedReturn r.status sql), { elems := none, numelems := -1 })
  else if r.processed = 0 then (be, { elems := none, numelems := r.processed })
  else
    (be, { elems := some (fillRows fillNodeFields mem r.vals fields r.processed),
           numelems := r.processed })

/-- The tail every spatial fetch shares after a successful execution: the
count, the EXISTS answer when `limit` was -1, the materialized rows otherwise. -/
def spatialResult {α : Type} (fill : α → HeapTuple → Int → α) (mem : Nat → α)
    (r : SPIResult) (fields : Int) (elems_requested : Int) : Fetched α :=
  if r.processed = 0 then { elems := none, numelems := 0 }
  else if elems_requested = -1 then
    let (dat, _) := SPI_getbinval (r.vals.getD 0 []) 1
    let exists_ := DatumGetBool dat
    { elems := none, numelems := if exists_ then 1 else 0 }
  else { elems := some (fillRows fill mem r.vals fields r.processed), numelems := r.processed }

/-- Callback `cb_getEdgeWithinDistance2D`. -/
def cb_getEdgeWithinDistance2D (spi : SPIScript) (topo : LWT_BE_TOPOLOGY)
    (mem : Nat → LWT_ISO_EDGE) (pt : LWPOINT) (dist : Double) (fields : Int) (limit : Int)
    (be : Backend) : Backend × Fetched LWT_ISO_EDGE :=
  let elems_requested := limit
  let sql :=
    if elems_requested = -1 then "SELECT EXISTS ( SELECT 1"
    else addEdgeFields "SELECT " fields false
  let sql := sql ++ " FROM \"" ++ topo.name ++ "\".edge_data"
  let hexewkb := lwgeom_to_hexwkb (lwpoint_as_lwgeom pt)
  let sql :=
    if !dist.isZero then
      sql ++ " WHERE ST_DWithin('" ++ hexewkb ++ "'::geometry, geom, " ++ dist.g ++ ")"
    else sql ++ " WHERE ST_Within('" ++ hexewkb ++ "'::geometry, geom)"
  let sql :=
    if elems_requested = -1 then sql ++ ")"
    else if elems_requested > 0 then sql ++ " LIMIT " ++ fmtInt elems_requested
    else sql
  let (be, r) :=
    SPI_execute spi be sql (!be.be_data.data_changed) (if limit ≥ 0 then limit else 0)
  if r.status != SPI_OK_SELECT then
    (cberror be (unexpectedReturn r.status sql), { elems := none, numelems := -1 })
  else (be, spatialResult fillEdgeFields mem r fields elems_requested)

/-- Callback `cb_getNodeWithinDistance2D`; the distance argument of its
`ST_DWithin` is the literal text `dist`. -/
def cb_getNodeWithinDistance2D (spi : SPIScript) (topo : LWT_BE_TOPOLOGY)
    (mem : Nat → LWT_ISO_NODE) (pt : LWPOINT) (dist : Double) (fields : Int) (limit : Int)
    (be : Backend) : Backend × Fetched LWT_ISO_NODE :=
  let elems_requested := limit
  let sql :=
    if elems_requested = -1 then "SELECT EXISTS ( SELECT 1"
    else if fields != 0 then addNodeFields "SELECT " fields
    else "SELECT " ++ "*"
  let sql := sql ++ " FROM \"" ++ topo.name ++ "\".node"
  let hexewkb := lwgeom_to_hexwkb (lwpoint_as_lwgeom pt)
  let sql :=
    if !dist.isZero then
      sql ++ " WHERE ST_DWithin(geom, '" ++ hexewkb ++ "'::geometry, dist)"
    else sql ++ " WHERE ST_Within(geom, '" ++ hexewkb ++ "'::geometry)"
  let sql :=
    if elems_requested = -1 then sql ++ ")"
    else if elems_requested > 0 then sql ++ " LIMIT " ++ fmtInt elems_requested
    else sql
  let (be, r) :=
    SPI_execute spi be sql (!be.be_data.data_changed) (if limit ≥ 0 then limit else 0)
  if r.status != SPI_OK_SELECT then
    (cberror be (unexpectedReturn r.status sql), { elems := none, numelems := -1 })
  else (be, spatialResult fillNodeFields mem r fields elems_requested)

/-- Callback `cb_getNodeWithinBox2D`. -/
def cb_getNodeWithinBox2D (spi : SPIScript) (topo : LWT_BE_TOPOLOGY)
    (mem : Nat → LWT_ISO_NODE) (box : GBOX) (fields : Int) (limit : Int)
    (be : Backend) : Backend × Fetched LWT_ISO_NODE :=
  let elems_requested := limit
  let sql :=
    if elems_requested = -1 then "SELECT EXISTS ( SELECT 1"
    else addNodeFields "SELECT " fields
  let sql := sql ++ " FROM \"" ++ topo.name ++ "\".node WHERE geom && " ++
    fmtEnvelope box topo.srid
  let sql :=
    if elems_requested = -1 then sql ++ ")"
    else if elems_requested > 0 then sql ++ " LIMIT " ++ fmtInt elems_requested
    else sql
  let (be, r) :=
    SPI_execute spi be sql (!be.be_data.data_changed) (if limit ≥ 0 then limit else 0)
  if r.status != SPI_OK_SELECT then
    (cberror be (unexpectedReturn r.status sql), { elems := none, numelems := -1 })
  else (be, spatialResult fillNodeFields mem r fields elems_requested)

/-- Callback `cb_getEdgeWithinBox2D` (it reads the `edge` view). -/
def cb_getEdgeWithinBox2D (spi : SPIScript) (topo : LWT_BE_TOPOLOGY)
    (mem : Nat → LWT_ISO_EDGE) (box : GBOX) (fields : Int) (limit : Int)
    (be : Backend) : Backend × Fetched LWT_ISO_EDGE :=
  let elems_requested := limit
  let sql :=
    if elems_requested = -1 then "SELECT EXISTS ( SELECT 1"
    else addEdgeFields "SELECT " fields false
  let sql := sql ++ " FROM \"" ++ topo.name ++ "\".edge WHERE geom && " ++
    fmtEnvelope box topo.srid
  let sql :=
    if elems_requested = -1 then sql ++ ")"
    else if elems_requested > 0 then sql ++ " LIMIT " ++ fmtInt elems_requested
    else sql
  let (be, r) :=
    SPI_execute spi be sql (!be.be_data.data_changed) (if limit ≥ 0 then limit else 0)
  if r.status != SPI_OK_SELECT then
    (cberror be (unexpectedReturn r.status sql), { elems := none, numelems := -1 })
  else (be, spatialResult fillEdgeFields mem r fields elems_requested)

/-- Callback `cb_getFaceContainingPoint`. -/
def cb_getFaceContainingPoint (spi : SPIScript) (topo : LWT_BE_TOPOLOGY) (pt : LWPOINT)
    (be : Backend) : Backend × LWT_ELEMID :=
  let hexewkb := lwgeom_to_hexwkb (lwpoint_as_lwgeom pt)
  let sql := "SELECT face_id FROM \"" ++ topo.name ++ "\".face WHERE mbr && '" ++ hexewkb ++
    "'::geometry AND ST_Contains(topology.ST_GetFaceGeometry('" ++ topo.name ++
    "', face_id), '" ++ hexewkb ++ "'::geometry) LIMIT 1"
  let (be, r) := SPI_execute spi be sql (!be.be_data.data_changed) 1
  if r.status != SPI_OK_SELECT then (cberror be (unexpectedReturn r.status sql), -2)
  else if r.processed != 1 then (be, -1)
  else
    let (dat, isnull) := SPI_getbinval (r.vals.getD 0 []) 1
    if isnull then (cberror be "corrupted topology: face with NULL face_id", -2)
    else (be, DatumGetInt32 dat)

/-! ## Callbacks: inserts, updates, deletes -/

/-- Callback `cb_insertNodes`: 1 on success, 0 on failure. -/
def cb_insertNodes (spi : SPIScript) (topo : LWT_BE_TOPOLOGY) (nodes : List LWT_ISO_NODE)
    (be : Backend) : Backend × List LWT_ISO_NODE × Int :=
  let numelems : Int := nodes.length
  let sql := "INSERT INTO \"" ++ topo.name ++ "\".node ("
  let sql := addNodeFields sql LWT_COL_NODE_ALL
  let sql := sql ++ ") VALUES "
  let sql := appendEach (fun s n => addNodeValues s n LWT_COL_NODE_ALL) sql 0 nodes
  let sql := sql ++ " RETURNING node_id"
  let (be, r) := SPI_execute spi be sql false numelems
  if r.status != SPI_OK_INSERT_RETURNING then
    (cberror be (unexpectedReturn r.status sql), nodes, 0)
  else
    let be := markChanged be r.processed
    if (r.processed : Int) != numelems then
      (cberror be (processedExpected r.processed numelems), nodes, 0)
    else
      (be,
       fillMissingIds (fun n => n.node_id != -1)
         (fun n row => fillNodeFields n row LWT_COL_NODE_NODE_ID) r.vals 0 nodes,
       1)

/-- Callback `cb_insertEdges`: the number of rows on success, -1 on failure. -/
def cb_insertEdges (spi : SPIScript) (topo : LWT_BE_TOPOLOGY) (edges : List LWT_ISO_EDGE)
    (be : Backend) : Backend × List LWT_ISO_EDGE × Int :=
  let numelems : Int := edges.length
  let sql := "INSERT INTO \"" ++ topo.name ++ "\".edge_data ("
  let sql := addEdgeFields sql LWT_COL_EDGE_ALL true
  let sql := sql ++ ") VALUES "
  let sql := appendEach (fun s e => addEdgeValues s e LWT_COL_EDGE_ALL true) sql 0 edges
  let needsEdgeIdReturn := edges.any (fun e => e.edge_id == -1)
  let sql := if needsEdgeIdReturn then sql ++ " RETURNING edge_id" else sql
  let (be, r) := SPI_execute spi be sql false numelems
  if r.status != (if needsEdgeIdReturn then SPI_OK_INSERT_RETURNING else SPI_OK_INSERT) then
    (cberror be (unexpectedReturn r.status sql), edges, -1)
  else
    let be := markChanged be r.processed
    if (r.processed : Int) != numelems then
      (cberror be (processedExpected r.processed numelems), edges, -1)
    else
      let edges :=
        if needsEdgeIdReturn then
          fillMissingIds (fun e => e.edge_id != -1)
            (fun e row => fillEdgeFields e row LWT_COL_EDGE_EDGE_ID) r.vals 0 edges
        else edges
      (be, edges, r.processed)

/-- Callback `cb_insertFaces`: the number of rows on success, -1 on failure. -/
def cb_insertFaces (spi : SPIScript) (topo : LWT_BE_TOPOLOGY) (faces : List LWT_ISO_FACE)
    (be : Backend) : Backend × List LWT_ISO_FACE × Int :=
  let numelems : Int := faces.length
  let sql := "INSERT INTO \"" ++ topo.name ++ "\".face ("
  let sql := addFaceFields sql LWT_COL_FACE_ALL
  let sql := sql ++ ") VALUES "
  let sql := appendEach (fun s f => addFaceValues s f topo.srid) sql 0 faces
  let needsFaceIdReturn := faces.any (fun f => f.face_id == -1)
  let sql := if needsFaceIdReturn then sql ++ " RETURNING face_id" else sql
  let (be, r) := SPI_execute spi be sql false numelems
  if r.status != (if needsFaceIdReturn then SPI_OK_INSERT_RETURNING else SPI_OK_INSERT) then
    (cberror be (unexpectedReturn r.status sql), faces, -1)
  else
    let be := markChanged be r.processed
    if (r.processed : Int) != numelems then
      (cberror be (processedExpected r.processed numelems), faces, -1)
    else
      let faces :=
        if needsFaceIdReturn then
          fillMissingIds (fun f => f.face_id != -1)
            (fun f row => fillFaceFields f row LWT_COL_FACE_FACE_ID) r.vals 0 faces
        else faces
      (be, faces, r.processed)

/-- The tail the update and delete callbacks share: check the return code, set
the flag, return `SPI_processed`. -/
def finishMutation (spi : SPIScript) (be : Backend) (sql : String) (ok : Int) :
    Backend × Int :=
  let (be, r) := SPI_execute spi be sql false 0
  if r.status != ok then (cberror be (unexpectedReturn r.status sql), -1)
  else (markChanged be r.processed, r.processed)

/-- Callback `cb_updateEdges`; a NULL selector or excluder is `none`. -/
def cb_updateEdges (spi : SPIScript) (topo : LWT_BE_TOPOLOGY)
    (sel_edge : Option LWT_ISO_EDGE) (sel_fields : Int)
    (upd_edge : LWT_ISO_EDGE) (upd_fields : Int)
    (exc_edge : Option LWT_ISO_EDGE) (exc_fields : Int) (be : Backend) : Backend × Int :=
  let sql := "UPDATE \"" ++ topo.name ++ "\".edge_data SET "
  let sql := addEdgeUpdate sql upd_edge upd_fields true UpdateType.updSet
  let sql := if exc_edge.isSome || sel_edge.isSome then sql ++ " WHERE " else sql
  let sql :=
    match sel_edge with
    | some sel =>
      let sql := addEdgeUpdate sql sel sel_fields true UpdateType.updSel
      if exc_edge.isSome then sql ++ " AND " else sql
    | none => sql
  let sql :=
    match exc_edge with
    | some exc => addEdgeUpdate sql exc exc_fields true UpdateType.updNot
    | none => sql
  finishMutation spi be sql SPI_OK_UPDATE

/-- Callback `cb_updateNodes`. -/
def cb_updateNodes (spi : SPIScript) (topo : LWT_BE_TOPOLOGY)
    (sel_node : Option LWT_ISO_NODE) (sel_fields : Int)
    (upd_node : LWT_ISO_NODE) (upd_fields : Int)
    (exc_node : Option LWT_ISO_NODE) (exc_fields : Int) (be : Backend) : Backend × Int :=
  let sql := "UPDATE \"" ++ topo.name ++ "\".node SET "
  let sql := addNodeUpdate sql upd_node upd_fields true UpdateType.updSet
  let sql := if exc_node.isSome || sel_node.isSome then sql ++ " WHERE " else sql
  let sql :=
    match sel_node with
    | some sel =>
      let sql := addNodeUpdate sql sel sel_fields true UpdateType.updSel
      if exc_node.isSome then sql ++ " AND " else sql
    | none => sql
  let sql :=
    match exc_node with
    | some exc => addNodeUpdate sql exc exc_fields true UpdateType.updNot
    | none => sql
  finishMutation spi be sql SPI_OK_UPDATE

/-- Callback `cb_updateNodesById`. -/
def cb_updateNodesById (spi : SPIScript) (topo : LWT_BE_TOPOLOGY) (nodes : List LWT_ISO_NODE)
    (fields : Int) (be : Backend) : Backend × Int :=
  if fields = 0 then (cberror be "updateNodesById callback called with no update fields!", -1)
  else
    let sep := ""
    let sep1 := ","
    let sql := "WITH newnodes(node_id,"
    let sql := addNodeFields sql fields
    let sql := sql ++ ") AS ( VALUES "
    let sql :=
      appendEach (fun s n => addNodeValues s n (Int.lor LWT_COL_NODE_NODE_ID fields)) sql 0 nodes
    let sql := sql ++ " ) UPDATE \"" ++ topo.name ++ "\".node n SET "
    let (sql, sep) :=
      if hasField fields LWT_COL_NODE_NODE_ID then (sql ++ sep ++ "node_id = o.node_id", sep1)
      else (sql, sep)
    let (sql, sep) :=
      if hasField fields LWT_COL_NODE_CONTAINING_FACE then
        (sql ++ sep ++ "containing_face = o.containing_face", sep1)
      else (sql, sep)
    let sql :=
      if hasField fields LWT_COL_NODE_GEOM then sql ++ sep ++ "geom = o.geom" else sql
    let sql := sql ++ " FROM newnodes o WHERE n.node_id = o.node_id"
    finishMutation spi be sql SPI_OK_UPDATE

/-- Box of a face in `cb_updateFacesById`. The source reads `face->mbr` without
a NULL test; for a face without box the model prints four empty ordinates. -/
def mbrOrEmpty (face : LWT_ISO_FACE) : GBOX :=
  face.mbr.getD
    { xmin := { isZero := true, g := "" }, ymin := { isZero := true, g := "" },
      xmax := { isZero := true, g := "" }, ymax := { isZero := true, g := "" } }

/-- The loop of `cb_updateFacesById`: one `<id> id, <envelope> mbr` per face,
appended one after the other. -/
def appendFaceRows (srid : Int) (str : String) : List LWT_ISO_FACE → String
  | [] => str
  | face :: rest =>
    appendFaceRows srid
      (str ++ fmtInt face.face_id ++ " id, " ++ fmtEnvelope (mbrOrEmpty face) srid ++ " mbr") rest

/-- Callback `cb_updateFacesById`. -/
def cb_updateFacesById (spi : SPIScript) (topo : LWT_BE_TOPOLOGY) (faces : List LWT_ISO_FACE)
    (be : Backend) : Backend × Int :=
  let sql := "WITH newfaces AS ( SELECT "
  let sql := appendFaceRows topo.srid sql faces
  let sql := sql ++ ") UPDATE \"" ++ topo.name ++
    "\".face o SET mbr = i.mbr FROM newfaces i WHERE o.face_id = i.id"
  finishMutation spi be sql SPI_OK_UPDATE

/-- Callback `cb_updateEdgesById`. -/
def cb_updateEdgesById (spi : SPIScript) (topo : LWT_BE_TOPOLOGY) (edges : List LWT_ISO_EDGE)
    (fields : Int) (be : Backend) : Backend × Int :=
  if fields = 0 then (cberror be "updateEdgesById callback called with no update fields!", -1)
  else
    let sep := ""
    let sep1 := ","
    let sql := "WITH newedges(edge_id,"
    let sql := addEdgeFields sql fields false
    let sql := sql ++ ") AS ( VALUES "
    let sql :=
      appendEach (fun s e => addEdgeValues s e (Int.lor fields LWT_COL_EDGE_EDGE_ID) false)
        sql 0 edges
    let sql := sql ++ ") UPDATE \"" ++ topo.name ++ "\".edge_data e SET "
    let (sql, sep) :=
      if hasField fields LWT_COL_EDGE_START_NODE then
        (sql ++ sep ++ "start_node = o.start_node", sep1)
      else (sql, sep)
    let (sql, sep) :=
      if hasField fields LWT_COL_EDGE_END_NODE then (sql ++ sep ++ "end_node = o.end_node", sep1)
      else (sql, sep)
    let (sql, sep) :=
      if hasField fields LWT_COL_EDGE_FACE_LEFT then
        (sql ++ sep ++ "left_face = o.left_face", sep1)
      else (sql, sep)
    let (sql, sep) :=
      if hasField fields LWT_COL_EDGE_FACE_RIGHT then
        (sql ++ sep ++ "right_face = o.right_face", sep1)
      else (sql, sep)
    let (sql, sep) :=
      if hasField fields LWT_COL_EDGE_NEXT_LEFT then
        (sql ++ sep ++ "next_left_edge = o.next_left_edge, " ++
          "abs_next_left_edge = abs(o.next_left_edge)", sep1)
      else (sql, sep)
    let (sql, sep) :=
      if hasField fields LWT_COL_EDGE_NEXT_RIGHT then
        (sql ++ sep ++ "next_right_edge = o.next_right_edge, " ++
          "abs_next_right_edge = abs(o.next_right_edge)", sep1)
      else (sql, sep)
    let sql :=
      if hasField fields LWT_COL_EDGE_GEOM then sql ++ sep ++ "geom = o.geom" else sql
    let sql := sql ++ " FROM newedges o WHERE e.edge_id = o.edge_id"
    finishMutation spi be sql SPI_OK_UPDATE

/-- Callback `cb_deleteEdges`. -/
def cb_deleteEdges (spi : SPIScript) (topo : LWT_BE_TOPOLOGY) (sel_edge : LWT_ISO_EDGE)
    (sel_fields : Int) (be : Backend) : Backend × Int :=
  let sql := "DELETE FROM \"" ++ topo.name ++ "\".edge_data WHERE "
  let sql := addEdgeUpdate sql sel_edge sel_fields false UpdateType.updSel
  finishMutation spi be sql SPI_OK_DELETE

/-- Callback `cb_deleteFacesById`. -/
def cb_deleteFacesById (spi : SPIScript) (topo : LWT_BE_TOPOLOGY) (ids : List LWT_ELEMID)
    (be : Backend) : Backend × Int :=
  let sql := "DELETE FROM \"" ++ topo.name ++ "\".face WHERE face_id IN ("
  let sql := appendIds sql 0 ids
  let sql := sql ++ ")"
  finishMutation spi be sql SPI_OK_DELETE

/-- Callback `cb_getNextEdgeId`. -/
def cb_getNextEdgeId (spi : SPIScript) (topo : LWT_BE_TOPOLOGY) (be : Backend) :
    Backend × LWT_ELEMID :=
  let sql := "SELECT nextval('\"" ++ topo.name ++ "\".edge_data_edge_id_seq')"
  let (be, r) := SPI_execute spi be sql false 0
  if r.status != SPI_OK_SELECT then (cberror be (unexpectedReturn r.status sql), -1)
  else
    let be := markChanged be r.processed
    if r.processed != 1 then (cberror be (processedExpected r.processed 1), -1)
    else
      let (dat, isnull) := SPI_getbinval (r.vals.getD 0 []) 1
      if isnull then (cberror be "nextval for edge_id returned null", -1)
      else (be, DatumGetInt64 dat)

/-! ## Callbacks: split propagation

`SPI_processed` and `SPI_tuptable` are globals of the store interface: every
`SPI_execute` overwrites them with the outcome of the statement just run (the
propagators save `SPI_processed` in `ntopogeoms` for that reason). The row loop
of the propagators reads `SPI_tuptable->vals[i]` afresh in every iteration, so
the loop state below carries the row table of the latest statement. Reading a
row that table does not have is a fault of the process (the result `none`). -/

/-- Helper `getNotNullInt32(row, desc, col, &val)`: `none` stands for the
return value 0 (NULL column), `some v` for 1 with `*val = v`. -/
def getNotNullInt32 (row : HeapTuple) (col : Nat) : Option Int :=
  let (dat, isnull) := SPI_getbinval row col
  if isnull then none else some (DatumGetInt32 dat)

/-- Message `unexpected null <column> in "<name>".relation`. -/
def unexpectedNull (column name : String) : String :=
  "unexpected null " ++ column ++ " in \"" ++ name ++ "\".relation"

/-- The row loop of `cb_updateTopoGeomEdgeSplit`: `n` iterations are left, `i`
is the loop index and `vals` the row table the store interface holds now. -/
def edgeSplitLoop (spi : SPIScript) (topo : LWT_BE_TOPOLOGY) (new_edge1 new_edge2 : LWT_ELEMID) :
    Nat → Nat → List HeapTuple → Backend → Backend × Option Int
  | 0, _, _, be => (be, some 1)
  | n + 1, i, vals, be =>
    match vals.get? i with
    | none => (be, none)
    | some row =>
      match getNotNullInt32 row 1 with
      | none => (cberror be (unexpectedNull "element_id" topo.name), some 0)
      | some element_id =>
        let negate := decide (element_id < 0)
        match getNotNullInt32 row 2 with
        | none => (cberror be (unexpectedNull "topogeo_id" topo.name), some 0)
        | some topogeo_id =>
          match getNotNullInt32 row 3 with
          | none => (cberror be (unexpectedNull "layer_id" topo.name), some 0)
          | some layer_id =>
            match getNotNullInt32 row 4 with
            | none => (cberror be (unexpectedNull "element_type" topo.name), some 0)
            | some element_type =>
              let sql := "INSERT INTO \"" ++ topo.name ++ "\".relation VALUES (" ++
                fmtInt topogeo_id ++ "," ++ fmtInt layer_id ++ "," ++
                fmtInt (if negate then neg64 new_edge1 else new_edge1) ++ "," ++
                fmtInt element_type ++ ")"
              let (be, r) := SPI_execute spi be sql false 0
              if r.status != SPI_OK_INSERT then
                (cberror be (unexpectedReturn r.status sql), some 0)
              else
                let be := markChanged be r.processed
                if new_edge2 != -1 then
                  let sql := "INSERT INTO FROM \"" ++ topo.name ++ "\".relation VALUES (" ++
                    fmtInt topogeo_id ++ "," ++ fmtInt layer_id ++ "," ++
                    fmtInt (if negate then neg64 new_edge2 else new_edge2) ++ "," ++
                    fmtInt element_type
                  let (be, r) := SPI_execute spi be sql false 0
                  if r.status != SPI_OK_INSERT then
                    (cberror be (unexpectedReturn r.status sql), some 0)
                  else
                    let be := markChanged be r.processed
                    edgeSplitLoop spi topo new_edge1 new_edge2 n (i + 1) r.vals be
                else edgeSplitLoop spi topo new_edge1 new_edge2 n (i + 1) r.vals be

/-- Callback `cb_updateTopoGeomEdgeSplit`: `some 1` on success, `some 0` on
failure, `none` when the process faults. -/
def cb_updateTopoGeomEdgeSplit (spi : SPIScript) (topo : LWT_BE_TOPOLOGY)
    (split_edge new_edge1 new_edge2 : LWT_ELEMID) (be : Backend) : Backend × Option Int :=
  let proj := "r.element_id, r.topogeo_id, r.layer_id, r.element_type"
  let sql := if new_edge2 = -1 then "SELECT " ++ proj else "DELETE"
  let sql := sql ++ " FROM \"" ++ topo.name ++ "\".relation r " ++
    (if new_edge2 = -1 then "," else "USING") ++ " topology.layer l WHERE l.topology_id = " ++
    fmtInt topo.id ++ " AND l.level = 0 AND l.layer_id = r.layer_id AND abs(r.element_id) = " ++
    fmtInt split_edge ++ " AND r.element_type = 2"
  let sql := if new_edge2 != -1 then sql ++ " RETURNING " ++ proj else sql
  let (be, r) :=
    SPI_execute spi be sql (if new_edge2 = -1 then !be.be_data.data_changed else false) 0
  if r.status != (if new_edge2 = -1 then SPI_OK_SELECT else SPI_OK_DELETE_RETURNING) then
    (cberror be (unexpectedReturn r.status sql), some 0)
  else
    let be :=
      if r.status == SPI_OK_DELETE_RETURNING && r.processed != 0 then
        { be with be_data := { be.be_data with data_changed := true } }
      else be
    let ntopogeoms := r.processed
    edgeSplitLoop spi topo new_edge1 new_edge2 ntopogeoms 0 r.vals be

/-- The row loop of `cb_updateTopoGeomFaceSplit` (as `edgeSplitLoop`). -/
def faceSplitLoop (spi : SPIScript) (topo : LWT_BE_TOPOLOGY) (new_face1 new_face2 : LWT_ELEMID) :
    Nat → Nat → List HeapTuple → Backend → Backend × Option Int
  | 0, _, _, be => (be, some 1)
  | n + 1, i, vals, be =>
    match vals.get? i with
    | none => (be, none)
    | some row =>
      match getNotNullInt32 row 1 with
      | none => (cberror be (unexpectedNull "element_id" topo.name), some 0)
      | some element_id =>
        let negate := decide (element_id < 0)
        match getNotNullInt32 row 2 with
        | none => (cberror be (unexpectedNull "topogeo_id" topo.name), some 0)
        | some topogeo_id =>
          match getNotNullInt32 row 3 with
          | none => (cberror be (unexpectedNull "layer_id" topo.name), some 0)
          | some layer_id =>
            match getNotNullInt32 row 4 with
            | none => (cberror be (unexpectedNull "element_type" topo.name), some 0)
            | some element_type =>
              let sql := "INSERT INTO \"" ++ topo.name ++ "\".relation VALUES (" ++
                fmtInt topogeo_id ++ "," ++ fmtInt layer_id ++ "," ++
                fmtInt (if negate then neg64 new_face1 else new_face1) ++ "," ++
                fmtInt element_type ++ ")"
              let (be, r) := SPI_execute spi be sql false 0
              if r.status != SPI_OK_INSERT then
                (cberror be (unexpectedReturn r.status sql), some 0)
              else
                let be := markChanged be r.processed
                if new_face2 != -1 then
                  let sql := "INSERT INTO \"" ++ topo.name ++ "\".relation VALUES (" ++
                    fmtInt topogeo_id ++ "," ++ fmtInt layer_id ++ "," ++
                    fmtInt (if negate then neg64 new_face2 else new_face2) ++ "," ++
                    fmtInt element_type ++ ")"
                  let (be, r) := SPI_execute spi be sql false 0
                  if r.status != SPI_OK_INSERT then
                    (cberror be (unexpectedReturn r.status sql), some 0)
                  else
                    let be := markChanged be r.processed
                    faceSplitLoop spi topo new_face1 new_face2 n (i + 1) r.vals be
                else faceSplitLoop spi topo new_face1 new_face2 n (i + 1) r.vals be

/-- Callback `cb_updateTopoGeomFaceSplit`: `some 1` on success, `some 0` on
failure, `none` when the process faults. -/
def cb_updateTopoGeomFaceSplit (spi : SPIScript) (topo : LWT_BE_TOPOLOGY)
    (split_face new_face1 new_face2 : LWT_ELEMID) (be : Backend) : Backend × Option Int :=
  let proj := "r.element_id, r.topogeo_id, r.layer_id, r.element_type"
  let sql := if new_face2 = -1 then "SELECT " ++ proj else "DELETE"
  let sql := sql ++ " FROM \"" ++ topo.name ++ "\".relation r " ++
    (if new_face2 = -1 then "," else "USING") ++ " topology.layer l WHERE l.topology_id = " ++
    fmtInt topo.id ++ " AND l.level = 0 AND l.layer_id = r.layer_id AND abs(r.element_id) = " ++
    fmtInt split_face ++ " AND r.element_type = 3"
  let sql := if new_face2 != -1 then sql ++ " RETURNING " ++ proj else sql
  let (be, r) :=
    SPI_execute spi be sql (if new_face2 = -1 then !be.be_data.data_changed else false) 0
  if r.status != (if new_face2 = -1 then SPI_OK_SELECT else SPI_OK_DELETE_RETURNING) then
    (cberror be (unexpectedReturn r.status sql), some 0)
  else
    let be :=
      if r.status == SPI_OK_DELETE_RETURNING && r.processed != 0 then
        { be with be_data := { be.be_data with data_changed := true } }
      else be
    let ntopogeoms := r.processed
    faceSplitLoop spi topo new_face1 new_face2 ntopogeoms 0 r.vals be

/-! ## Rows of the element tables, as the projection names them -/

/-- Splitter for a rendered column list: pieces between commas, blanks dropped. -/
def splitColumnsAux : List Char → List Char → List String
  | [], cur => [String.mk cur.reverse]
  | c :: cs, cur =>
    if c = ',' then String.mk cur.reverse :: splitColumnsAux cs []
    else if c = ' ' then splitColumnsAux cs cur
    else splitColumnsAux cs (c :: cur)

/-- Column names of a rendered projection, in rendering order. -/
def projectionColumns (s : String) : List String :=
  if s = "" then [] else splitColumnsAux s.data []

/-- Content of the named `edge_data` column for an edge record (SQL NULL for an
absent geometry and for a name the table does not have). -/
def edgeColumn (e : LWT_ISO_EDGE) (name : String) : Option Datum :=
  if name = "edge_id" then some (Datum.word e.edge_id)
  else if name = "start_node" then some (Datum.word e.start_node)
  else if name = "end_node" then some (Datum.word e.end_node)
  else if name = "left_face" then some (Datum.word e.face_left)
  else if name = "right_face" then some (Datum.word e.face_right)
  else if name = "next_left_edge" then some (Datum.word e.next_left)
  else if name = "next_right_edge" then some (Datum.word e.next_right)
  else if name = "geom" then e.geom.map (fun l => Datum.geom (lwline_as_lwgeom l))
  else none

/-- Result row holding an edge record's values in the column order that
`addEdgeFields(fields, 0)` renders. -/
def edgeRow (e : LWT_ISO_EDGE) (fields : Int) : HeapTuple :=
  (projectionColumns (addEdgeFields "" fields false)).map (edgeColumn e)

/-- Canonical edge column list restricted to a field set. -/
def canonicalEdgeColumns (fields : Int) (full : Bool) : List String :=
  (if hasField fields LWT_COL_EDGE_EDGE_ID then ["edge_id"] else []) ++
  (if hasField fields LWT_COL_EDGE_START_NODE then ["start_node"] else []) ++
  (if hasField fields LWT_COL_EDGE_END_NODE then ["end_node"] else []) ++
  (if hasField fields LWT_COL_EDGE_FACE_LEFT then ["left_face"] else []) ++
  (if hasField fields LWT_COL_EDGE_FACE_RIGHT then ["right_face"] else []) ++
  (if hasField fields LWT_COL_EDGE_NEXT_LEFT then
    (if full then ["next_left_edge", "abs_next_left_edge"] else ["next_left_edge"]) else []) ++
  (if hasField fields LWT_COL_EDGE_NEXT_RIGHT then
    (if full then ["next_right_edge", "abs_next_right_edge"] else ["next_right_edge"]) else []) ++
  (if hasField fields LWT_COL_EDGE_GEOM then ["geom"] else [])

/-- Two edge records are equal on every field of the field set. -/
def edgeAgreeOn (fields : Int) (a b : LWT_ISO_EDGE) : Prop :=
  (hasField fields LWT_COL_EDGE_EDGE_ID = true → a.edge_id = b.edge_id) ∧
  (hasField fields LWT_COL_EDGE_START_NODE = true → a.start_node = b.start_node) ∧
  (hasField fields LWT_COL_EDGE_END_NODE = true → a.end_node = b.end_node) ∧
  (hasField fields LWT_COL_EDGE_FACE_LEFT = true → a.face_left = b.face_left) ∧
  (hasField fields LWT_COL_EDGE_FACE_RIGHT = true → a.face_right = b.face_right) ∧
  (hasField fields LWT_COL_EDGE_NEXT_LEFT = true → a.next_left = b.next_left) ∧
  (hasField fields LWT_COL_EDGE_NEXT_RIGHT = true → a.next_right = b.next_right) ∧
  (hasField fields LWT_COL_EDGE_GEOM = true → a.geom = b.geom)

instance (fields : Int) (a b : LWT_ISO_EDGE) : Decidable (edgeAgreeOn fields a b) := by
  unfold edgeAgreeOn; infer_instance

/-- Every identifier field of the record is a 64-bit element identifier. -/
def edgeInt64 (e : LWT_ISO_EDGE) : Prop :=
  isInt64 e.edge_id ∧ isInt64 e.start_node ∧ isInt64 e.end_node ∧ isInt64 e.face_left ∧
  isInt64 e.face_right ∧ isInt64 e.next_left ∧ isInt64 e.next_right

instance (e : LWT_ISO_EDGE) : Decidable (edgeInt64 e) := by
  unfold edgeInt64; infer_instance

/-- Every identifier field of the record that is in the field set is in the
signed 32-bit range. -/
def edgeInt32On (fields : Int) (e : LWT_ISO_EDGE) : Prop :=
  (hasField fields LWT_COL_EDGE_EDGE_ID = true → isInt32 e.edge_id) ∧
  (hasField fields LWT_COL_EDGE_START_NODE = true → isInt32 e.start_node) ∧
  (hasField fields LWT_COL_EDGE_END_NODE = true → isInt32 e.end_node) ∧
  (hasField fields LWT_COL_EDGE_FACE_LEFT = true → isInt32 e.face_left) ∧
  (hasField fields LWT_COL_EDGE_FACE_RIGHT = true → isInt32 e.face_right) ∧
  (hasField fields LWT_COL_EDGE_NEXT_LEFT = true → isInt32 e.next_left) ∧
  (hasField fields LWT_COL_EDGE_NEXT_RIGHT = true → isInt32 e.next_right)

instance (fields : Int) (e : LWT_ISO_EDGE) : Decidable (edgeInt32On fields e) := by
  unfold edgeInt32On; infer_instance

/-- An edge whose identifier is one past the largest 32-bit value. -/
def edgeBeyondInt32 : LWT_ISO_EDGE :=
  { edge_id := 2147483648, start_node := 1, end_node := 2, face_left := 0, face_right := 0,
    next_left := 1, next_right := -1, geom := none }

/-- A sample edge with a geometry. -/
def sampleEdge : LWT_ISO_EDGE :=
  { edge_id := 7, start_node := 1, end_node := 2, face_left := 0, face_right := 3,
    next_left := -7, next_right := 7, geom := some { hexewkb := "0102" } }

/-- A record of unrelated content, standing for memory not yet filled. -/
def blankEdge : LWT_ISO_EDGE :=
  { edge_id := 0, start_node := 0, end_node := 0, face_left := 0, face_right := 0,
    next_left := 0, next_right := 0, geom := none }

/-- Outcome of a fetch by identifier, given the store's answer `r` to its
statement: on a return code other than `SPI_OK_SELECT` the count is -1, no
records are returned and an error message naming the statement is recorded; on
`SPI_OK_SELECT` the count is the number of rows, no records are returned for
0 rows, and otherwise record `i` is row `i` materialized with the field set
over whatever slot `i` held. -/
def FetchOutcome {α : Type} (fill : α → HeapTuple → Int → α) (mem : Nat → α) (r : SPIResult)
    (fields : Int) (be : Backend) (out : Backend × Fetched α) : Prop :=
  (r.status ≠ SPI_OK_SELECT →
    out.2 = { elems := none, numelems := -1 } ∧
    ∃ call : SPICall, out.1 =
      cberror { be with calls := be.calls ++ [call] } (unexpectedReturn r.status call.sql)) ∧
  (r.status = SPI_OK_SELECT →
    out.2.numelems = r.processed ∧
    (r.processed = 0 → out.2.elems = none) ∧
    (r.processed ≠ 0 → ∃ recs : List α, out.2.elems = some recs ∧ recs.length = r.processed ∧
      ∀ (i : Nat) (row : HeapTuple), i < r.processed → r.vals[i]? = some row →
        recs[i]? = some (fill (mem i) row fields)))

/-- Records of a batch after a successful insert whose answer carries the rows
`vals`: the batch keeps its length, a record that had an identifier is
untouched, and a record whose identifier was -1 differs from the original only
in its identifier (`setId` changes nothing else), now the `int32` value of the
first column of the row at the record's own position. -/
def IdsAssigned {α : Type} (getId : α → LWT_ELEMID) (setId : α → LWT_ELEMID → α)
    (before after : List α) (vals : List HeapTuple) : Prop :=
  after.length = before.length ∧
  (∀ (i : Nat) (x : α), before[i]? = some x → getId x ≠ -1 → after[i]? = some x) ∧
  (∀ (i : Nat) (x : α) (d : Datum) (rest : HeapTuple),
    before[i]? = some x → getId x = -1 → vals[i]? = some (some d :: rest) →
    after[i]? = some (setId x (DatumGetInt32 d)))

/-! ## Sessions: sequences of callbacks within one logical operation -/

/-- One call of the engine into the adapter, with its arguments (the callbacks
of `be_callbacks` that reach the store). -/
inductive Callback where
  | loadTopologyByName (name : String)
  | getNodeById (topo : LWT_BE_TOPOLOGY) (mem : Nat → LWT_ISO_NODE) (ids : List LWT_ELEMID)
      (fields : Int)
  | getNodeWithinDistance2D (topo : LWT_BE_TOPOLOGY) (mem : Nat → LWT_ISO_NODE) (pt : LWPOINT)
      (dist : Double) (fields : Int) (limit : Int)
  | insertNodes (topo : LWT_BE_TOPOLOGY) (nodes : List LWT_ISO_NODE)
  | getEdgeById (topo : LWT_BE_TOPOLOGY) (mem : Nat → LWT_ISO_EDGE) (ids : List LWT_ELEMID)
      (fields : Int)
  | getEdgeWithinDistance2D (topo : LWT_BE_TOPOLOGY) (mem : Nat → LWT_ISO_EDGE) (pt : LWPOINT)
      (dist : Double) (fields : Int) (limit : Int)
  | getNextEdgeId (topo : LWT_BE_TOPOLOGY)
  | insertEdges (topo : LWT_BE_TOPOLOGY) (edges : List LWT_ISO_EDGE)
  | updateEdges (topo : LWT_BE_TOPOLOGY) (sel_edge : Option LWT_ISO_EDGE) (sel_fields : Int)
      (upd_edge : LWT_ISO_EDGE) (upd_fields : Int) (exc_edge : Option LWT_ISO_EDGE)
      (exc_fields : Int)
  | getFacesById (topo : LWT_BE_TOPOLOGY) (mem : Nat → LWT_ISO_FACE) (ids : List LWT_ELEMID)
      (fields : Int)
  | getFaceContainingPoint (topo : LWT_BE_TOPOLOGY) (pt : LWPOINT)
  | updateTopoGeomEdgeSplit (topo : LWT_BE_TOPOLOGY) (split_edge new_edge1 new_edge2 : LWT_ELEMID)
  | deleteEdges (topo : LWT_BE_TOPOLOGY) (sel_edge : LWT_ISO_EDGE) (sel_fields : Int)
  | getNodeWithinBox2D (topo : LWT_BE_TOPOLOGY) (mem : Nat → LWT_ISO_NODE) (box : GBOX)
      (fields : Int) (limit : Int)
  | getEdgeWithinBox2D (topo : LWT_BE_TOPOLOGY) (mem : Nat → LWT_ISO_EDGE) (box : GBOX)
      (fields : Int) (limit : Int)
  | getEdgeByNode (topo : LWT_BE_TOPOLOGY) (mem : Nat → LWT_ISO_EDGE) (ids : List LWT_ELEMID)
      (fields : Int)
  | updateNodes (topo : LWT_BE_TOPOLOGY) (sel_node : Option LWT_ISO_NODE) (sel_fields : Int)
      (upd_node : LWT_ISO_NODE) (upd_fields : Int) (exc_node : Option LWT_ISO_NODE)
      (exc_fields : Int)
  | updateTopoGeomFaceSplit (topo : LWT_BE_TOPOLOGY) (split_face new_face1 new_face2 : LWT_ELEMID)
  | insertFaces (topo : LWT_BE_TOPOLOGY) (faces : List LWT_ISO_FACE)
  | updateFacesById (topo : LWT_BE_TOPOLOGY) (faces : List LWT_ISO_FACE)
  | getRingEdges (topo : LWT_BE_TOPOLOGY) (edge : LWT_ELEMID) (limit : Int)
  | updateEdgesById (topo : LWT_BE_TOPOLOGY) (edges : List LWT_ISO_EDGE) (fields : Int)
  | getEdgeByFace (topo : LWT_BE_TOPOLOGY) (mem : Nat → LWT_ISO_EDGE) (ids : List LWT_ELEMID)
      (fields : Int)
  | getNodeByFace (topo : LWT_BE_TOPOLOGY) (mem : Nat → LWT_ISO_NODE) (ids : List LWT_ELEMID)
      (fields : Int)
  | updateNodesById (topo : LWT_BE_TOPOLOGY) (nodes : List LWT_ISO_NODE) (fields : Int)
  | deleteFacesById (topo : LWT_BE_TOPOLOGY) (ids : List LWT_ELEMID)

/-- Session after one callback (what the callback hands back is dropped). -/
def runCallback (spi : SPIScript) (c : Callback) (be : Backend) : Backend :=
  match c with
  | Callback.loadTopologyByName name => (cb_loadTopologyByName spi name be).1
  | Callback.getNodeById topo mem ids fields => (cb_getNodeById spi topo mem ids fields be).1
  | Callback.getNodeWithinDistance2D topo mem pt dist fields limit =>
    (cb_getNodeWithinDistance2D spi topo mem pt dist fields limit be).1
  | Callback.insertNodes topo nodes => (cb_insertNodes spi topo nodes be).1
  | Callback.getEdgeById topo mem ids fields => (cb_getEdgeById spi topo mem ids fields be).1
  | Callback.getEdgeWithinDistance2D topo mem pt dist fields limit =>
    (cb_getEdgeWithinDistance2D spi topo mem pt dist fields limit be).1
  | Callback.getNextEdgeId topo => (cb_getNextEdgeId spi topo be).1
  | Callback.insertEdges topo edges => (cb_insertEdges spi topo edges be).1
  | Callback.updateEdges topo sel sf upd uf exc ef =>
    (cb_updateEdges spi topo sel sf upd uf exc ef be).1
  | Callback.getFacesById topo mem ids fields => (cb_getFacesById spi topo mem ids fields be).1
  | Callback.getFaceContainingPoint topo pt => (cb_getFaceContainingPoint spi topo pt be).1
  | Callback.updateTopoGeomEdgeSplit topo s n1 n2 =>
    (cb_updateTopoGeomEdgeSplit spi topo s n1 n2 be).1
  | Callback.deleteEdges topo sel sf => (cb_deleteEdges spi topo sel sf be).1
  | Callback.getNodeWithinBox2D topo mem box fields limit =>
    (cb_getNodeWithinBox2D spi topo mem box fields limit be).1
  | Callback.getEdgeWithinBox2D topo mem box fields limit =>
    (cb_getEdgeWithinBox2D spi topo mem box fields limit be).1
  | Callback.getEdgeByNode topo mem ids fields => (cb_getEdgeByNode spi topo mem ids fields be).1
  | Callback.updateNodes topo sel sf upd uf exc ef =>
    (cb_updateNodes spi topo sel sf upd uf exc ef be).1
  | Callback.updateTopoGeomFaceSplit topo s n1 n2 =>
    (cb_updateTopoGeomFaceSplit spi topo s n1 n2 be).1
  | Callback.insertFaces topo faces => (cb_insertFaces spi topo faces be).1
  | Callback.updateFacesById topo faces => (cb_updateFacesById spi topo faces be).1
  | Callback.getRingEdges topo edge limit => (cb_getRingEdges spi topo edge limit be).1
  | Callback.updateEdgesById topo edges fields => (cb_updateEdgesById spi topo edges fields be).1
  | Callback.getEdgeByFace topo mem ids fields => (cb_getEdgeByFace spi topo mem ids fields be).1
  | Callback.getNodeByFace topo mem ids fields => (cb_getNodeByFace spi topo mem ids fields be).1
  | Callback.updateNodesById topo nodes fields => (cb_updateNodesById spi topo nodes fields be).1
  | Callback.deleteFacesById topo ids => (cb_deleteFacesById spi topo ids be).1

/-- Session after a sequence of callbacks, run in order. -/
def runSession (spi : SPIScript) (cbs : List Callback) (be : Backend) : Backend :=
  cbs.foldl (fun b c => runCallback spi c b) be

/-- The statements a callback issues when run in a session. -/
def issuedBy (spi : SPIScript) (c : Callback) (be : Backend) : List SPICall :=
  (runCallback spi c be).calls.drop be.calls.length

/-- The fetch callbacks: lookups that only read. -/
def Callback.isFetch : Callback → Bool
  | Callback.loadTopologyByName _ => true
  | Callback.getNodeById _ _ _ _ => true
  | Callback.getNodeWithinDistance2D _ _ _ _ _ _ => true
  | Callback.getEdgeById _ _ _ _ => true
  | Callback.getEdgeWithinDistance2D _ _ _ _ _ _ => true
  | Callback.getFacesById _ _ _ _ => true
  | Callback.getFaceContainingPoint _ _ => true
  | Callback.getNodeWithinBox2D _ _ _ _ _ => true
  | Callback.getEdgeWithinBox2D _ _ _ _ _ => true
  | Callback.getEdgeByNode _ _ _ _ => true
  | Callback.getRingEdges _ _ _ => true
  | Callback.getEdgeByFace _ _ _ _ => true
  | Callback.getNodeByFace _ _ _ _ => true
  | _ => false

/-- Return code an insert, update or delete callback takes for success; `none`
for the other callbacks, and for an update by identifier called without
fields, which issues no statement. -/
def Callback.mutationStatus : Callback → Option Int
  | Callback.insertNodes _ _ => some SPI_OK_INSERT_RETURNING
  | Callback.insertEdges _ edges =>
    some (if edges.any (fun e => e.edge_id == -1) then SPI_OK_INSERT_RETURNING else SPI_OK_INSERT)
  | Callback.insertFaces _ faces =>
    some (if faces.any (fun f => f.face_id == -1) then SPI_OK_INSERT_RETURNING else SPI_OK_INSERT)
  | Callback.updateEdges _ _ _ _ _ _ _ => some SPI_OK_UPDATE
  | Callback.updateNodes _ _ _ _ _ _ _ => some SPI_OK_UPDATE
  | Callback.updateNodesById _ _ fields => if fields = 0 then none else some SPI_OK_UPDATE
  | Callback.updateEdgesById _ _ fields => if fields = 0 then none else some SPI_OK_UPDATE
  | Callback.updateFacesById _ _ => some SPI_OK_UPDATE
  | Callback.deleteEdges _ _ _ => some SPI_OK_DELETE
  | Callback.deleteFacesById _ _ => some SPI_OK_DELETE
  | _ => none

/-- An insert, update or delete callback, run in session `be`, processes at
least one row: its statement is answered with the return code it takes for
success and a non-zero `SPI_processed`. -/
def processesRows (spi : SPIScript) (c : Callback) (be : Backend) : Prop :=
  c.mutationStatus = some (spi be.calls.length).status ∧ (spi be.calls.length).processed ≠ 0

/-- A step that leaves the flag alone and issues exactly one statement, in
read-only mode unless the flag is set. -/
def FetchStep (be be' : Backend) : Prop :=
  be'.be_data.data_changed = be.be_data.data_changed ∧
  ∃ call : SPICall, be'.calls = be.calls ++ [call] ∧ call.read_only = !be.be_data.data_changed

instance (spi : SPIScript) (c : Callback) (be : Backend) : Decidable (processesRows spi c be) := by
  unfold processesRows; infer_instance

/-! ## Sample sessions -/

/-- The sample topology `tp`. -/
def tp : LWT_BE_TOPOLOGY := { name := "tp", id := 1, srid := 4326, precision := 0 }

/-- A session at the start of a logical operation. -/
def be0 : Backend := { be_data := { lastErrorMsg := "", data_changed := false }, calls := [] }

/-- A row of the relation table: element_id, topogeo_id, layer_id, element_type. -/
def relRow (e t l y : Int) : HeapTuple :=
  [some (Datum.word e), some (Datum.word t), some (Datum.word l), some (Datum.word y)]

/-- A store whose first statement captures two relation rows and whose later
statements are inserts of one row each (an insert hands back no row table). -/
def twoRowsThenInserts (first : Int) : SPIScript := fun n =>
  if n = 0 then { status := first, processed := 2, vals := [relRow 5 10 1 3, relRow (-5) 11 1 3] }
  else { status := SPI_OK_INSERT, processed := 1, vals := [] }

/-- As `twoRowsThenInserts`, the second captured row having a NULL topogeo_id. -/
def secondRowNull : SPIScript := fun n =>
  if n = 0 then
    { status := SPI_OK_DELETE_RETURNING, processed := 2,
      vals := [relRow 5 10 1 3, [some (Datum.word (-5)), none, some (Datum.word 1),
        some (Datum.word 3)]] }
  else { status := SPI_OK_INSERT, processed := 1, vals := [] }

/-- A store whose first statement captures one relation row of an edge and
whose later statements are inserts of one row each. -/
def oneRowThenInserts : SPIScript := fun n =>
  if n = 0 then { status := SPI_OK_DELETE_RETURNING, processed := 1, vals := [relRow 5 10 1 2] }
  else { status := SPI_OK_INSERT, processed := 1, vals := [] }

/-- A store that answers every statement as an insert returning the one
identifier 42. -/
def returnsId42 : SPIScript := fun _ =>
  { status := SPI_OK_INSERT_RETURNING, processed := 1, vals := [[some (Datum.word 42)]] }

/-- A store that fails every statement (`SPI_ERROR_ARGUMENT`). -/
def alwaysFails : SPIScript := fun _ => { status := -6, processed := 0, vals := [] }

/-- A store that answers every statement with the two-row ring 7, -8. -/
def ringOfTwo : SPIScript := fun _ =>
  { status := SPI_OK_SELECT, processed := 2,
    vals := [[some (Datum.word 7), some (Datum.word 7)],
             [some (Datum.word (-8)), some (Datum.word 8)]] }

/-- A node that needs an identifier. -/
def newNode : LWT_ISO_NODE := { node_id := -1, containing_face := 0, geom := none }

/-- An edge that needs an identifier. -/
def newEdge : LWT_ISO_EDGE := { sampleEdge with edge_id := -1 }

/-- A face that needs an identifier. -/
def newFace : LWT_ISO_FACE := { face_id := -1, mbr := none }

/-! ## Outcomes of the mutating callbacks and sample inputs for the fetches -/

/-- Outcome of a mutating callback whose statement the store answers with `r`,
`ok` being the return code the callback takes for success and `failure` its
failure value: on another return code the callback returns `failure` and
records the message naming the return code and the statement; and it returns
more than `failure` only when the return code was `ok`. -/
def MutationOutcome (failure ok : Int) (r : SPIResult) (be : Backend) (out : Backend × Int) :
    Prop :=
  (r.status ≠ ok →
    out.2 = failure ∧
    ∃ call : SPICall, out.1 =
      cberror { be with calls := be.calls ++ [call] } (unexpectedReturn r.status call.sql)) ∧
  (failure < out.2 → r.status = ok)

/-- Return code an insert takes for success: with RETURNING when identifiers
are needed. -/
def insertStatus (needsReturn : Bool) : Int :=
  if needsReturn then SPI_OK_INSERT_RETURNING else SPI_OK_INSERT

/-- A store that answers every statement with one row holding the number -2. -/
def returnsMinus2 : SPIScript := fun _ =>
  { status := SPI_OK_SELECT, processed := 1, vals := [[some (Datum.word (-2))]] }

/-- A store that answers every statement with one row holding the face 9. -/
def returnsFace9 : SPIScript := fun _ =>
  { status := SPI_OK_SELECT, processed := 1, vals := [[some (Datum.word 9)]] }

/-- A store that answers every statement with one row holding the boolean true. -/
def answersTrue : SPIScript := fun _ =>
  { status := SPI_OK_SELECT, processed := 1, vals := [[some (Datum.word 1)]] }

/-- A query point. -/
def samplePoint : LWPOINT := { hexewkb := "0101" }

/-- The distance 2.5. -/
def distance2_5 : Double := { isZero := false, g := "2.5" }

/-- The distance 0. -/
def distance0 : Double := { isZero := true, g := "0" }

/-- Ordinate with the given `%g` text. -/
def ordinate (g : String) : Double := { isZero := false, g := g }

/-- Two faces with identifiers and boxes. -/
def twoFaces : List LWT_ISO_FACE :=
  [{ face_id := 1, mbr := some { xmin := ordinate "0", ymin := ordinate "0",
                                 xmax := ordinate "1", ymax := ordinate "1" } },
   { face_id := 2, mbr := some { xmin := ordinate "1", ymin := ordinate "1",
                                 xmax := ordinate "2", ymax := ordinate "2" } }]

/-- A node with identifier 7 and a geometry. -/
def node7 : LWT_ISO_NODE := { node_id := 7, containing_face := 0, geom := some samplePoint }

/-- The unit box. -/
def unitBox : GBOX :=
  { xmin := ordinate "0", ymin := ordinate "0", xmax := ordinate "1", ymax := ordinate "1" }

/-! ## Pieces appended by the builders

Each builder appends a sequence of pieces to the buffer it is given; the
sequences are listed here, block by block as in the builders. -/

/-- Pieces appended by `addEdgeFields`, in order. -/
def addEdgeFieldsParts (fields : Int) (fullEdgeData : Bool) : List String :=
  let sep := ""
  let (ps, sep) :=
    if hasField fields LWT_COL_EDGE_EDGE_ID then (["edge_id"], ",") else ([], sep)
  let (ps, sep) :=
    if hasField fields LWT_COL_EDGE_START_NODE then (ps ++ [sep, "start_node"], ",")
    else (ps, sep)
  let (ps, sep) :=
    if hasField fields LWT_COL_EDGE_END_NODE then (ps ++ [sep, "end_node"], ",")
    else (ps, sep)
  let (ps, sep) :=
    if hasField fields LWT_COL_EDGE_FACE_LEFT then (ps ++ [sep, "left_face"], ",")
    else (ps, sep)
  let (ps, sep) :=
    if hasField fields LWT_COL_EDGE_FACE_RIGHT then (ps ++ [sep, "right_face"], ",")
    else (ps, sep)
  let (ps, sep) :=
    if hasField fields LWT_COL_EDGE_NEXT_LEFT then
      let ps := ps ++ [sep, "next_left_edge"]
      let ps := if fullEdgeData then ps ++ [", abs_next_left_edge"] else ps
      (ps, ",")
    else (ps, sep)
  let (ps, sep) :=
    if hasField fields LWT_COL_EDGE_NEXT_RIGHT then
      let ps := ps ++ [sep, "next_right_edge"]
      let ps := if fullEdgeData then ps ++ [", abs_next_right_edge"] else ps
      (ps, ",")
    else (ps, sep)
  if hasField fields LWT_COL_EDGE_GEOM then ps ++ [sep, "geom"] else ps

/-- Pieces appended by `addNodeFields`, in order. -/
def addNodeFieldsParts (fields : Int) : List String :=
  let sep := ""
  let (ps, sep) :=
    if hasField fields LWT_COL_NODE_NODE_ID then (["node_id"], ",") else ([], sep)
  let (ps, sep) :=
    if hasField fields LWT_COL_NODE_CONTAINING_FACE then (ps ++ [sep, "containing_face"], ",")
    else (ps, sep)
  if hasField fields LWT_COL_NODE_GEOM then ps ++ [sep, "geom"] else ps

/-- Pieces appended by `addFaceFields`, in order. -/
def addFaceFieldsParts (fields : Int) : List String :=
  let sep := ""
  let (ps, sep) :=
    if hasField fields LWT_COL_FACE_FACE_ID then (["face_id"], ",") else ([], sep)
  if hasField fields LWT_COL_FACE_MBR then ps ++ [sep, "mbr"] else ps

/-! ## Canonical column lists -/

/-- Canonical edge columns with the field each belongs to. -/
def edgeFieldColumns : List (Int × String) :=
  [(LWT_COL_EDGE_EDGE_ID, "edge_id"), (LWT_COL_EDGE_START_NODE, "start_node"),
   (LWT_COL_EDGE_END_NODE, "end_node"), (LWT_COL_EDGE_FACE_LEFT, "left_face"),
   (LWT_COL_EDGE_FACE_RIGHT, "right_face"), (LWT_COL_EDGE_NEXT_LEFT, "next_left_edge"),
   (LWT_COL_EDGE_NEXT_RIGHT, "next_right_edge"), (LWT_COL_EDGE_GEOM, "geom")]

/-- Canonical node columns with the field each belongs to. -/
def nodeFieldColumns : List (Int × String) :=
  [(LWT_COL_NODE_NODE_ID, "node_id"), (LWT_COL_NODE_CONTAINING_FACE, "containing_face"),
   (LWT_COL_NODE_GEOM, "geom")]

/-- Canonical face columns with the field each belongs to. -/
def faceFieldColumns : List (Int × String) :=
  [(LWT_COL_FACE_FACE_ID, "face_id"), (LWT_COL_FACE_MBR, "mbr")]

/-- Subsequence of a canonical column list selected by a field set. -/
def selectColumns : List (Int × String) → Int → List String
  | [], _ => []
  | (col, name) :: rest, fields =>
    if hasField fields col then name :: selectColumns rest fields else selectColumns rest fields

/-- Comma-joined text of a column list. -/
def commaJoined (cols : List String) : String := ",".intercalate cols

/-! ## Materialization column by column -/

/-- What `fillEdgeFields` does with the cell read for the named column: the
block of the materializer for that column. -/
def fillEdgeColumn (name : String) (edge : LWT_ISO_EDGE) (cell : Datum × Bool) : LWT_ISO_EDGE :=
  if name = "edge_id" then
    let edge := if cell.2 then { edge with edge_id := -1 } else edge
    { edge with edge_id := DatumGetInt32 cell.1 }
  else if name = "start_node" then
    let edge := if cell.2 then { edge with start_node := -1 } else edge
    { edge with start_node := DatumGetInt32 cell.1 }
  else if name = "end_node" then
    let edge := if cell.2 then { edge with start_node := -1 } else edge
    { edge with end_node := DatumGetInt32 cell.1 }
  else if name = "left_face" then
    let edge := if cell.2 then { edge with start_node := -1 } else edge
    { edge with face_left := DatumGetInt32 cell.1 }
  else if name = "right_face" then
    let edge := if cell.2 then { edge with start_node := -1 } else edge
    { edge with face_right := DatumGetInt32 cell.1 }
  else if name = "next_left_edge" then
    let edge := if cell.2 then { edge with start_node := -1 } else edge
    { edge with next_left := DatumGetInt32 cell.1 }
  else if name = "next_right_edge" then
    let edge := if cell.2 then { edge with start_node := -1 } else edge
    { edge with next_right := DatumGetInt32 cell.1 }
  else if name = "geom" then
    if !cell.2 then { edge with geom := lwgeom_as_lwline (lwgeom_from_gserialized cell.1) }
    else { edge with geom := none }
  else edge

/-- What `fillNodeFields` does with the cell read for the named column. -/
def fillNodeColumn (name : String) (node : LWT_ISO_NODE) (cell : Datum × Bool) : LWT_ISO_NODE :=
  if name = "node_id" then { node with node_id := DatumGetInt32 cell.1 }
  else if name = "containing_face" then
    if cell.2 then { node with containing_face := -1 }
    else { node with containing_face := DatumGetInt32 cell.1 }
  else if name = "geom" then
    if !cell.2 then { node with geom := lwgeom_as_lwpoint (lwgeom_from_gserialized cell.1) }
    else { node with geom := none }
  else node

/-- What `fillFaceFields` does with the cell read for the named column. -/
def fillFaceColumn (name : String) (face : LWT_ISO_FACE) (cell : Datum × Bool) : LWT_ISO_FACE :=
  if name = "face_id" then { face with face_id := DatumGetInt32 cell.1 }
  else if name = "mbr" then
    if !cell.2 then
      match lwgeom_get_bbox (lwgeom_from_gserialized cell.1) with
      | some box => { face with mbr := some box }
      | none => { face with mbr := none }
    else { face with mbr := none }
  else face

/-- Reading a row along a list of column names: the cell at the cursor fills
the record as the first name says, and the cursor advances by one for the next
name. -/
def readColumns {α : Type} (fill : String → α → Datum × Bool → α) :
    List String → HeapTuple → Nat → α → α
  | [], _, _, rec => rec
  | name :: rest, row, colno, rec =>
    readColumns fill rest row (colno + 1) (fill name rec (SPI_getbinval row colno))

/-- Pieces appended by `addEdgeUpdate`, in order (every `%s` and every number
of its format strings is one piece). -/
def addEdgeUpdateParts (edge : LWT_ISO_EDGE) (fields : Int) (fullEdgeData : Bool)
    (updType : UpdateType) : List String :=
  let sep := ""
  let sep1 := updSep1 updType
  let op := updOp updType
  let (ps, sep) :=
    if hasField fields LWT_COL_EDGE_EDGE_ID then
      (["edge_id ", op, " ", fmtInt edge.edge_id], sep1)
    else ([], sep)
  let (ps, sep) :=
    if hasField fields LWT_COL_EDGE_START_NODE then
      (ps ++ [sep, "start_node ", op, " ", fmtInt edge.start_node], sep1)
    else (ps, sep)
  let (ps, sep) :=
    if hasField fields LWT_COL_EDGE_END_NODE then
      (ps ++ [sep, "end_node", op, " ", fmtInt edge.end_node], sep1)
    else (ps, sep)
  let (ps, sep) :=
    if hasField fields LWT_COL_EDGE_FACE_LEFT then
      (ps ++ [sep, "left_face", op, " ", fmtInt edge.face_left], sep1)
    else (ps, sep)
  let (ps, sep) :=
    if hasField fields LWT_COL_EDGE_FACE_RIGHT then
      (ps ++ [sep, "right_face", op, " ", fmtInt edge.face_right], sep1)
    else (ps, sep)
  let (ps, sep) :=
    if hasField fields LWT_COL_EDGE_NEXT_LEFT then
      let ps := ps ++ [sep, "next_left_edge", op, " ", fmtInt edge.next_left]
      let sep := sep1
      let ps :=
        if fullEdgeData then
          ps ++ [sep, " abs_next_left_edge", op, " ", fmtInt (ABS edge.next_left)]
        else ps
      (ps, sep)
    else (ps, sep)
  let (ps, sep) :=
    if hasField fields LWT_COL_EDGE_NEXT_RIGHT then
      let ps := ps ++ [sep, "next_right_edge", op, " ", fmtInt edge.next_right]
      let sep := sep1
      let ps :=
        if fullEdgeData then
          ps ++ [sep, " abs_next_right_edge", op, " ", fmtInt (ABS edge.next_right)]
        else ps
      (ps, sep)
    else (ps, sep)
  if hasField fields LWT_COL_EDGE_GEOM then
    ps ++ [sep, "geom", op, "'", hexOfLine edge.geom, "'::geometry"]
  else ps

/-- Pieces appended by `addNodeUpdate`, in order. -/
def addNodeUpdateParts (node : LWT_ISO_NODE) (fields : Int) (updType : UpdateType) :
    List String :=
  let sep := ""
  let sep1 := updSep1 updType
  let op := updOp updType
  let (ps, sep) :=
    if hasField fields LWT_COL_NODE_NODE_ID then
      (["node_id ", op, " ", fmtInt node.node_id], sep1)
    else ([], sep)
  let (ps, sep) :=
    if hasField fields LWT_COL_NODE_CONTAINING_FACE then
      let ps := ps ++ [sep, "containing_face ", op]
      let ps :=
        if node.containing_face != -1 then ps ++ [fmtInt node.containing_face]
        else ps ++ ["NULL"]
      (ps, sep1)
    else (ps, sep)
  if hasField fields LWT_COL_NODE_GEOM then
    ps ++ [sep, "geom", op, "'", hexOfPoint node.geom, "'::geometry"]
  else ps

/-! ## Statement templates

A template is the text of a statement with the places of the topology name
marked; rendering it for a name fills the places with the name quoted as an
identifier or as a string literal. -/

/-- A piece of a statement template: fixed text, or the place of the topology
name as a quoted identifier or as a string literal. -/
inductive Seg where
  | text (s : String)
  | ident
  | literal
deriving DecidableEq, Repr

/-- The pieces that stand for the name. -/
def Seg.isName : Seg → Bool
  | Seg.text _ => false
  | Seg.ident => true
  | Seg.literal => true

/-- The double quote character. -/
def dquote : Char := Char.ofNat 34

/-- The single quote character. -/
def squote : Char := Char.ofNat 39

/-- Escaping by doubling: every occurrence of the quote character `q` is
written twice. -/
def escapeChars (q : Char) : List Char → List Char
  | [] => []
  | c :: rest => if c = q then q :: q :: escapeChars q rest else c :: escapeChars q rest

/-- A name as a quoted SQL identifier: between double quotes, every double
quote of the name escaped. -/
def quoteIdent (name : String) : String :=
  "\"" ++ String.mk (escapeChars dquote name.data) ++ "\""

/-- A name as an SQL string literal: between single quotes, every single quote
of the name escaped. -/
def quoteLiteral (name : String) : String :=
  "'" ++ String.mk (escapeChars squote name.data) ++ "'"

/-- Text of one template piece for a name. -/
def Seg.render (name : String) : Seg → String
  | Seg.text s => s
  | Seg.ident => quoteIdent name
  | Seg.literal => quoteLiteral name

/-- Text of a template for a name. -/
def renderTemplate (name : String) : List Seg → String
  | [] => ""
  | s :: rest => s.render name ++ renderTemplate name rest

/-- A name without single and double quotes. -/
def plainName (name : String) : Prop := dquote ∉ name.data ∧ squote ∉ name.data

instance (name : String) : Decidable (plainName name) := by
  unfold plainName; infer_instance

/-- Pieces appended by the SET clause of `cb_updateNodesById`, in order. -/
def updateNodesByIdSetParts (fields : Int) : List String :=
  let sep := ""
  let sep1 := ","
  let (ps, sep) :=
    if hasField fields LWT_COL_NODE_NODE_ID then ([sep, "node_id = o.node_id"], sep1)
    else ([], sep)
  let (ps, sep) :=
    if hasField fields LWT_COL_NODE_CONTAINING_FACE then
      (ps ++ [sep, "containing_face = o.containing_face"], sep1)
    else (ps, sep)
  if hasField fields LWT_COL_NODE_GEOM then ps ++ [sep, "geom = o.geom"] else ps

/-- Pieces appended by the SET clause of `cb_updateEdgesById`, in order. -/
def updateEdgesByIdSetParts (fields : Int) : List String :=
  let sep := ""
  let sep1 := ","
  let (ps, sep) :=
    if hasField fields LWT_COL_EDGE_START_NODE then
      ([sep, "start_node = o.start_node"], sep1)
    else ([], sep)
  let (ps, sep) :=
    if hasField fields LWT_COL_EDGE_END_NODE then (ps ++ [sep, "end_node = o.end_node"], sep1)
    else (ps, sep)
  let (ps, sep) :=
    if hasField fields LWT_COL_EDGE_FACE_LEFT then
      (ps ++ [sep, "left_face = o.left_face"], sep1)
    else (ps, sep)
  let (ps, sep) :=
    if hasField fields LWT_COL_EDGE_FACE_RIGHT then
      (ps ++ [sep, "right_face = o.right_face"], sep1)
    else (ps, sep)
  let (ps, sep) :=
    if hasField fields LWT_COL_EDGE_NEXT_LEFT then
      (ps ++ [sep, "next_left_edge = o.next_left_edge, ",
        "abs_next_left_edge = abs(o.next_left_edge)"], sep1)
    else (ps, sep)
  let (ps, sep) :=
    if hasField fields LWT_COL_EDGE_NEXT_RIGHT then
      (ps ++ [sep, "next_right_edge = o.next_right_edge, ",
        "abs_next_right_edge = abs(o.next_right_edge)"], sep1)
    else (ps, sep)
  if hasField fields LWT_COL_EDGE_GEOM then ps ++ [sep, "geom = o.geom"] else ps

/-- The callback with another topology name, everything else unchanged. -/
def Callback.withName (name : String) : Callback → Callback
  | Callback.loadTopologyByName _ => Callback.loadTopologyByName name
  | Callback.getNodeById topo mem ids fields =>
    Callback.getNodeById { topo with name := name } mem ids fields
  | Callback.getNodeWithinDistance2D topo mem pt dist fields limit =>
    Callback.getNodeWithinDistance2D { topo with name := name } mem pt dist fields limit
  | Callback.insertNodes topo nodes => Callback.insertNodes { topo with name := name } nodes
  | Callback.getEdgeById topo mem ids fields =>
    Callback.getEdgeById { topo with name := name } mem ids fields
  | Callback.getEdgeWithinDistance2D topo mem pt dist fields limit =>
    Callback.getEdgeWithinDistance2D { topo with name := name } mem pt dist fields limit
  | Callback.getNextEdgeId topo => Callback.getNextEdgeId { topo with name := name }
  | Callback.insertEdges topo edges => Callback.insertEdges { topo with name := name } edges
  | Callback.updateEdges topo sel sf upd uf exc ef =>
    Callback.updateEdges { topo with name := name } sel sf upd uf exc ef
  | Callback.getFacesById topo mem ids fields =>
    Callback.getFacesById { topo with name := name } mem ids fields
  | Callback.getFaceContainingPoint topo pt =>
    Callback.getFaceContainingPoint { topo with name := name } pt
  | Callback.updateTopoGeomEdgeSplit topo s n1 n2 =>
    Callback.updateTopoGeomEdgeSplit { topo with name := name } s n1 n2
  | Callback.deleteEdges topo sel sf => Callback.deleteEdges { topo with name := name } sel sf
  | Callback.getNodeWithinBox2D topo mem box fields limit =>
    Callback.getNodeWithinBox2D { topo with name := name } mem box fields limit
  | Callback.getEdgeWithinBox2D topo mem box fields limit =>
    Callback.getEdgeWithinBox2D { topo with name := name } mem box fields limit
  | Callback.getEdgeByNode topo mem ids fields =>
    Callback.getEdgeByNode { topo with name := name } mem ids fields
  | Callback.updateNodes topo sel sf upd uf exc ef =>
    Callback.updateNodes { topo with name := name } sel sf upd uf exc ef
  | Callback.updateTopoGeomFaceSplit topo s n1 n2 =>
    Callback.updateTopoGeomFaceSplit { topo with name := name } s n1 n2
  | Callback.insertFaces topo faces => Callback.insertFaces { topo with name := name } faces
  | Callback.updateFacesById topo faces =>
    Callback.updateFacesById { topo with name := name } faces
  | Callback.getRingEdges topo edge limit =>
    Callback.getRingEdges { topo with name := name } edge limit
  | Callback.updateEdgesById topo edges fields =>
    Callback.updateEdgesById { topo with name := name } edges fields
  | Callback.getEdgeByFace topo mem ids fields =>
    Callback.getEdgeByFace { topo with name := name } mem ids fields
  | Callback.getNodeByFace topo mem ids fields =>
    Callback.getNodeByFace { topo with name := name } mem ids fields
  | Callback.updateNodesById topo nodes fields =>
    Callback.updateNodesById { topo with name := name } nodes fields
  | Callback.deleteFacesById topo ids => Callback.deleteFacesById { topo with name := name } ids

/-- The two callbacks of the split propagator, which work on the relation
table; the others are the topology lookup and the element store. -/
def Callback.isPropagator : Callback → Bool
  | Callback.updateTopoGeomEdgeSplit _ _ _ _ => true
  | Callback.updateTopoGeomFaceSplit _ _ _ _ => true
  | _ => false

/-- The places of the topology name in a statement of the callback, in order:
one string literal in the lookup by name; one identifier in the statements
of the element store, except for `cb_getRingEdges`, which names the table
twice, and `cb_getFaceContainingPoint`, which also passes the name as a string
literal to `topology.ST_GetFaceGeometry`. -/
def Callback.namePlaces : Callback → List Seg
  | Callback.loadTopologyByName _ => [Seg.literal]
  | Callback.getRingEdges _ _ _ => [Seg.ident, Seg.ident]
  | Callback.getFaceContainingPoint _ _ => [Seg.ident, Seg.literal]
  | _ => [Seg.ident]

/-- A topology name with a double quote in it. -/
def nameWithDoubleQuote : String := "a\"b"

/-- A topology name with a single quote in it. -/
def nameWithSingleQuote : String := "a'b"

/-- The text `cb_updateEdges` appends after the assignments: nothing without
selector and excluder, else ` WHERE `, the selector's predicates, ` AND ` when
both are given, the excluder's predicates. -/
def edgeWhereClause (sel_edge : Option LWT_ISO_EDGE) (sel_fields : Int)
    (exc_edge : Option LWT_ISO_EDGE) (exc_fields : Int) : String :=
  match sel_edge, exc_edge with
  | none, none => ""
  | some sel, none => " WHERE " ++ addEdgeUpdate "" sel sel_fields true UpdateType.updSel
  | none, some exc => " WHERE " ++ addEdgeUpdate "" exc exc_fields true UpdateType.updNot
  | some sel, some exc =>
    " WHERE " ++ addEdgeUpdate "" sel sel_fields true UpdateType.updSel ++
    " AND " ++ addEdgeUpdate "" exc exc_fields true UpdateType.updNot

/-- The text `cb_updateNodes` appends after the assignments. -/
def nodeWhereClause (sel_node : Option LWT_ISO_NODE) (sel_fields : Int)
    (exc_node : Option LWT_ISO_NODE) (exc_fields : Int) : String :=
  match sel_node, exc_node with
  | none, none => ""
  | some sel, none => " WHERE " ++ addNodeUpdate "" sel sel_fields true UpdateType.updSel
  | none, some exc => " WHERE " ++ addNodeUpdate "" exc exc_fields true UpdateType.updNot
  | some sel, some exc =>
    " WHERE " ++ addNodeUpdate "" sel sel_fields true UpdateType.updSel ++
    " AND " ++ addNodeUpdate "" exc exc_fields true UpdateType.updNot

/-! ## Lists rendered item by item

The builders keep a buffer and the separator the next item is preceded by; an
item that is rendered appends its pieces and sets the separator. -/

/-- An item rendered as one text after the current separator. -/
def joinStep (sep1 : String) (sel : Bool) (v : String) (st : String × String) : String × String :=
  if sel then (st.1 ++ st.2 ++ v, sep1) else st

/-- An item appended piece by piece after the current separator. -/
def partsStep (sep1 : String) (sel : Bool) (ps : List String) (st : String × String) :
    String × String :=
  if sel then (ps.foldl (· ++ ·) (st.1 ++ st.2), sep1) else st

/-- An item appended piece by piece without separator (the first of a list). -/
def headStep (sep1 : String) (sel : Bool) (ps : List String) (st : String × String) :
    String × String :=
  if sel then (ps.foldl (· ++ ·) st.1, sep1) else st

/-- An item followed, in full mode, by a second item after the separator `sep2`. -/
def pairStep (sep1 sep2 : String) (sel full : Bool) (ps1 ps2 : List String)
    (st : String × String) : String × String :=
  if sel then
    (if full then ps2.foldl (· ++ ·) (ps1.foldl (· ++ ·) (st.1 ++ st.2) ++ sep2)
     else ps1.foldl (· ++ ·) (st.1 ++ st.2), sep1)
  else st

/-- The last item of a list, appended piece by piece after the current
separator; what is left is the buffer. -/
def lastStep (sel : Bool) (ps : List String) (st : String × String) : String :=
  if sel then ps.foldl (· ++ ·) (st.1 ++ st.2) else st.1

/-- State of a builder that has rendered the items `vs` after `s`: the buffer,
and the separator, empty before the first item. -/
def listState (sep1 s : String) (vs : List String) : String × String :=
  (s ++ sep1.intercalate vs, if vs.isEmpty then "" else sep1)

/-! ## Values of an insert, column by column -/

/-- Text of an identifier in insert position: `DEFAULT` for -1. -/
def idValueText (id : LWT_ELEMID) : String :=
  if id != -1 then fmtInt id else "DEFAULT"

/-- Text of a geometry in insert position: `null` for an absent one. -/
def geomValueText (hex : Option String) : String :=
  match hex with
  | some h => "'" ++ h ++ "'::geometry"
  | none => "null"

/-- Pieces appended for a geometry in insert position. -/
def geomValueParts (hex : Option String) : List String :=
  match hex with
  | some h => ["'", h, "'::geometry"]
  | none => ["null"]

/-- The columns of an edge insert with their values, in rendering order; with
`full`, every next-edge column is followed by its `abs_` column, whose value is
`ABS` of the signed one. -/
def edgeInsertColumns (edge : LWT_ISO_EDGE) (fields : Int) (full : Bool) :
    List (String × String) :=
  (if hasField fields LWT_COL_EDGE_EDGE_ID then [("edge_id", idValueText edge.edge_id)] else []) ++
  (if hasField fields LWT_COL_EDGE_START_NODE then [("start_node", fmtInt edge.start_node)]
   else []) ++
  (if hasField fields LWT_COL_EDGE_END_NODE then [("end_node", fmtInt edge.end_node)] else []) ++
  (if hasField fields LWT_COL_EDGE_FACE_LEFT then [("left_face", fmtInt edge.face_left)]
   else []) ++
  (if hasField fields LWT_COL_EDGE_FACE_RIGHT then [("right_face", fmtInt edge.face_right)]
   else []) ++
  (if hasField fields LWT_COL_EDGE_NEXT_LEFT then
    (if full then
      [("next_left_edge", fmtInt edge.next_left),
       ("abs_next_left_edge", fmtInt (ABS edge.next_left))]
     else [("next_left_edge", fmtInt edge.next_left)]) else []) ++
  (if hasField fields LWT_COL_EDGE_NEXT_RIGHT then
    (if full then
      [("next_right_edge", fmtInt edge.next_right),
       ("abs_next_right_edge", fmtInt (ABS edge.next_right))]
     else [("next_right_edge", fmtInt edge.next_right)]) else []) ++
  (if hasField fields LWT_COL_EDGE_GEOM then
    [("geom", geomValueText (edge.geom.map (fun l => lwgeom_to_hexwkb (lwline_as_lwgeom l))))]
   else [])

/-- Text of a containing face in insert position: `null` for -1. -/
def faceRefValueText (face : LWT_ELEMID) : String :=
  if face != -1 then fmtInt face else "null"

/-- The columns of a node insert with their values, in rendering order. -/
def nodeInsertColumns (node : LWT_ISO_NODE) (fields : Int) : List (String × String) :=
  (if hasField fields LWT_COL_NODE_NODE_ID then [("node_id", idValueText node.node_id)] else []) ++
  (if hasField fields LWT_COL_NODE_CONTAINING_FACE then
    [("containing_face", faceRefValueText node.containing_face)] else []) ++
  (if hasField fields LWT_COL_NODE_GEOM then
    [("geom", geomValueText (node.geom.map (fun p => lwgeom_to_hexwkb (lwpoint_as_lwgeom p))))]
   else [])

/-- A decimal digit character. -/
def isDigitChar (c : Char) : Prop := ∃ k, k < 10 ∧ c = Nat.digitChar k

/-! ## Sample records for the value lists and the materializers -/

/-- A node in face 5. -/
def nodeInFace5 : LWT_ISO_NODE :=
  { node_id := 7, containing_face := 5, geom := some samplePoint }

/-- An edge between the faces 5 and 6. -/
def edgeInFaces : LWT_ISO_EDGE := { sampleEdge with face_left := 5, face_right := 6 }

/-- An edge whose next-left edge is the least 64-bit integer. -/
def edgeAtInt64Min : LWT_ISO_EDGE := { sampleEdge with next_left := -9223372036854775808 }

/-- A face with identifier 3. -/
def face3 : LWT_ISO_FACE := { face_id := 3, mbr := none }

/-! ## The containing face of a node in the store -/

/-- Number of the containing_face column in a row of the node projection: it
follows the node_id column when that is requested. -/
def containingFaceColumn (fields : Int) : Nat :=
  if hasField fields LWT_COL_NODE_NODE_ID then 2 else 1

/-- Cell held by the store for a containing face written as faceRefValueText
renders it: NULL for the text null, the integer for a decimal text. -/
def faceRefCell (face : LWT_ELEMID) : Option Datum :=
  if face != -1 then some (Datum.word face) else none

/-! ## Terms of an update clause -/

/-- The columns of an edge update clause with the value texts compared or
assigned, in rendering order; with `full`, every next-edge column is followed
by its `abs_` column. -/
def edgeUpdateColumns (edge : LWT_ISO_EDGE) (fields : Int) (full : Bool) :
    List (String × String) :=
  (if hasField fields LWT_COL_EDGE_EDGE_ID then [("edge_id", fmtInt edge.edge_id)] else []) ++
  (if hasField fields LWT_COL_EDGE_START_NODE then [("start_node", fmtInt edge.start_node)]
   else []) ++
  (if hasField fields LWT_COL_EDGE_END_NODE then [("end_node", fmtInt edge.end_node)] else []) ++
  (if hasField fields LWT_COL_EDGE_FACE_LEFT then [("left_face", fmtInt edge.face_left)]
   else []) ++
  (if hasField fields LWT_COL_EDGE_FACE_RIGHT then [("right_face", fmtInt edge.face_right)]
   else []) ++
  (if hasField fields LWT_COL_EDGE_NEXT_LEFT then
    (if full then
      [("next_left_edge", fmtInt edge.next_left),
       ("abs_next_left_edge", fmtInt (ABS edge.next_left))]
     else [("next_left_edge", fmtInt edge.next_left)]) else []) ++
  (if hasField fields LWT_COL_EDGE_NEXT_RIGHT then
    (if full then
      [("next_right_edge", fmtInt edge.next_right),
       ("abs_next_right_edge", fmtInt (ABS edge.next_right))]
     else [("next_right_edge", fmtInt edge.next_right)]) else []) ++
  (if hasField fields LWT_COL_EDGE_GEOM then
    [("geom", "'" ++ hexOfLine edge.geom ++ "'::geometry")] else [])

/-- The terms `addEdgeUpdate` renders between separators, with the blanks of
its format strings. -/
def edgeUpdateTerms (op : String) (edge : LWT_ISO_EDGE) (fields : Int) (full : Bool) :
    List String :=
  (if hasField fields LWT_COL_EDGE_EDGE_ID then
    ["edge_id " ++ op ++ " " ++ fmtInt edge.edge_id] else []) ++
  (if hasField fields LWT_COL_EDGE_START_NODE then
    ["start_node " ++ op ++ " " ++ fmtInt edge.start_node] else []) ++
  (if hasField fields LWT_COL_EDGE_END_NODE then
    ["end_node" ++ op ++ " " ++ fmtInt edge.end_node] else []) ++
  (if hasField fields LWT_COL_EDGE_FACE_LEFT then
    ["left_face" ++ op ++ " " ++ fmtInt edge.face_left] else []) ++
  (if hasField fields LWT_COL_EDGE_FACE_RIGHT then
    ["right_face" ++ op ++ " " ++ fmtInt edge.face_right] else []) ++
  (if hasField fields LWT_COL_EDGE_NEXT_LEFT then
    (if full then
      ["next_left_edge" ++ op ++ " " ++ fmtInt edge.next_left,
       " abs_next_left_edge" ++ op ++ " " ++ fmtInt (ABS edge.next_left)]
     else ["next_left_edge" ++ op ++ " " ++ fmtInt edge.next_left]) else []) ++
  (if hasField fields LWT_COL_EDGE_NEXT_RIGHT then
    (if full then
      ["next_right_edge" ++ op ++ " " ++ fmtInt edge.next_right,
       " abs_next_right_edge" ++ op ++ " " ++ fmtInt (ABS edge.next_right)]
     else ["next_right_edge" ++ op ++ " " ++ fmtInt edge.next_right]) else []) ++
  (if hasField fields LWT_COL_EDGE_GEOM then
    ["geom" ++ op ++ "'" ++ hexOfLine edge.geom ++ "'::geometry"] else [])

/-- A text without its blanks. -/
def dropBlanks (s : String) : String := String.mk (s.data.filter (fun c => c != ' '))

/-- The term `column op value` of an update clause, written without blanks. -/
def plainTerm (op : String) (cv : String × String) : String := cv.1 ++ op ++ cv.2

/-! # Theorems -/

theorem toInt32_of_isInt32 {v : Int} (h : isInt32 v) : toInt32 v = v := by
  unfold isInt32 at h
  unfold toInt32
  omega

/-- The columns the edge projection renders are the canonical column list
restricted to the field set, in canonical order. -/
theorem projectionColumns_addEdgeFields (fields : Int) (full : Bool) :
    projectionColumns (addEdgeFields "" fields full) = canonicalEdgeColumns fields full := by
  unfold addEdgeFields canonicalEdgeColumns
  generalize hasField fields LWT_COL_EDGE_EDGE_ID = b0
  generalize hasField fields LWT_COL_EDGE_START_NODE = b1
  generalize hasField fields LWT_COL_EDGE_END_NODE = b2
  generalize hasField fields LWT_COL_EDGE_FACE_LEFT = b3
  generalize hasField fields LWT_COL_EDGE_FACE_RIGHT = b4
  generalize hasField fields LWT_COL_EDGE_NEXT_LEFT = b5
  generalize hasField fields LWT_COL_EDGE_NEXT_RIGHT = b6
  generalize hasField fields LWT_COL_EDGE_GEOM = b7
  revert b0 b1 b2 b3 b4 b5 b6 b7 full
  decide

/-! ## C1: projection and materialization round trip -/

/-- C1 (as stated, refuted): an edge whose fields are all 64-bit identifiers,
with edge_id = 2^31, does not survive the round trip on the field set
{edge_id}: the materialized identifier is the low 32 bits, -2^31. -/
theorem C1_roundtrip_fails_beyond_int32 :
    edgeInt64 edgeBeyondInt32 ∧
    (fillEdgeFields blankEdge (edgeRow edgeBeyondInt32 LWT_COL_EDGE_EDGE_ID)
        LWT_COL_EDGE_EDGE_ID).edge_id = -2147483648 ∧
    ¬ edgeAgreeOn LWT_COL_EDGE_EDGE_ID
        (fillEdgeFields blankEdge (edgeRow edgeBeyondInt32 LWT_COL_EDGE_EDGE_ID)
          LWT_COL_EDGE_EDGE_ID) edgeBeyondInt32 := by
  decide

set_option maxHeartbeats 4000000 in
/-- C1 (amended): for every edge record and every edge field set F such that the
identifier fields of the record that are in F lie in the signed 32-bit range,
materializing with fillEdgeFields(F) the row that holds the record's values in
the column order rendered by addEdgeFields(F, 0) gives a record equal to the
original on every field in F, whatever the record held before. -/
theorem C1_fillEdgeFields_roundtrip_int32 (e0 e : LWT_ISO_EDGE) (fields : Int)
    (h : edgeInt32On fields e) :
    edgeAgreeOn fields (fillEdgeFields e0 (edgeRow e fields) fields) e := by
  unfold edgeRow
  rw [projectionColumns_addEdgeFields]
  unfold edgeInt32On at h
  unfold edgeAgreeOn fillEdgeFields canonicalEdgeColumns
  generalize hasField fields LWT_COL_EDGE_EDGE_ID = b0 at h ⊢
  generalize hasField fields LWT_COL_EDGE_START_NODE = b1 at h ⊢
  generalize hasField fields LWT_COL_EDGE_END_NODE = b2 at h ⊢
  generalize hasField fields LWT_COL_EDGE_FACE_LEFT = b3 at h ⊢
  generalize hasField fields LWT_COL_EDGE_FACE_RIGHT = b4 at h ⊢
  generalize hasField fields LWT_COL_EDGE_NEXT_LEFT = b5 at h ⊢
  generalize hasField fields LWT_COL_EDGE_NEXT_RIGHT = b6 at h ⊢
  generalize hasField fields LWT_COL_EDGE_GEOM = b7 at h ⊢
  obtain ⟨h0, h1, h2, h3, h4, h5, h6⟩ := h
  cases e with
  | mk id sn en fl fr nl nr g =>
  cases g <;>
  cases b0 <;> cases b1 <;> cases b2 <;> cases b3 <;> cases b4 <;> cases b5 <;> cases b6 <;>
    cases b7 <;>
    exact ⟨fun hb => by
        first | exact Bool.noConfusion hb | exact (toInt32_of_isInt32 (h0 rfl) : toInt32 id = id),
      fun hb => by
        first | exact Bool.noConfusion hb | exact (toInt32_of_isInt32 (h1 rfl) : toInt32 sn = sn),
      fun hb => by
        first | exact Bool.noConfusion hb | exact (toInt32_of_isInt32 (h2 rfl) : toInt32 en = en),
      fun hb => by
        first | exact Bool.noConfusion hb | exact (toInt32_of_isInt32 (h3 rfl) : toInt32 fl = fl),
      fun hb => by
        first | exact Bool.noConfusion hb | exact (toInt32_of_isInt32 (h4 rfl) : toInt32 fr = fr),
      fun hb => by
        first | exact Bool.noConfusion hb | exact (toInt32_of_isInt32 (h5 rfl) : toInt32 nl = nl),
      fun hb => by
        first | exact Bool.noConfusion hb | exact (toInt32_of_isInt32 (h6 rfl) : toInt32 nr = nr),
      fun hb => by
        first | exact Bool.noConfusion hb | rfl⟩

/-- C1 (amended), at the full field set on a sample edge with a geometry. -/
theorem C1_fillEdgeFields_roundtrip_int32_witness :
    edgeInt32On LWT_COL_EDGE_ALL sampleEdge ∧
    edgeAgreeOn LWT_COL_EDGE_ALL
      (fillEdgeFields blankEdge (edgeRow sampleEdge LWT_COL_EDGE_ALL) LWT_COL_EDGE_ALL)
      sampleEdge :=
  ⟨by decide, C1_fillEdgeFields_roundtrip_int32 blankEdge sampleEdge LWT_COL_EDGE_ALL (by decide)⟩

/-! ## Shared lemmas on the inserts, the fetches and the ring traversal -/

theorem fillMissingIds_length {α : Type} (hasId : α → Bool) (fill : α → HeapTuple → α)
    (vals : List HeapTuple) (xs : List α) (k : Nat) :
    (fillMissingIds hasId fill vals k xs).length = xs.length := by
  induction xs generalizing k with
  | nil => rfl
  | cons x rest ih => simp [fillMissingIds, ih]

theorem fillMissingIds_getElem? {α : Type} (hasId : α → Bool) (fill : α → HeapTuple → α)
    (vals : List HeapTuple) (xs : List α) (k i : Nat) (x : α) (hx : xs[i]? = some x) :
    (fillMissingIds hasId fill vals k xs)[i]? =
      some (if hasId x then x else fill x (vals.getD (k + i) [])) := by
  induction xs generalizing k i with
  | nil => simp at hx
  | cons y rest ih =>
    cases i with
    | zero =>
      simp at hx
      subst hx
      simp [fillMissingIds]
    | succ j =>
      simp at hx
      have := ih (k + 1) j hx
      simp only [fillMissingIds, List.getElem?_cons_succ]
      rw [this]
      have e : k + 1 + j = k + (j + 1) := by omega
      rw [e]

theorem fillEdgeFields_edge_id (e : LWT_ISO_EDGE) (row : HeapTuple) :
    fillEdgeFields e row LWT_COL_EDGE_EDGE_ID =
      { e with edge_id := DatumGetInt32 (SPI_getbinval row 1).1 } := by
  cases row with
  | nil => rfl
  | cons c rest => cases c <;> rfl

theorem fillNodeFields_node_id (n : LWT_ISO_NODE) (row : HeapTuple) :
    fillNodeFields n row LWT_COL_NODE_NODE_ID =
      { n with node_id := DatumGetInt32 (SPI_getbinval row 1).1 } := by
  have h0 : hasField LWT_COL_NODE_NODE_ID LWT_COL_NODE_NODE_ID = true := by decide
  have h1 : hasField LWT_COL_NODE_NODE_ID LWT_COL_NODE_CONTAINING_FACE = false := by decide
  have h2 : hasField LWT_COL_NODE_NODE_ID LWT_COL_NODE_GEOM = false := by decide
  unfold fillNodeFields
  simp only [h0, h1, h2]
  rfl

theorem fillFaceFields_face_id (f : LWT_ISO_FACE) (row : HeapTuple) :
    fillFaceFields f row LWT_COL_FACE_FACE_ID =
      { f with face_id := DatumGetInt32 (SPI_getbinval row 1).1 } := by
  have h0 : hasField LWT_COL_FACE_FACE_ID LWT_COL_FACE_FACE_ID = true := by decide
  have h1 : hasField LWT_COL_FACE_FACE_ID LWT_COL_FACE_MBR = false := by decide
  unfold fillFaceFields
  simp only [h0, h1]
  rfl

theorem SPI_getbinval_first (d : Datum) (rest : HeapTuple) :
    SPI_getbinval (some d :: rest) 1 = (d, false) := by
  simp [SPI_getbinval]


@[simp] theorem cberror_calls (be : Backend) (msg : String) :
    (cberror be msg).calls = be.calls := rfl

@[simp] theorem cberror_data_changed (be : Backend) (msg : String) :
    (cberror be msg).be_data.data_changed = be.be_data.data_changed := rfl

@[simp] theorem markChanged_calls (be : Backend) (n : Nat) :
    (markChanged be n).calls = be.calls := by
  unfold markChanged
  split <;> rfl

/-- The identifier loop of the inserts assigns identifiers as `IdsAssigned` says. -/
theorem fillMissingIds_assigns {α : Type} (getId : α → LWT_ELEMID)
    (setId : α → LWT_ELEMID → α) (fill : α → HeapTuple → α) (vals : List HeapTuple)
    (xs : List α)
    (hfill : ∀ (x : α) (row : HeapTuple), fill x row = setId x (DatumGetInt32 (SPI_getbinval row 1).1)) :
    IdsAssigned getId setId xs (fillMissingIds (fun x => getId x != -1) fill vals 0 xs) vals := by
  refine ⟨fillMissingIds_length _ _ _ _ _, ?_, ?_⟩
  · intro i x hx hid
    rw [fillMissingIds_getElem? _ _ _ _ _ _ _ hx]
    simp [hid]
  · intro i x d rest hx hid hrow
    rw [fillMissingIds_getElem? _ _ _ _ _ _ _ hx]
    simp [hid, hfill, List.getD, hrow, SPI_getbinval_first]

/-- A batch nothing is done to has its identifiers assigned, when none is -1. -/
theorem idsAssigned_refl {α : Type} (getId : α → LWT_ELEMID) (setId : α → LWT_ELEMID → α)
    (xs : List α) (vals : List HeapTuple) (hnone : xs.any (fun x => getId x == -1) = false) :
    IdsAssigned getId setId xs xs vals := by
  refine ⟨rfl, fun _ _ hx _ => hx, ?_⟩
  intro i x d rest hx hid _
  have : xs.any (fun x => getId x == -1) = true := by
    rw [List.any_eq_true]
    exact ⟨x, List.getElem?_mem hx, by simp [hid]⟩
  rw [hnone] at this
  exact Bool.noConfusion this

theorem insertEdges_success (spi : SPIScript) (topo : LWT_BE_TOPOLOGY) (be : Backend)
    (edges : List LWT_ISO_EDGE)
    (hstatus : (spi be.calls.length).status =
      (if edges.any (fun e => e.edge_id == -1) then SPI_OK_INSERT_RETURNING else SPI_OK_INSERT))
    (hrows : ((spi be.calls.length).processed : Int) = edges.length) :
    (cb_insertEdges spi topo edges be).2.2 = edges.length ∧
    IdsAssigned (fun e => e.edge_id) (fun e v => { e with edge_id := v }) edges
      (cb_insertEdges spi topo edges be).2.1 (spi be.calls.length).vals := by
  have hout : (cb_insertEdges spi topo edges be).2 =
      (if edges.any (fun e => e.edge_id == -1) then
          fillMissingIds (fun e => e.edge_id != -1)
            (fun e row => fillEdgeFields e row LWT_COL_EDGE_EDGE_ID)
            (spi be.calls.length).vals 0 edges
        else edges, ((spi be.calls.length).processed : Int)) := by
    simp only [cb_insertEdges, SPI_execute]
    generalize edges.any (fun e => e.edge_id == -1) = needs at hstatus ⊢
    generalize spi be.calls.length = r at hstatus hrows ⊢
    simp [hstatus, hrows]
  rw [hout]
  refine ⟨hrows, ?_⟩
  cases hn : edges.any (fun e => e.edge_id == -1)
  · exact idsAssigned_refl _ _ _ _ hn
  · exact fillMissingIds_assigns (fun e => e.edge_id) (fun e v => { e with edge_id := v }) _ _ _
      (fun e row => fillEdgeFields_edge_id e row)

theorem insertFaces_success (spi : SPIScript) (topo : LWT_BE_TOPOLOGY) (be : Backend)
    (faces : List LWT_ISO_FACE)
    (hstatus : (spi be.calls.length).status =
      (if faces.any (fun f => f.face_id == -1) then SPI_OK_INSERT_RETURNING else SPI_OK_INSERT))
    (hrows : ((spi be.calls.length).processed : Int) = faces.length) :
    (cb_insertFaces spi topo faces be).2.2 = faces.length ∧
    IdsAssigned (fun f => f.face_id) (fun f v => { f with face_id := v }) faces
      (cb_insertFaces spi topo faces be).2.1 (spi be.calls.length).vals := by
  have hout : (cb_insertFaces spi topo faces be).2 =
      (if faces.any (fun f => f.face_id == -1) then
          fillMissingIds (fun f => f.face_id != -1)
            (fun f row => fillFaceFields f row LWT_COL_FACE_FACE_ID)
            (spi be.calls.length).vals 0 faces
        else faces, ((spi be.calls.length).processed : Int)) := by
    simp only [cb_insertFaces, SPI_execute]
    generalize faces.any (fun f => f.face_id == -1) = needs at hstatus ⊢
    generalize spi be.calls.length = r at hstatus hrows ⊢
    simp [hstatus, hrows]
  rw [hout]
  refine ⟨hrows, ?_⟩
  cases hn : faces.any (fun f => f.face_id == -1)
  · exact idsAssigned_refl _ _ _ _ hn
  · exact fillMissingIds_assigns (fun f => f.face_id) (fun f v => { f with face_id := v }) _ _ _
      (fun f row => fillFaceFields_face_id f row)

theorem insertNodes_success (spi : SPIScript) (topo : LWT_BE_TOPOLOGY) (be : Backend)
    (nodes : List LWT_ISO_NODE)
    (hstatus : (spi be.calls.length).status = SPI_OK_INSERT_RETURNING)
    (hrows : ((spi be.calls.length).processed : Int) = nodes.length) :
    (cb_insertNodes spi topo nodes be).2.2 = 1 ∧
    IdsAssigned (fun n => n.node_id) (fun n v => { n with node_id := v }) nodes
      (cb_insertNodes spi topo nodes be).2.1 (spi be.calls.length).vals := by
  have hout : (cb_insertNodes spi topo nodes be).2 =
      (fillMissingIds (fun n => n.node_id != -1)
            (fun n row => fillNodeFields n row LWT_COL_NODE_NODE_ID)
            (spi be.calls.length).vals 0 nodes, 1) := by
    simp only [cb_insertNodes, SPI_execute]
    generalize spi be.calls.length = r at hstatus hrows ⊢
    simp [hstatus, hrows]
  rw [hout]
  exact ⟨rfl, fillMissingIds_assigns (fun n => n.node_id) (fun n v => { n with node_id := v }) _ _ _
    (fun n row => fillNodeFields_node_id n row)⟩

/-- The statement every insert issues ends in its RETURNING clause when the
batch needs identifiers (always, for nodes). -/
theorem insert_requests_ids (spi : SPIScript) (topo : LWT_BE_TOPOLOGY) (be : Backend)
    (nodes : List LWT_ISO_NODE) (edges : List LWT_ISO_EDGE) (faces : List LWT_ISO_FACE) :
    (∃ stmt : String, (cb_insertNodes spi topo nodes be).1.calls =
        be.calls ++ [{ sql := stmt ++ " RETURNING node_id", read_only := false,
                       count := nodes.length }]) ∧
    (edges.any (fun e => e.edge_id == -1) = true →
      ∃ stmt : String, (cb_insertEdges spi topo edges be).1.calls =
        be.calls ++ [{ sql := stmt ++ " RETURNING edge_id", read_only := false,
                       count := edges.length }]) ∧
    (faces.any (fun f => f.face_id == -1) = true →
      ∃ stmt : String, (cb_insertFaces spi topo faces be).1.calls =
        be.calls ++ [{ sql := stmt ++ " RETURNING face_id", read_only := false,
                       count := faces.length }]) := by
  refine ⟨?_, ?_, ?_⟩
  · refine ⟨appendEach (fun s n => addNodeValues s n LWT_COL_NODE_ALL)
      (addNodeFields ("INSERT INTO \"" ++ topo.name ++ "\".node (") LWT_COL_NODE_ALL
        ++ ") VALUES ") 0 nodes, ?_⟩
    simp only [cb_insertNodes, SPI_execute]
    split
    · rfl
    · split <;> simp
  · intro hneeds
    refine ⟨appendEach (fun s e => addEdgeValues s e LWT_COL_EDGE_ALL true)
      (addEdgeFields ("INSERT INTO \"" ++ topo.name ++ "\".edge_data (") LWT_COL_EDGE_ALL true
        ++ ") VALUES ") 0 edges, ?_⟩
    simp only [cb_insertEdges, SPI_execute, hneeds, if_true]
    split
    · rfl
    · split <;> simp
  · intro hneeds
    refine ⟨appendEach (fun s f => addFaceValues s f topo.srid)
      (addFaceFields ("INSERT INTO \"" ++ topo.name ++ "\".face (") LWT_COL_FACE_ALL
        ++ ") VALUES ") 0 faces, ?_⟩
    simp only [cb_insertFaces, SPI_execute, hneeds, if_true]
    split
    · rfl
    · split <;> simp

theorem fillRows_length {α : Type} (fill : α → HeapTuple → Int → α) (mem : Nat → α)
    (vals : List HeapTuple) (fields : Int) (n : Nat) :
    (fillRows fill mem vals fields n).length = n := by
  simp [fillRows]

theorem fillRows_getElem? {α : Type} (fill : α → HeapTuple → Int → α) (mem : Nat → α)
    (vals : List HeapTuple) (fields : Int) (n i : Nat) (row : HeapTuple) (hi : i < n)
    (hrow : vals[i]? = some row) :
    (fillRows fill mem vals fields n)[i]? = some (fill (mem i) row fields) := by
  simp [fillRows, List.getElem?_map, List.getElem?_range hi, List.getD, hrow]

/-- The shared tail of the fetches by identifier meets `FetchOutcome`. -/
theorem fetchOutcome_of_tail {α : Type} (fill : α → HeapTuple → Int → α) (mem : Nat → α)
    (r : SPIResult) (fields : Int) (be : Backend) (call : SPICall) :
    FetchOutcome fill mem r fields be
      (if r.status != SPI_OK_SELECT then
        (cberror { be with calls := be.calls ++ [call] } (unexpectedReturn r.status call.sql),
          { elems := none, numelems := -1 })
      else if r.processed = 0 then
        ({ be with calls := be.calls ++ [call] }, { elems := none, numelems := r.processed })
      else
        ({ be with calls := be.calls ++ [call] },
          { elems := some (fillRows fill mem r.vals fields r.processed),
            numelems := r.processed })) := by
  unfold FetchOutcome
  refine ⟨?_, ?_⟩
  · intro hs
    have h1 : (r.status != SPI_OK_SELECT) = true := by simp [hs]
    rw [if_pos h1]
    exact ⟨rfl, call, rfl⟩
  · intro hs
    have h1 : ¬ (r.status != SPI_OK_SELECT) = true := by simp [hs]
    rw [if_neg h1]
    by_cases hp : r.processed = 0
    · rw [if_pos hp]
      exact ⟨rfl, fun _ => rfl, fun h => absurd hp h⟩
    · rw [if_neg hp]
      refine ⟨rfl, fun h => absurd h hp, fun _ => ⟨_, rfl, fillRows_length _ _ _ _ _, ?_⟩⟩
      intro i row hi hrow
      exact fillRows_getElem? _ _ _ _ _ _ _ hi hrow


theorem range_map_getD {α : Type} (l : List α) (dflt : α) :
    (List.range l.length).map (fun i => l.getD i dflt) = l := by
  apply List.ext_getElem
  · simp
  · intro i h1 h2
    simp [List.getD, List.getElem?_eq_getElem h2]

theorem ringEdgeIds_nonnull (ds : List (Datum × HeapTuple)) :
    ringEdgeIds (ds.map (fun d => some d.1 :: d.2)) = some (ds.map (fun d => DatumGetInt32 d.1)) := by
  induction ds with
  | nil => rfl
  | cons d rest ih => simp [ringEdgeIds, SPI_getbinval_first, ih]

theorem toInt32_succ_of_limit {N : Int} (h0 : 0 < N) (h1 : N < 2147483647) :
    toInt32 (N + 1) = N + 1 := by
  unfold toInt32
  omega

theorem toInt32_pred_succ {N : Int} (h0 : 0 < N) (h1 : N < 2147483647) :
    toInt32 (N + 1 - 1) = N := by
  unfold toInt32
  omega


/-! ## Effect of every callback on the session -/

@[simp] theorem markChanged_data_changed (be : Backend) (n : Nat) :
    (markChanged be n).be_data.data_changed = (be.be_data.data_changed || n != 0) := by
  unfold markChanged
  split
  · next h => simp [h]
  · next h => simp at h; simp [h]

theorem fetchStep_loadTopologyByName (spi : SPIScript) (name : String) (be : Backend) :
    FetchStep be (cb_loadTopologyByName spi name be).1 := by
  simp only [cb_loadTopologyByName, SPI_execute, FetchStep]
  repeat' split
  all_goals exact ⟨rfl, _, rfl, rfl⟩

theorem fetchStep_getEdgeById (spi : SPIScript) (topo : LWT_BE_TOPOLOGY) (mem : Nat → LWT_ISO_EDGE)
    (ids : List LWT_ELEMID) (fields : Int) (be : Backend) :
    FetchStep be (cb_getEdgeById spi topo mem ids fields be).1 := by
  simp only [cb_getEdgeById, SPI_execute, FetchStep]
  repeat' split
  all_goals exact ⟨rfl, _, rfl, rfl⟩

theorem fetchStep_getEdgeByNode (spi : SPIScript) (topo : LWT_BE_TOPOLOGY)
    (mem : Nat → LWT_ISO_EDGE) (ids : List LWT_ELEMID) (fields : Int) (be : Backend) :
    FetchStep be (cb_getEdgeByNode spi topo mem ids fields be).1 := by
  simp only [cb_getEdgeByNode, SPI_execute, FetchStep]
  repeat' split
  all_goals exact ⟨rfl, _, rfl, rfl⟩

theorem fetchStep_getEdgeByFace (spi : SPIScript) (topo : LWT_BE_TOPOLOGY)
    (mem : Nat → LWT_ISO_EDGE) (ids : List LWT_ELEMID) (fields : Int) (be : Backend) :
    FetchStep be (cb_getEdgeByFace spi topo mem ids fields be).1 := by
  simp only [cb_getEdgeByFace, SPI_execute, FetchStep]
  repeat' split
  all_goals exact ⟨rfl, _, rfl, rfl⟩

theorem fetchStep_getFacesById (spi : SPIScript) (topo : LWT_BE_TOPOLOGY)
    (mem : Nat → LWT_ISO_FACE) (ids : List LWT_ELEMID) (fields : Int) (be : Backend) :
    FetchStep be (cb_getFacesById spi topo mem ids fields be).1 := by
  simp only [cb_getFacesById, SPI_execute, FetchStep]
  repeat' split
  all_goals exact ⟨rfl, _, rfl, rfl⟩

theorem fetchStep_getRingEdges (spi : SPIScript) (topo : LWT_BE_TOPOLOGY) (edge : LWT_ELEMID)
    (limit : Int) (be : Backend) :
    FetchStep be (cb_getRingEdges spi topo edge limit be).1 := by
  simp only [cb_getRingEdges, SPI_execute, FetchStep]
  repeat' split
  all_goals exact ⟨rfl, _, rfl, rfl⟩

theorem fetchStep_getNodeById (spi : SPIScript) (topo : LWT_BE_TOPOLOGY)
    (mem : Nat → LWT_ISO_NODE) (ids : List LWT_ELEMID) (fields : Int) (be : Backend) :
    FetchStep be (cb_getNodeById spi topo mem ids fields be).1 := by
  simp only [cb_getNodeById, SPI_execute, FetchStep]
  repeat' split
  all_goals exact ⟨rfl, _, rfl, rfl⟩

theorem fetchStep_getNodeByFace (spi : SPIScript) (topo : LWT_BE_TOPOLOGY)
    (mem : Nat → LWT_ISO_NODE) (ids : List LWT_ELEMID) (fields : Int) (be : Backend) :
    FetchStep be (cb_getNodeByFace spi topo mem ids fields be).1 := by
  simp only [cb_getNodeByFace, SPI_execute, FetchStep]
  repeat' split
  all_goals exact ⟨rfl, _, rfl, rfl⟩

theorem fetchStep_getEdgeWithinDistance2D (spi : SPIScript) (topo : LWT_BE_TOPOLOGY)
    (mem : Nat → LWT_ISO_EDGE) (pt : LWPOINT) (dist : Double) (fields : Int) (limit : Int)
    (be : Backend) :
    FetchStep be (cb_getEdgeWithinDistance2D spi topo mem pt dist fields limit be).1 := by
  simp only [cb_getEdgeWithinDistance2D, SPI_execute, FetchStep]
  split <;> exact ⟨rfl, _, rfl, rfl⟩

theorem fetchStep_getNodeWithinDistance2D (spi : SPIScript) (topo : LWT_BE_TOPOLOGY)
    (mem : Nat → LWT_ISO_NODE) (pt : LWPOINT) (dist : Double) (fields : Int) (limit : Int)
    (be : Backend) :
    FetchStep be (cb_getNodeWithinDistance2D spi topo mem pt dist fields limit be).1 := by
  simp only [cb_getNodeWithinDistance2D, SPI_execute, FetchStep]
  split <;> exact ⟨rfl, _, rfl, rfl⟩

theorem fetchStep_getNodeWithinBox2D (spi : SPIScript) (topo : LWT_BE_TOPOLOGY)
    (mem : Nat → LWT_ISO_NODE) (box : GBOX) (fields : Int) (limit : Int) (be : Backend) :
    FetchStep be (cb_getNodeWithinBox2D spi topo mem box fields limit be).1 := by
  simp only [cb_getNodeWithinBox2D, SPI_execute, FetchStep]
  split <;> exact ⟨rfl, _, rfl, rfl⟩

theorem fetchStep_getEdgeWithinBox2D (spi : SPIScript) (topo : LWT_BE_TOPOLOGY)
    (mem : Nat → LWT_ISO_EDGE) (box : GBOX) (fields : Int) (limit : Int) (be : Backend) :
    FetchStep be (cb_getEdgeWithinBox2D spi topo mem box fields limit be).1 := by
  simp only [cb_getEdgeWithinBox2D, SPI_execute, FetchStep]
  split <;> exact ⟨rfl, _, rfl, rfl⟩

theorem fetchStep_getFaceContainingPoint (spi : SPIScript) (topo : LWT_BE_TOPOLOGY)
    (pt : LWPOINT) (be : Backend) :
    FetchStep be (cb_getFaceContainingPoint spi topo pt be).1 := by
  simp only [cb_getFaceContainingPoint, SPI_execute, FetchStep]
  repeat' split
  all_goals exact ⟨rfl, _, rfl, rfl⟩

/-- Every fetch callback is a `FetchStep`. -/
theorem fetchStep_of_isFetch (spi : SPIScript) (c : Callback) (be : Backend)
    (hc : c.isFetch = true) : FetchStep be (runCallback spi c be) := by
  cases c with
  | loadTopologyByName name => exact fetchStep_loadTopologyByName _ _ _
  | getNodeById topo mem ids fields => exact fetchStep_getNodeById _ _ _ _ _ _
  | getNodeWithinDistance2D topo mem pt dist fields limit =>
    exact fetchStep_getNodeWithinDistance2D _ _ _ _ _ _ _ _
  | getEdgeById topo mem ids fields => exact fetchStep_getEdgeById _ _ _ _ _ _
  | getEdgeWithinDistance2D topo mem pt dist fields limit =>
    exact fetchStep_getEdgeWithinDistance2D _ _ _ _ _ _ _ _
  | getFacesById topo mem ids fields => exact fetchStep_getFacesById _ _ _ _ _ _
  | getFaceContainingPoint topo pt => exact fetchStep_getFaceContainingPoint _ _ _ _
  | getNodeWithinBox2D topo mem box fields limit =>
    exact fetchStep_getNodeWithinBox2D _ _ _ _ _ _ _
  | getEdgeWithinBox2D topo mem box fields limit =>
    exact fetchStep_getEdgeWithinBox2D _ _ _ _ _ _ _
  | getEdgeByNode topo mem ids fields => exact fetchStep_getEdgeByNode _ _ _ _ _ _
  | getRingEdges topo edge limit => exact fetchStep_getRingEdges _ _ _ _ _
  | getEdgeByFace topo mem ids fields => exact fetchStep_getEdgeByFace _ _ _ _ _ _
  | getNodeByFace topo mem ids fields => exact fetchStep_getNodeByFace _ _ _ _ _ _
  | _ => exact Bool.noConfusion hc

theorem finishMutation_keeps (spi : SPIScript) (be : Backend) (sql : String) (ok : Int)
    (h : be.be_data.data_changed = true) :
    (finishMutation spi be sql ok).1.be_data.data_changed = true := by
  simp only [finishMutation, SPI_execute]
  split <;> simp [h]

theorem finishMutation_sets (spi : SPIScript) (be : Backend) (sql : String) (ok : Int)
    (hs : (spi be.calls.length).status = ok) (hp : (spi be.calls.length).processed ≠ 0) :
    (finishMutation spi be sql ok).1.be_data.data_changed = true := by
  simp only [finishMutation, SPI_execute]
  simp [hs, hp]

theorem edgeSplitLoop_keeps (spi : SPIScript) (topo : LWT_BE_TOPOLOGY) (e1 e2 : LWT_ELEMID)
    (n i : Nat) (vals : List HeapTuple) (be : Backend) (h : be.be_data.data_changed = true) :
    (edgeSplitLoop spi topo e1 e2 n i vals be).1.be_data.data_changed = true := by
  induction n generalizing i vals be with
  | zero => simpa [edgeSplitLoop] using h
  | succ n ih =>
    simp only [edgeSplitLoop, SPI_execute]
    repeat' split
    all_goals first
      | exact h
      | (apply ih; simp [h])
      | simp [h]

theorem faceSplitLoop_keeps (spi : SPIScript) (topo : LWT_BE_TOPOLOGY) (e1 e2 : LWT_ELEMID)
    (n i : Nat) (vals : List HeapTuple) (be : Backend) (h : be.be_data.data_changed = true) :
    (faceSplitLoop spi topo e1 e2 n i vals be).1.be_data.data_changed = true := by
  induction n generalizing i vals be with
  | zero => simpa [faceSplitLoop] using h
  | succ n ih =>
    simp only [faceSplitLoop, SPI_execute]
    repeat' split
    all_goals first
      | exact h
      | (apply ih; simp [h])
      | simp [h]

theorem edgeSplit_keeps (spi : SPIScript) (topo : LWT_BE_TOPOLOGY) (s e1 e2 : LWT_ELEMID)
    (be : Backend) (h : be.be_data.data_changed = true) :
    (cb_updateTopoGeomEdgeSplit spi topo s e1 e2 be).1.be_data.data_changed = true := by
  simp only [cb_updateTopoGeomEdgeSplit, SPI_execute]
  generalize spi be.calls.length = r
  by_cases hst : (r.status != (if e2 = -1 then SPI_OK_SELECT else SPI_OK_DELETE_RETURNING)) = true
  · rw [if_pos hst]
    exact h
  · rw [if_neg hst]
    apply edgeSplitLoop_keeps
    split
    · rfl
    · exact h

theorem faceSplit_keeps (spi : SPIScript) (topo : LWT_BE_TOPOLOGY) (s e1 e2 : LWT_ELEMID)
    (be : Backend) (h : be.be_data.data_changed = true) :
    (cb_updateTopoGeomFaceSplit spi topo s e1 e2 be).1.be_data.data_changed = true := by
  simp only [cb_updateTopoGeomFaceSplit, SPI_execute]
  generalize spi be.calls.length = r
  by_cases hst : (r.status != (if e2 = -1 then SPI_OK_SELECT else SPI_OK_DELETE_RETURNING)) = true
  · rw [if_pos hst]
    exact h
  · rw [if_neg hst]
    apply faceSplitLoop_keeps
    split
    · rfl
    · exact h

theorem insertNodes_keeps (spi : SPIScript) (topo : LWT_BE_TOPOLOGY) (nodes : List LWT_ISO_NODE)
    (be : Backend) (h : be.be_data.data_changed = true) :
    (cb_insertNodes spi topo nodes be).1.be_data.data_changed = true := by
  simp only [cb_insertNodes, SPI_execute]
  repeat' split
  all_goals simp [h]

theorem insertEdges_keeps (spi : SPIScript) (topo : LWT_BE_TOPOLOGY) (edges : List LWT_ISO_EDGE)
    (be : Backend) (h : be.be_data.data_changed = true) :
    (cb_insertEdges spi topo edges be).1.be_data.data_changed = true := by
  simp only [cb_insertEdges, SPI_execute]
  repeat' split
  all_goals simp [h]

theorem insertFaces_keeps (spi : SPIScript) (topo : LWT_BE_TOPOLOGY) (faces : List LWT_ISO_FACE)
    (be : Backend) (h : be.be_data.data_changed = true) :
    (cb_insertFaces spi topo faces be).1.be_data.data_changed = true := by
  simp only [cb_insertFaces, SPI_execute]
  repeat' split
  all_goals simp [h]

theorem getNextEdgeId_keeps (spi : SPIScript) (topo : LWT_BE_TOPOLOGY)
    (be : Backend) (h : be.be_data.data_changed = true) :
    (cb_getNextEdgeId spi topo be).1.be_data.data_changed = true := by
  simp only [cb_getNextEdgeId, SPI_execute]
  repeat' split
  all_goals simp [h]

/-- No callback resets the flag. -/
theorem runCallback_keeps (spi : SPIScript) (c : Callback) (be : Backend)
    (h : be.be_data.data_changed = true) :
    (runCallback spi c be).be_data.data_changed = true := by
  by_cases hc : c.isFetch = true
  · rw [(fetchStep_of_isFetch spi c be hc).1]; exact h
  · cases c with
    | insertNodes topo nodes => exact insertNodes_keeps _ _ _ _ h
    | insertEdges topo edges => exact insertEdges_keeps _ _ _ _ h
    | insertFaces topo faces => exact insertFaces_keeps _ _ _ _ h
    | getNextEdgeId topo => exact getNextEdgeId_keeps _ _ _ h
    | updateEdges topo sel sf upd uf exc ef => exact finishMutation_keeps _ _ _ _ h
    | updateNodes topo sel sf upd uf exc ef => exact finishMutation_keeps _ _ _ _ h
    | updateFacesById topo faces => exact finishMutation_keeps _ _ _ _ h
    | deleteEdges topo sel sf => exact finishMutation_keeps _ _ _ _ h
    | deleteFacesById topo ids => exact finishMutation_keeps _ _ _ _ h
    | updateNodesById topo nodes fields =>
      show (cb_updateNodesById spi topo _ fields be).1.be_data.data_changed = true
      unfold cb_updateNodesById
      by_cases hf : fields = 0
      · rw [if_pos hf]
        exact h
      · rw [if_neg hf]
        exact finishMutation_keeps _ _ _ _ h
    | updateEdgesById topo edges fields =>
      show (cb_updateEdgesById spi topo _ fields be).1.be_data.data_changed = true
      unfold cb_updateEdgesById
      by_cases hf : fields = 0
      · rw [if_pos hf]
        exact h
      · rw [if_neg hf]
        exact finishMutation_keeps _ _ _ _ h
    | updateTopoGeomEdgeSplit topo s n1 n2 => exact edgeSplit_keeps _ _ _ _ _ _ h
    | updateTopoGeomFaceSplit topo s n1 n2 => exact faceSplit_keeps _ _ _ _ _ _ h
    | _ => exact absurd rfl hc

/-- An insert, update or delete that processes at least one row sets the flag. -/
theorem runCallback_sets (spi : SPIScript) (c : Callback) (be : Backend)
    (h : processesRows spi c be) :
    (runCallback spi c be).be_data.data_changed = true := by
  obtain ⟨hs, hp⟩ := h
  cases c with
  | insertNodes topo nodes =>
    have hs' := (Option.some.inj hs).symm
    simp only [runCallback, cb_insertNodes, SPI_execute]
    generalize spi be.calls.length = r at hs' hp
    simp only [hs', bne_self_eq_false, Bool.false_eq_true, if_false]
    split <;> simp [hp]
  | insertEdges topo edges =>
    have hs' := (Option.some.inj hs).symm
    simp only [runCallback, cb_insertEdges, SPI_execute]
    generalize spi be.calls.length = r at hs' hp
    simp only [hs', bne_self_eq_false, Bool.false_eq_true, if_false]
    split <;> simp [hp]
  | insertFaces topo faces =>
    have hs' := (Option.some.inj hs).symm
    simp only [runCallback, cb_insertFaces, SPI_execute]
    generalize spi be.calls.length = r at hs' hp
    simp only [hs', bne_self_eq_false, Bool.false_eq_true, if_false]
    split <;> simp [hp]
  | updateEdges topo sel sf upd uf exc ef =>
    exact finishMutation_sets _ _ _ _ (Option.some.inj hs).symm hp
  | updateNodes topo sel sf upd uf exc ef =>
    exact finishMutation_sets _ _ _ _ (Option.some.inj hs).symm hp
  | updateFacesById topo faces =>
    exact finishMutation_sets _ _ _ _ (Option.some.inj hs).symm hp
  | deleteEdges topo sel sf =>
    exact finishMutation_sets _ _ _ _ (Option.some.inj hs).symm hp
  | deleteFacesById topo ids =>
    exact finishMutation_sets _ _ _ _ (Option.some.inj hs).symm hp
  | updateNodesById topo nodes fields =>
    simp only [Callback.mutationStatus] at hs
    show (cb_updateNodesById spi topo _ fields be).1.be_data.data_changed = true
    unfold cb_updateNodesById
    by_cases hf : fields = 0
    · rw [if_pos hf] at hs
      exact Option.noConfusion hs
    · rw [if_neg hf] at hs
      rw [if_neg hf]
      exact finishMutation_sets _ _ _ _ (Option.some.inj hs).symm hp
  | updateEdgesById topo edges fields =>
    simp only [Callback.mutationStatus] at hs
    show (cb_updateEdgesById spi topo _ fields be).1.be_data.data_changed = true
    unfold cb_updateEdgesById
    by_cases hf : fields = 0
    · rw [if_pos hf] at hs
      exact Option.noConfusion hs
    · rw [if_neg hf] at hs
      rw [if_neg hf]
      exact finishMutation_sets _ _ _ _ (Option.some.inj hs).symm hp
  | _ => exact Option.noConfusion hs

theorem runSession_append (spi : SPIScript) (a b : List Callback) (be : Backend) :
    runSession spi (a ++ b) be = runSession spi b (runSession spi a be) := by
  simp [runSession, List.foldl_append]

theorem runSession_keeps (spi : SPIScript) (cbs : List Callback) (be : Backend)
    (h : be.be_data.data_changed = true) :
    (runSession spi cbs be).be_data.data_changed = true := by
  induction cbs generalizing be with
  | nil => exact h
  | cons c rest ih => exact ih _ (runCallback_keeps spi c be h)

theorem runSession_fetches (spi : SPIScript) (cbs : List Callback) (be : Backend)
    (h : ∀ x ∈ cbs, x.isFetch = true) :
    (runSession spi cbs be).be_data.data_changed = be.be_data.data_changed := by
  induction cbs generalizing be with
  | nil => rfl
  | cons c rest ih =>
    have hc := (fetchStep_of_isFetch spi c be (h c (List.mem_cons_self _ _))).1
    have := ih (runCallback spi c be) (fun x hx => h x (List.mem_cons_of_mem _ hx))
    simp only [runSession, List.foldl_cons] at this ⊢
    rw [this, hc]

theorem issuedBy_fetch (spi : SPIScript) (c : Callback) (be : Backend) (hc : c.isFetch = true)
    (call : SPICall) (hcall : call ∈ issuedBy spi c be) :
    call.read_only = !be.be_data.data_changed := by
  obtain ⟨_, call', hcalls, hro⟩ := fetchStep_of_isFetch spi c be hc
  unfold issuedBy at hcall
  rw [hcalls, List.drop_left] at hcall
  simp at hcall
  rw [hcall]
  exact hro


/-! ## C2: a failed insert leaves the batch as it was -/

/-- C2: for each of cb_insertNodes, cb_insertEdges and cb_insertFaces, if the
store answers the statement with a return code other than the expected one, or
with a number of processed rows other than the number of records, the callback
reports failure (0 for nodes, -1 for edges and faces) and hands back the batch
exactly as it was passed. -/
theorem C2_failed_insert_leaves_batch (spi : SPIScript) (topo : LWT_BE_TOPOLOGY) (be : Backend)
    (nodes : List LWT_ISO_NODE) (edges : List LWT_ISO_EDGE) (faces : List LWT_ISO_FACE) :
    (((spi be.calls.length).status ≠ SPI_OK_INSERT_RETURNING ∨
        ((spi be.calls.length).processed : Int) ≠ nodes.length) →
      (cb_insertNodes spi topo nodes be).2 = (nodes, 0)) ∧
    (((spi be.calls.length).status ≠
          (if edges.any (fun e => e.edge_id == -1) then SPI_OK_INSERT_RETURNING
           else SPI_OK_INSERT) ∨
        ((spi be.calls.length).processed : Int) ≠ edges.length) →
      (cb_insertEdges spi topo edges be).2 = (edges, -1)) ∧
    (((spi be.calls.length).status ≠
          (if faces.any (fun f => f.face_id == -1) then SPI_OK_INSERT_RETURNING
           else SPI_OK_INSERT) ∨
        ((spi be.calls.length).processed : Int) ≠ faces.length) →
      (cb_insertFaces spi topo faces be).2 = (faces, -1)) := by
  refine ⟨?_, ?_, ?_⟩
  · intro h
    simp only [cb_insertNodes, SPI_execute]
    by_cases hs : (spi be.calls.length).status = SPI_OK_INSERT_RETURNING
    · have hp : ((spi be.calls.length).processed : Int) ≠ nodes.length := by
        rcases h with h | h
        · exact absurd hs h
        · exact h
      simp [hs, hp]
    · simp [hs]
  · intro h
    simp only [cb_insertEdges, SPI_execute]
    generalize edges.any (fun e => e.edge_id == -1) = needs at h ⊢
    generalize spi be.calls.length = r at h ⊢
    by_cases hs : r.status = (if needs then SPI_OK_INSERT_RETURNING else SPI_OK_INSERT)
    · have hp : (r.processed : Int) ≠ edges.length := by
        rcases h with h | h
        · exact absurd hs h
        · exact h
      simp [hs, hp]
    · simp [hs]
  · intro h
    simp only [cb_insertFaces, SPI_execute]
    generalize faces.any (fun f => f.face_id == -1) = needs at h ⊢
    generalize spi be.calls.length = r at h ⊢
    by_cases hs : r.status = (if needs then SPI_OK_INSERT_RETURNING else SPI_OK_INSERT)
    · have hp : (r.processed : Int) ≠ faces.length := by
        rcases h with h | h
        · exact absurd hs h
        · exact h
      simp [hs, hp]
    · simp [hs]

/-- C2 at a store that fails the statement, for one new node. -/
theorem C2_failed_insert_leaves_batch_witness :
    (alwaysFails be0.calls.length).status ≠ SPI_OK_INSERT_RETURNING ∧
    (cb_insertNodes alwaysFails tp [newNode] be0).2 = ([newNode], 0) :=
  ⟨by decide,
   (C2_failed_insert_leaves_batch alwaysFails tp be0 [newNode] [newEdge] [newFace]).1
     (Or.inl (by decide))⟩

/-! ## C3: a successful insert assigns the returned identifiers -/

/-- C3: for every batch of edges (likewise faces and nodes) whose insert is
answered with the expected return code and as many rows as records: the
callback reports success, every record that had an identifier is untouched,
and every record whose identifier was -1 differs from the original only in its
identifier, which is the one in the first column of the returned row at the
record's own position (`IdsAssigned`); and the statement issued ends in the
RETURNING clause whenever a record has identifier -1 (always, for nodes). -/
theorem C3_insert_assigns_returned_ids (spi : SPIScript) (topo : LWT_BE_TOPOLOGY)
    (be : Backend) (nodes : List LWT_ISO_NODE) (edges : List LWT_ISO_EDGE)
    (faces : List LWT_ISO_FACE) :
    ((spi be.calls.length).status =
        (if edges.any (fun e => e.edge_id == -1) then SPI_OK_INSERT_RETURNING
         else SPI_OK_INSERT) →
      ((spi be.calls.length).processed : Int) = edges.length →
      (cb_insertEdges spi topo edges be).2.2 = edges.length ∧
      IdsAssigned (fun e => e.edge_id) (fun e v => { e with edge_id := v }) edges
        (cb_insertEdges spi topo edges be).2.1 (spi be.calls.length).vals) ∧
    ((spi be.calls.length).status =
        (if faces.any (fun f => f.face_id == -1) then SPI_OK_INSERT_RETURNING
         else SPI_OK_INSERT) →
      ((spi be.calls.length).processed : Int) = faces.length →
      (cb_insertFaces spi topo faces be).2.2 = faces.length ∧
      IdsAssigned (fun f => f.face_id) (fun f v => { f with face_id := v }) faces
        (cb_insertFaces spi topo faces be).2.1 (spi be.calls.length).vals) ∧
    ((spi be.calls.length).status = SPI_OK_INSERT_RETURNING →
      ((spi be.calls.length).processed : Int) = nodes.length →
      (cb_insertNodes spi topo nodes be).2.2 = 1 ∧
      IdsAssigned (fun n => n.node_id) (fun n v => { n with node_id := v }) nodes
        (cb_insertNodes spi topo nodes be).2.1 (spi be.calls.length).vals) ∧
    (∃ stmt : String, (cb_insertNodes spi topo nodes be).1.calls =
        be.calls ++ [{ sql := stmt ++ " RETURNING node_id", read_only := false,
                       count := nodes.length }]) ∧
    (edges.any (fun e => e.edge_id == -1) = true →
      ∃ stmt : String, (cb_insertEdges spi topo edges be).1.calls =
        be.calls ++ [{ sql := stmt ++ " RETURNING edge_id", read_only := false,
                       count := edges.length }]) ∧
    (faces.any (fun f => f.face_id == -1) = true →
      ∃ stmt : String, (cb_insertFaces spi topo faces be).1.calls =
        be.calls ++ [{ sql := stmt ++ " RETURNING face_id", read_only := false,
                       count := faces.length }]) :=
  ⟨insertEdges_success spi topo be edges, insertFaces_success spi topo be faces,
   insertNodes_success spi topo be nodes, insert_requests_ids spi topo be nodes edges faces⟩

/-- C3 at a store that returns the identifier 42 for one new edge. -/
theorem C3_insert_assigns_returned_ids_witness :
    (returnsId42 be0.calls.length).status =
        (if [newEdge].any (fun e => e.edge_id == -1) then SPI_OK_INSERT_RETURNING
         else SPI_OK_INSERT) ∧
    ((returnsId42 be0.calls.length).processed : Int) = [newEdge].length ∧
    (cb_insertEdges returnsId42 tp [newEdge] be0).2.2 = [newEdge].length ∧
    IdsAssigned (fun e => e.edge_id) (fun e v => { e with edge_id := v }) [newEdge]
      (cb_insertEdges returnsId42 tp [newEdge] be0).2.1 (returnsId42 be0.calls.length).vals :=
  ⟨by decide, by decide,
   (C3_insert_assigns_returned_ids returnsId42 tp be0 [newNode] [newEdge] [newFace]).1
     (by decide) (by decide)⟩

/-! ## C4 to C7: split propagation

The row loop of both propagators reads the row table of the statement run
last. After the first inserts that is the table of an insert, which has no
rows, so a second captured row is never reached. -/

/-- C4 (code defect): with two children and two captured rows, none of them
with a NULL, and every insert succeeding, cb_updateTopoGeomFaceSplit issues the
two inserts of the first row only (not four) and then faults reading the
second row, instead of reporting success. -/
theorem C4_faceSplit_second_row_never_read :
    (cb_updateTopoGeomFaceSplit (twoRowsThenInserts SPI_OK_DELETE_RETURNING) tp 5 6 7 be0).2
      = none ∧
    ((cb_updateTopoGeomFaceSplit (twoRowsThenInserts SPI_OK_DELETE_RETURNING) tp 5 6 7
        be0).1.calls.map (fun c => c.sql)).drop 1 =
      ["INSERT INTO \"tp\".relation VALUES (10,1,6,3)",
       "INSERT INTO \"tp\".relation VALUES (10,1,7,3)"] := by
  decide

/-- C5 (code defect): with two children and one captured row, the second
insert of cb_updateTopoGeomEdgeSplit is not the first insert with the other
child: its text reads INSERT INTO FROM and lacks the closing parenthesis,
whereas cb_updateTopoGeomFaceSplit issues a well-formed second insert. -/
theorem C5_edgeSplit_second_insert_malformed :
    ((cb_updateTopoGeomEdgeSplit oneRowThenInserts tp 5 6 7 be0).1.calls.map
        (fun c => c.sql)).drop 1 =
      ["INSERT INTO \"tp\".relation VALUES (10,1,6,2)",
       "INSERT INTO FROM \"tp\".relation VALUES (10,1,7,2"] ∧
    ((cb_updateTopoGeomFaceSplit oneRowThenInserts tp 5 6 7 be0).1.calls.map
        (fun c => c.sql)).drop 1 =
      ["INSERT INTO \"tp\".relation VALUES (10,1,6,2)",
       "INSERT INTO \"tp\".relation VALUES (10,1,7,2)"] := by
  decide

/-- C6 (code defect): in the one-child path with two matching rows, both
propagators issue the SELECT and the insert of the first row only (one insert,
not two) and then fault reading the second row. -/
theorem C6_one_child_second_row_never_read :
    (cb_updateTopoGeomEdgeSplit (twoRowsThenInserts SPI_OK_SELECT) tp 5 6 (-1) be0).2 = none ∧
    ((cb_updateTopoGeomEdgeSplit (twoRowsThenInserts SPI_OK_SELECT) tp 5 6 (-1)
        be0).1.calls.map (fun c => c.sql)).drop 1 =
      ["INSERT INTO \"tp\".relation VALUES (10,1,6,3)"] ∧
    (cb_updateTopoGeomFaceSplit (twoRowsThenInserts SPI_OK_SELECT) tp 5 6 (-1) be0).2 = none ∧
    ((cb_updateTopoGeomFaceSplit (twoRowsThenInserts SPI_OK_SELECT) tp 5 6 (-1)
        be0).1.calls.map (fun c => c.sql)).drop 1 =
      ["INSERT INTO \"tp\".relation VALUES (10,1,6,3)"] := by
  decide

/-- C7 (code defect): when the second captured row has a NULL topogeo_id and
the inserts of the first row succeed, neither propagator returns failure (0)
or records a message: both fault reading the second row, the last error still
empty. -/
theorem C7_null_in_second_row_not_reported :
    (cb_updateTopoGeomEdgeSplit secondRowNull tp 5 6 7 be0).2 = none ∧
    cb_lastErrorMessage (cb_updateTopoGeomEdgeSplit secondRowNull tp 5 6 7 be0).1 = "" ∧
    (cb_updateTopoGeomFaceSplit secondRowNull tp 5 6 7 be0).2 = none ∧
    cb_lastErrorMessage (cb_updateTopoGeomFaceSplit secondRowNull tp 5 6 7 be0).1 = "" := by
  decide
theorem getRingEdges_limit (spi : SPIScript) (topo : LWT_BE_TOPOLOGY) (be : Backend)
    (edge : LWT_ELEMID) (N : Int) (hpos : 0 < N) (hmax : N < 2147483647)
    (hstatus : (spi be.calls.length).status = SPI_OK_SELECT) :
    (cb_getRingEdges spi topo edge N be).1.calls =
        be.calls ++ [{ sql := ringEdgesQuery topo.name edge ++ " LIMIT " ++ fmtInt (N + 1),
                       read_only := !be.be_data.data_changed, count := N + 1 }] ∧
    (((spi be.calls.length).processed : Int) = N + 1 →
      (cb_getRingEdges spi topo edge N be).2 = { elems := none, numelems := -1 } ∧
      cb_lastErrorMessage (cb_getRingEdges spi topo edge N be).1 =
        cb_lastErrorMessage (cberror be ("Max traversing limit hit: " ++ fmtInt N))) ∧
    (∀ ds : List (Datum × HeapTuple),
      (spi be.calls.length).vals = ds.map (fun d => some d.1 :: d.2) →
      (spi be.calls.length).processed = ds.length →
      1 ≤ ds.length → (ds.length : Int) ≤ N →
      (cb_getRingEdges spi topo edge N be).2 =
        { elems := some (ds.map (fun d => DatumGetInt32 d.1)), numelems := ds.length }) := by
  have hN : N ≠ 0 := by omega
  have h1 := toInt32_succ_of_limit hpos hmax
  have h2 := toInt32_pred_succ hpos hmax
  have hne : N + 1 ≠ 0 := by omega
  simp only [cb_getRingEdges, SPI_execute]
  generalize spi be.calls.length = r at hstatus ⊢
  simp only [bne_iff_ne, ne_eq, hN, not_false_eq_true, if_true, h1, hstatus, not_true_eq_false,
    if_false, hne, h2, Bool.and_eq_true, decide_eq_true_eq, beq_iff_eq, true_and]
  refine ⟨?_, ?_, ?_⟩
  · split
    · rfl
    · split
      · rfl
      · split <;> rfl
  · intro hp
    have hp0 : r.processed ≠ 0 := by
      intro h
      rw [h] at hp
      simp at hp
      omega
    simp [hp0, hp, cb_lastErrorMessage, cberror]
  · intro ds hvals hproc hk1 hkN
    have hp0 : r.processed ≠ 0 := by omega
    have hlt : (r.processed : Int) ≠ N + 1 := by rw [hproc]; omega
    rw [if_neg hp0, if_neg hlt, hproc, hvals]
    have := range_map_getD (ds.map (fun d => some d.1 :: d.2)) []
    simp only [List.length_map] at this
    rw [this, ringEdgeIds_nonnull]

theorem getRingEdges_unlimited (spi : SPIScript) (topo : LWT_BE_TOPOLOGY) (be : Backend)
    (edge : LWT_ELEMID) (hstatus : (spi be.calls.length).status = SPI_OK_SELECT) :
    (cb_getRingEdges spi topo edge 0 be).1.calls =
        be.calls ++ [{ sql := ringEdgesQuery topo.name edge,
                       read_only := !be.be_data.data_changed, count := 0 }] ∧
    (∀ ds : List (Datum × HeapTuple),
      (spi be.calls.length).vals = ds.map (fun d => some d.1 :: d.2) →
      (spi be.calls.length).processed = ds.length →
      (cb_getRingEdges spi topo edge 0 be).2 =
        { elems := if ds.length = 0 then none else some (ds.map (fun d => DatumGetInt32 d.1)),
          numelems := ds.length }) ∧
    (cb_lastErrorMessage (cb_getRingEdges spi topo edge 0 be).1 = cb_lastErrorMessage be ∨
     cb_lastErrorMessage (cb_getRingEdges spi topo edge 0 be).1 =
       "Found edge with NULL edge_id") := by
  simp only [cb_getRingEdges, SPI_execute]
  generalize spi be.calls.length = r at hstatus ⊢
  simp only [bne_self_eq_false, Bool.false_eq_true, if_false, hstatus, Bool.false_and]
  refine ⟨?_, ?_, ?_⟩
  · split
    · rfl
    · split <;> rfl
  · intro ds hvals hproc
    by_cases hp0 : r.processed = 0
    · rw [if_pos hp0, if_pos (by omega)]
      simp [hproc]
    · rw [if_neg hp0, if_neg (by omega), hproc, hvals]
      have := range_map_getD (ds.map (fun d => some d.1 :: d.2)) []
      simp only [List.length_map] at this
      rw [this, ringEdgeIds_nonnull]
  · split
    · exact Or.inl rfl
    · split
      · exact Or.inr rfl
      · exact Or.inl rfl

/-! ## C8: ring traversal limit -/

/-- C8: for cb_getRingEdges with a traversal limit N, 0 < N < INT_MAX, whose
statement the store answers with SPI_OK_SELECT: the statement is issued with
the row cap N+1; if N+1 rows come back the result is failure (count -1, no
identifiers) and the last error is the recorded text of "Max traversing limit
hit: N"; if k rows come back, 1 <= k <= N, each with an identifier in its first
column, the result is exactly those k identifiers in row order. With limit 0
the statement carries no LIMIT and is issued without a row cap, any number of
such rows is returned whole, and the last error is never a limit message. -/
theorem C8_getRingEdges_limit (spi : SPIScript) (topo : LWT_BE_TOPOLOGY) (be : Backend)
    (edge : LWT_ELEMID) (N : Int) (hpos : 0 < N) (hmax : N < 2147483647)
    (hstatus : (spi be.calls.length).status = SPI_OK_SELECT) :
    ((cb_getRingEdges spi topo edge N be).1.calls =
        be.calls ++ [{ sql := ringEdgesQuery topo.name edge ++ " LIMIT " ++ fmtInt (N + 1),
                       read_only := !be.be_data.data_changed, count := N + 1 }] ∧
     (((spi be.calls.length).processed : Int) = N + 1 →
      (cb_getRingEdges spi topo edge N be).2 = { elems := none, numelems := -1 } ∧
      cb_lastErrorMessage (cb_getRingEdges spi topo edge N be).1 =
        cb_lastErrorMessage (cberror be ("Max traversing limit hit: " ++ fmtInt N))) ∧
     (∀ ds : List (Datum × HeapTuple),
      (spi be.calls.length).vals = ds.map (fun d => some d.1 :: d.2) →
      (spi be.calls.length).processed = ds.length →
      1 ≤ ds.length → (ds.length : Int) ≤ N →
      (cb_getRingEdges spi topo edge N be).2 =
        { elems := some (ds.map (fun d => DatumGetInt32 d.1)), numelems := ds.length })) ∧
    ((cb_getRingEdges spi topo edge 0 be).1.calls =
        be.calls ++ [{ sql := ringEdgesQuery topo.name edge,
                       read_only := !be.be_data.data_changed, count := 0 }] ∧
     (∀ ds : List (Datum × HeapTuple),
      (spi be.calls.length).vals = ds.map (fun d => some d.1 :: d.2) →
      (spi be.calls.length).processed = ds.length →
      (cb_getRingEdges spi topo edge 0 be).2 =
        { elems := if ds.length = 0 then none else some (ds.map (fun d => DatumGetInt32 d.1)),
          numelems := ds.length }) ∧
     (cb_lastErrorMessage (cb_getRingEdges spi topo edge 0 be).1 = cb_lastErrorMessage be ∨
      cb_lastErrorMessage (cb_getRingEdges spi topo edge 0 be).1 =
        "Found edge with NULL edge_id")) :=
  ⟨getRingEdges_limit spi topo be edge N hpos hmax hstatus,
   getRingEdges_unlimited spi topo be edge hstatus⟩

/-- C8 at limit 5 on a store that answers with the ring 7, -8. -/
theorem C8_getRingEdges_limit_witness :
    (0 : Int) < 5 ∧ (5 : Int) < 2147483647 ∧
    (ringOfTwo be0.calls.length).status = SPI_OK_SELECT ∧
    (cb_getRingEdges ringOfTwo tp 7 5 be0).2 = { elems := some [7, -8], numelems := 2 } :=
  ⟨by decide, by decide, by decide,
   ((C8_getRingEdges_limit ringOfTwo tp be0 7 5 (by decide) (by decide) (by decide)).1.2.2
     [(Datum.word 7, [some (Datum.word 7)]), (Datum.word (-8), [some (Datum.word 8)])]
     (by decide) (by decide) (by decide) (by decide)).trans (by decide)⟩

/-! ## C9: reads after a write are not read-only -/

/-- C9: in every sequence of callbacks run from a session whose data_changed
flag is false: a fetch that runs after fetches only issues its statement in
read-only mode; an insert, update or delete callback whose statement processes
at least one row leaves the flag set; no sequence of callbacks resets a set
flag; and every fetch that runs after such a callback, whatever ran in
between, issues its statement with read-only false. At any point of the
sequence a fetch passes the negation of the flag as read-only. The fetches are
the lookups by identifier, adjacency, spatial predicate and ring traversal, the
containing-face lookup and the topology lookup. -/
theorem C9_reads_fresh_after_write (spi : SPIScript) (be : Backend) (hinit : be.be_data.data_changed = false) :
    (∀ (pre : List Callback) (c : Callback), (∀ x ∈ pre, x.isFetch = true) → c.isFetch = true →
      ∀ call ∈ issuedBy spi c (runSession spi pre be), call.read_only = true) ∧
    (∀ (pre : List Callback) (m : Callback), processesRows spi m (runSession spi pre be) →
      (runSession spi (pre ++ [m]) be).be_data.data_changed = true) ∧
    (∀ (cbs : List Callback) (b : Backend), b.be_data.data_changed = true →
      (runSession spi cbs b).be_data.data_changed = true) ∧
    (∀ (pre mid : List Callback) (m c : Callback),
      processesRows spi m (runSession spi pre be) → c.isFetch = true →
      ∀ call ∈ issuedBy spi c (runSession spi (pre ++ m :: mid) be), call.read_only = false) ∧
    (∀ (pre : List Callback) (c : Callback), c.isFetch = true →
      ∀ call ∈ issuedBy spi c (runSession spi pre be),
        call.read_only = !(runSession spi pre be).be_data.data_changed) := by
  refine ⟨?_, ?_, ?_, ?_, fun pre c hc call hcall => issuedBy_fetch spi c _ hc call hcall⟩
  · intro pre c hpre hc call hcall
    rw [issuedBy_fetch spi c _ hc call hcall, runSession_fetches spi pre be hpre, hinit]
    rfl
  · intro pre m hm
    rw [runSession_append]
    exact runCallback_sets spi m _ hm
  · exact fun cbs b hb => runSession_keeps spi cbs b hb
  · intro pre mid m c hm hc call hcall
    have hset : (runSession spi (pre ++ m :: mid) be).be_data.data_changed = true := by
      rw [runSession_append]
      exact runSession_keeps spi mid _ (runCallback_sets spi m _ hm)
    rw [issuedBy_fetch spi c _ hc call hcall, hset]
    rfl

/-- C9 at a session of one insert of a node that the store answers with one row. -/
theorem C9_reads_fresh_after_write_witness :
    be0.be_data.data_changed = false ∧ processesRows returnsId42 (Callback.insertNodes tp [newNode])
      (runSession returnsId42 [] be0) ∧
    (runSession returnsId42 ([] ++ [Callback.insertNodes tp [newNode]]) be0).be_data.data_changed
      = true :=
  ⟨rfl, by decide, (C9_reads_fresh_after_write returnsId42 be0 rfl).2.1 [] (Callback.insertNodes tp [newNode]) (by decide)⟩


/-! ## C10: fetch by identifier -/

/-- C10: for cb_getEdgeById, cb_getNodeById and cb_getFacesById, every
identifier list and every field set: if the store answers the statement with a
return code other than SPI_OK_SELECT the count is -1, no records are returned
and the error message is recorded; otherwise the count is the number of rows,
no records are returned for 0 rows, and for more the result holds exactly that
many records, the i-th materialized from the i-th row with the same field set
(`FetchOutcome`). -/
theorem C10_fetch_by_id_outcome (spi : SPIScript) (topo : LWT_BE_TOPOLOGY) (be : Backend)
    (ids : List LWT_ELEMID) (fields : Int) (memE : Nat → LWT_ISO_EDGE)
    (memN : Nat → LWT_ISO_NODE) (memF : Nat → LWT_ISO_FACE) :
    FetchOutcome fillEdgeFields memE (spi be.calls.length) fields be
      (cb_getEdgeById spi topo memE ids fields be) ∧
    FetchOutcome fillNodeFields memN (spi be.calls.length) fields be
      (cb_getNodeById spi topo memN ids fields be) ∧
    FetchOutcome fillFaceFields memF (spi be.calls.length) fields be
      (cb_getFacesById spi topo memF ids fields be) :=
  ⟨fetchOutcome_of_tail _ _ _ _ _ _, fetchOutcome_of_tail _ _ _ _ _ _,
   fetchOutcome_of_tail _ _ _ _ _ _⟩

/-- C10 at a store that answers with two rows, for a fetch of nodes by identifier. -/
theorem C10_fetch_by_id_outcome_witness :
    (ringOfTwo be0.calls.length).status = SPI_OK_SELECT ∧
    (cb_getNodeById ringOfTwo tp (fun _ => newNode) [7, 8] LWT_COL_NODE_NODE_ID be0).2.numelems
      = 2 :=
  ⟨by decide,
   ((C10_fetch_by_id_outcome ringOfTwo tp be0 [7, 8] LWT_COL_NODE_NODE_ID (fun _ => blankEdge)
      (fun _ => newNode) (fun _ => newFace)).2.1.2 (by decide)).1⟩

/-! ## Shared lemmas on the mutating callbacks -/

theorem mutationOutcome_finish (spi : SPIScript) (be : Backend) (sql : String) (ok : Int) :
    MutationOutcome (-1) ok (spi be.calls.length) be (finishMutation spi be sql ok) := by
  simp only [MutationOutcome, finishMutation, SPI_execute]
  generalize spi be.calls.length = r
  by_cases hs : r.status = ok
  · have h1 : ¬ (r.status != ok) = true := by simp [hs]
    rw [if_neg h1]
    exact ⟨fun h => absurd hs h, fun _ => hs⟩
  · have h1 : (r.status != ok) = true := by simp [hs]
    rw [if_pos h1]
    exact ⟨fun _ => ⟨rfl, ⟨_, _, _⟩, rfl⟩, fun h => absurd h (lt_irrefl _)⟩

theorem mutationOutcome_insertNodes (spi : SPIScript) (topo : LWT_BE_TOPOLOGY) (be : Backend)
    (nodes : List LWT_ISO_NODE) :
    MutationOutcome 0 SPI_OK_INSERT_RETURNING (spi be.calls.length) be
      ((cb_insertNodes spi topo nodes be).1, (cb_insertNodes spi topo nodes be).2.2) := by
  simp only [MutationOutcome, cb_insertNodes, SPI_execute]
  generalize spi be.calls.length = r
  by_cases hs : r.status = SPI_OK_INSERT_RETURNING
  · have h1 : ¬ (r.status != SPI_OK_INSERT_RETURNING) = true := by simp [hs]
    rw [if_neg h1]
    exact ⟨fun h => absurd hs h, fun _ => hs⟩
  · have h1 : (r.status != SPI_OK_INSERT_RETURNING) = true := by simp [hs]
    rw [if_pos h1]
    exact ⟨fun _ => ⟨rfl, ⟨_, _, _⟩, rfl⟩, fun h => absurd h (lt_irrefl _)⟩

theorem mutationOutcome_insertEdges (spi : SPIScript) (topo : LWT_BE_TOPOLOGY) (be : Backend)
    (edges : List LWT_ISO_EDGE) :
    MutationOutcome (-1) (insertStatus (edges.any (fun e => e.edge_id == -1)))
      (spi be.calls.length) be
      ((cb_insertEdges spi topo edges be).1, (cb_insertEdges spi topo edges be).2.2) := by
  simp only [MutationOutcome, cb_insertEdges, SPI_execute, insertStatus]
  generalize spi be.calls.length = r
  generalize edges.any (fun e => e.edge_id == -1) = needs
  by_cases hs : r.status = (if needs = true then SPI_OK_INSERT_RETURNING else SPI_OK_INSERT)
  · have h1 : ¬ (r.status != (if needs = true then SPI_OK_INSERT_RETURNING
        else SPI_OK_INSERT)) = true := by simp [hs]
    rw [if_neg h1]
    exact ⟨fun h => absurd hs h, fun _ => hs⟩
  · have h1 : (r.status != (if needs = true then SPI_OK_INSERT_RETURNING
        else SPI_OK_INSERT)) = true := by simp [hs]
    rw [if_pos h1]
    exact ⟨fun _ => ⟨rfl, ⟨_, _, _⟩, rfl⟩, fun h => absurd h (lt_irrefl _)⟩

theorem mutationOutcome_insertFaces (spi : SPIScript) (topo : LWT_BE_TOPOLOGY) (be : Backend)
    (faces : List LWT_ISO_FACE) :
    MutationOutcome (-1) (insertStatus (faces.any (fun f => f.face_id == -1)))
      (spi be.calls.length) be
      ((cb_insertFaces spi topo faces be).1, (cb_insertFaces spi topo faces be).2.2) := by
  simp only [MutationOutcome, cb_insertFaces, SPI_execute, insertStatus]
  generalize spi be.calls.length = r
  generalize faces.any (fun f => f.face_id == -1) = needs
  by_cases hs : r.status = (if needs = true then SPI_OK_INSERT_RETURNING else SPI_OK_INSERT)
  · have h1 : ¬ (r.status != (if needs = true then SPI_OK_INSERT_RETURNING
        else SPI_OK_INSERT)) = true := by simp [hs]
    rw [if_neg h1]
    exact ⟨fun h => absurd hs h, fun _ => hs⟩
  · have h1 : (r.status != (if needs = true then SPI_OK_INSERT_RETURNING
        else SPI_OK_INSERT)) = true := by simp [hs]
    rw [if_pos h1]
    exact ⟨fun _ => ⟨rfl, ⟨_, _, _⟩, rfl⟩, fun h => absurd h (lt_irrefl _)⟩

theorem mutationOutcome_updateNodesById (spi : SPIScript) (topo : LWT_BE_TOPOLOGY)
    (be : Backend) (nodes : List LWT_ISO_NODE) (fields : Int) :
    (fields = 0 → (cb_updateNodesById spi topo nodes fields be).2 = -1 ∧
      (cb_updateNodesById spi topo nodes fields be).1 =
        cberror be "updateNodesById callback called with no update fields!") ∧
    (fields ≠ 0 → MutationOutcome (-1) SPI_OK_UPDATE (spi be.calls.length) be
      (cb_updateNodesById spi topo nodes fields be)) := by
  unfold cb_updateNodesById
  refine ⟨fun hf => ?_, fun hf => ?_⟩
  · rw [if_pos hf]
    exact ⟨rfl, rfl⟩
  · rw [if_neg hf]
    exact mutationOutcome_finish _ _ _ _

theorem mutationOutcome_updateEdgesById (spi : SPIScript) (topo : LWT_BE_TOPOLOGY)
    (be : Backend) (edges : List LWT_ISO_EDGE) (fields : Int) :
    (fields = 0 → (cb_updateEdgesById spi topo edges fields be).2 = -1 ∧
      (cb_updateEdgesById spi topo edges fields be).1 =
        cberror be "updateEdgesById callback called with no update fields!") ∧
    (fields ≠ 0 → MutationOutcome (-1) SPI_OK_UPDATE (spi be.calls.length) be
      (cb_updateEdgesById spi topo edges fields be)) := by
  unfold cb_updateEdgesById
  refine ⟨fun hf => ?_, fun hf => ?_⟩
  · rw [if_pos hf]
    exact ⟨rfl, rfl⟩
  · rw [if_neg hf]
    exact mutationOutcome_finish _ _ _ _

/-! ## C11: failure values of the mutating callbacks -/

/-- C11 (as stated, refuted): cb_insertNodes, given a store that fails the
statement, returns 0, not -1: a value >= 0 although the statement did not
execute successfully. -/
theorem C11_insertNodes_failure_is_zero :
    (alwaysFails be0.calls.length).status ≠ SPI_OK_INSERT_RETURNING ∧
    (cb_insertNodes alwaysFails tp [newNode] be0).2.2 = 0 := by
  decide

/-- C11 (amended): every mutating callback whose statement gets an unexpected
return code returns its failure value, which is -1 for cb_insertEdges,
cb_insertFaces, cb_updateEdges, cb_updateNodes, cb_updateNodesById,
cb_updateEdgesById, cb_updateFacesById, cb_deleteEdges and cb_deleteFacesById
and 0 for cb_insertNodes (whose result is 1 or 0), and records the message
naming the return code and the statement; a value above the failure value
(>= 0, and 1 for cb_insertNodes) is only returned when the statement was
answered with the expected return code. The two updates by identifier called
without fields issue no statement, return -1 and record a message. -/
theorem C11_mutations_report_failure (spi : SPIScript) (topo : LWT_BE_TOPOLOGY) (be : Backend)
    (nodes : List LWT_ISO_NODE) (edges : List LWT_ISO_EDGE) (faces : List LWT_ISO_FACE)
    (ids : List LWT_ELEMID) (fields : Int)
    (sel_edge exc_edge : Option LWT_ISO_EDGE) (upd_edge del_edge : LWT_ISO_EDGE)
    (sel_node exc_node : Option LWT_ISO_NODE) (upd_node : LWT_ISO_NODE)
    (sel_fields upd_fields exc_fields : Int) :
    MutationOutcome 0 SPI_OK_INSERT_RETURNING (spi be.calls.length) be
      ((cb_insertNodes spi topo nodes be).1, (cb_insertNodes spi topo nodes be).2.2) ∧
    MutationOutcome (-1) (insertStatus (edges.any (fun e => e.edge_id == -1)))
      (spi be.calls.length) be
      ((cb_insertEdges spi topo edges be).1, (cb_insertEdges spi topo edges be).2.2) ∧
    MutationOutcome (-1) (insertStatus (faces.any (fun f => f.face_id == -1)))
      (spi be.calls.length) be
      ((cb_insertFaces spi topo faces be).1, (cb_insertFaces spi topo faces be).2.2) ∧
    MutationOutcome (-1) SPI_OK_UPDATE (spi be.calls.length) be
      (cb_updateEdges spi topo sel_edge sel_fields upd_edge upd_fields exc_edge exc_fields be) ∧
    MutationOutcome (-1) SPI_OK_UPDATE (spi be.calls.length) be
      (cb_updateNodes spi topo sel_node sel_fields upd_node upd_fields exc_node exc_fields be) ∧
    ((fields = 0 → (cb_updateNodesById spi topo nodes fields be).2 = -1 ∧
        (cb_updateNodesById spi topo nodes fields be).1 =
          cberror be "updateNodesById callback called with no update fields!") ∧
     (fields ≠ 0 → MutationOutcome (-1) SPI_OK_UPDATE (spi be.calls.length) be
        (cb_updateNodesById spi topo nodes fields be))) ∧
    ((fields = 0 → (cb_updateEdgesById spi topo edges fields be).2 = -1 ∧
        (cb_updateEdgesById spi topo edges fields be).1 =
          cberror be "updateEdgesById callback called with no update fields!") ∧
     (fields ≠ 0 → MutationOutcome (-1) SPI_OK_UPDATE (spi be.calls.length) be
        (cb_updateEdgesById spi topo edges fields be))) ∧
    MutationOutcome (-1) SPI_OK_UPDATE (spi be.calls.length) be
      (cb_updateFacesById spi topo faces be) ∧
    MutationOutcome (-1) SPI_OK_DELETE (spi be.calls.length) be
      (cb_deleteEdges spi topo del_edge sel_fields be) ∧
    MutationOutcome (-1) SPI_OK_DELETE (spi be.calls.length) be
      (cb_deleteFacesById spi topo ids be) :=
  ⟨mutationOutcome_insertNodes spi topo be nodes, mutationOutcome_insertEdges spi topo be edges,
   mutationOutcome_insertFaces spi topo be faces, mutationOutcome_finish _ _ _ _,
   mutationOutcome_finish _ _ _ _, mutationOutcome_updateNodesById spi topo be nodes fields,
   mutationOutcome_updateEdgesById spi topo be edges fields, mutationOutcome_finish _ _ _ _,
   mutationOutcome_finish _ _ _ _, mutationOutcome_finish _ _ _ _⟩

/-- C11 (amended) at a store that fails the statement, for an insert of one edge. -/
theorem C11_mutations_report_failure_witness :
    (alwaysFails be0.calls.length).status ≠ insertStatus ([newEdge].any (fun e => e.edge_id == -1))
    ∧ (cb_insertEdges alwaysFails tp [newEdge] be0).2.2 = -1 :=
  ⟨by decide,
   ((C11_mutations_report_failure alwaysFails tp be0 [newNode] [newEdge] [newFace] [1] 1
      none none sampleEdge sampleEdge none none newNode 1 1 1).2.1.1 (by decide)).1⟩

/-! ## C12: outcomes of cb_getFaceContainingPoint -/

/-- C12 (as stated, refuted): the store answers the statement with the expected
return code and one row whose face_id is the non-NULL number -2; the callback
returns -2 although neither the return code was unexpected nor the face_id
NULL, and no message is recorded. -/
theorem C12_face_id_minus2_reads_as_error :
    (returnsMinus2 be0.calls.length).status = SPI_OK_SELECT ∧
    (returnsMinus2 be0.calls.length).processed = 1 ∧
    (SPI_getbinval ((returnsMinus2 be0.calls.length).vals.getD 0 []) 1).2 = false ∧
    (cb_getFaceContainingPoint returnsMinus2 tp samplePoint be0).2 = -2 ∧
    cb_lastErrorMessage (cb_getFaceContainingPoint returnsMinus2 tp samplePoint be0).1 = "" := by
  decide

/-- C12 (amended): when a non-NULL face_id returned by the store is neither -1
nor -2, cb_getFaceContainingPoint returns -2 exactly when the return code is
unexpected or one row came back with a NULL face_id, and then a message is
recorded; it returns -1 exactly when the return code is the expected one and
the number of rows is not 1; otherwise it returns the face_id of the row. -/
theorem C12_faceContainingPoint_outcomes (spi : SPIScript) (topo : LWT_BE_TOPOLOGY)
    (pt : LWPOINT) (be : Backend)
    (hid : ∀ d : Datum, SPI_getbinval ((spi be.calls.length).vals.getD 0 []) 1 = (d, false) →
      DatumGetInt32 d ≠ -1 ∧ DatumGetInt32 d ≠ -2) :
    ((cb_getFaceContainingPoint spi topo pt be).2 = -2 ↔
      ((spi be.calls.length).status ≠ SPI_OK_SELECT ∨
       ((spi be.calls.length).processed = 1 ∧
        (SPI_getbinval ((spi be.calls.length).vals.getD 0 []) 1).2 = true))) ∧
    ((cb_getFaceContainingPoint spi topo pt be).2 = -2 →
      ∃ (call : SPICall) (msg : String), (cb_getFaceContainingPoint spi topo pt be).1 =
        cberror { be with calls := be.calls ++ [call] } msg) ∧
    ((cb_getFaceContainingPoint spi topo pt be).2 = -1 ↔
      ((spi be.calls.length).status = SPI_OK_SELECT ∧ (spi be.calls.length).processed ≠ 1)) ∧
    ((cb_getFaceContainingPoint spi topo pt be).2 ≠ -2 →
     (cb_getFaceContainingPoint spi topo pt be).2 ≠ -1 →
      (cb_getFaceContainingPoint spi topo pt be).2 =
        DatumGetInt32 (SPI_getbinval ((spi be.calls.length).vals.getD 0 []) 1).1 ∧
      (SPI_getbinval ((spi be.calls.length).vals.getD 0 []) 1).2 = false) := by
  simp only [cb_getFaceContainingPoint, SPI_execute]
  revert hid
  generalize spi be.calls.length = r
  intro hid
  by_cases hs : r.status = SPI_OK_SELECT
  · have h1 : ¬ (r.status != SPI_OK_SELECT) = true := by simp [hs]
    rw [if_neg h1]
    by_cases hp : r.processed = 1
    · have h2 : ¬ (r.processed != 1) = true := by simp [hp]
      rw [if_neg h2]
      revert hid
      generalize SPI_getbinval (r.vals.getD 0 []) 1 = cell
      obtain ⟨dat, isnull⟩ := cell
      intro hid
      cases isnull
      · have hd := hid dat rfl
        refine ⟨⟨fun h => absurd h hd.2, fun h => ?_⟩, fun h => absurd h hd.2,
          ⟨fun h => absurd h hd.1, fun h => absurd hp h.2⟩, fun _ _ => ⟨rfl, rfl⟩⟩
        rcases h with h | h
        · exact absurd hs h
        · exact Bool.noConfusion h.2
      · refine ⟨⟨fun _ => Or.inr ⟨hp, rfl⟩, fun _ => rfl⟩, fun _ => ⟨_, _, rfl⟩,
          ⟨fun h => absurd h (by decide : ¬ ((-2 : Int) = -1)), fun h => absurd hp h.2⟩,
          fun h => absurd rfl h⟩
    · have h2 : (r.processed != 1) = true := by simp [hp]
      rw [if_pos h2]
      refine ⟨⟨fun h => absurd h (by decide : ¬ ((-1 : Int) = -2)), fun h => ?_⟩,
        fun h => absurd h (by decide : ¬ ((-1 : Int) = -2)),
        ⟨fun _ => ⟨hs, hp⟩, fun _ => rfl⟩, fun _ h => absurd rfl h⟩
      rcases h with h | h
      · exact absurd hs h
      · exact absurd h.1 hp
  · have h1 : (r.status != SPI_OK_SELECT) = true := by simp [hs]
    rw [if_pos h1]
    exact ⟨⟨fun _ => Or.inl hs, fun _ => rfl⟩, fun _ => ⟨_, _, rfl⟩,
      ⟨fun h => absurd h (by decide : ¬ ((-2 : Int) = -1)), fun h => absurd h.1 hs⟩,
      fun h => absurd rfl h⟩

/-- C12 (amended) at a store that returns the face 9: the callback returns 9. -/
theorem C12_faceContainingPoint_outcomes_witness :
    (cb_getFaceContainingPoint returnsFace9 tp samplePoint be0).2 = 9 :=
  ((C12_faceContainingPoint_outcomes returnsFace9 tp samplePoint be0
      (fun d h => by
        have hd : d = Datum.word 9 := (congrArg Prod.fst h).symm
        subst hd
        decide)).2.2.2 (by decide) (by decide)).1.trans (by decide)

/-! ## C13: the existence mode of the spatial fetches -/

theorem spatialResult_exists {α : Type} (fill : α → HeapTuple → Int → α) (mem : Nat → α)
    (r : SPIResult) (fields : Int) (d : Datum) (rest : HeapTuple)
    (hp : r.processed ≠ 0) (hv : r.vals[0]? = some (some d :: rest)) :
    spatialResult fill mem r fields (-1) =
      { elems := none, numelems := if DatumGetBool d then 1 else 0 } := by
  have hrow : r.vals.getD 0 [] = some d :: rest := by
    rw [List.getD_eq_getElem?_getD, hv]
    rfl
  unfold spatialResult
  rw [if_neg hp, if_pos rfl, hrow]
  rfl

/-- C13: called with limit = -1, each of the four spatial fetches issues one
statement of the form SELECT EXISTS ( SELECT 1 FROM ... WHERE ... ), the same
for every field set, and, when the store answers it with the expected return
code and a row holding a boolean, reports no records and the count 1 if the
boolean is true and 0 otherwise. -/
theorem C13_existence_mode (spi : SPIScript) (topo : LWT_BE_TOPOLOGY)
    (memE : Nat → LWT_ISO_EDGE) (memN : Nat → LWT_ISO_NODE) (pt : LWPOINT) (dist : Double)
    (box : GBOX) (fields : Int) (be : Backend) (d : Datum) (rest : HeapTuple)
    (hs : (spi be.calls.length).status = SPI_OK_SELECT)
    (hp : (spi be.calls.length).processed ≠ 0)
    (hv : (spi be.calls.length).vals[0]? = some (some d :: rest)) :
    (cb_getEdgeWithinDistance2D spi topo memE pt dist fields (-1) be =
      ({ be with calls := be.calls ++
          [{ sql := "SELECT EXISTS ( SELECT 1 FROM \"" ++ topo.name ++ "\".edge_data" ++
                (if dist.isZero then
                  " WHERE ST_Within('" ++ lwgeom_to_hexwkb (lwpoint_as_lwgeom pt) ++
                    "'::geometry, geom)"
                 else " WHERE ST_DWithin('" ++ lwgeom_to_hexwkb (lwpoint_as_lwgeom pt) ++
                    "'::geometry, geom, " ++ dist.g ++ ")") ++ ")",
             read_only := !be.be_data.data_changed, count := 0 }] },
       { elems := none, numelems := if DatumGetBool d then 1 else 0 })) ∧
    (cb_getNodeWithinDistance2D spi topo memN pt dist fields (-1) be =
      ({ be with calls := be.calls ++
          [{ sql := "SELECT EXISTS ( SELECT 1 FROM \"" ++ topo.name ++ "\".node" ++
                (if dist.isZero then
                  " WHERE ST_Within(geom, '" ++ lwgeom_to_hexwkb (lwpoint_as_lwgeom pt) ++
                    "'::geometry)"
                 else " WHERE ST_DWithin(geom, '" ++ lwgeom_to_hexwkb (lwpoint_as_lwgeom pt) ++
                    "'::geometry, dist)") ++ ")",
             read_only := !be.be_data.data_changed, count := 0 }] },
       { elems := none, numelems := if DatumGetBool d then 1 else 0 })) ∧
    (cb_getNodeWithinBox2D spi topo memN box fields (-1) be =
      ({ be with calls := be.calls ++
          [{ sql := "SELECT EXISTS ( SELECT 1 FROM \"" ++ topo.name ++
                "\".node WHERE geom && " ++ fmtEnvelope box topo.srid ++ ")",
             read_only := !be.be_data.data_changed, count := 0 }] },
       { elems := none, numelems := if DatumGetBool d then 1 else 0 })) ∧
    (cb_getEdgeWithinBox2D spi topo memE box fields (-1) be =
      ({ be with calls := be.calls ++
          [{ sql := "SELECT EXISTS ( SELECT 1 FROM \"" ++ topo.name ++
                "\".edge WHERE geom && " ++ fmtEnvelope box topo.srid ++ ")",
             read_only := !be.be_data.data_changed, count := 0 }] },
       { elems := none, numelems := if DatumGetBool d then 1 else 0 })) := by
  have h1 : ¬ ((spi be.calls.length).status != SPI_OK_SELECT) = true := by simp [hs]
  refine ⟨?_, ?_, ?_, ?_⟩
  · simp only [cb_getEdgeWithinDistance2D, SPI_execute]
    rw [if_neg h1, spatialResult_exists _ _ _ _ d rest hp hv]
    cases dist.isZero <;> simp only [reduceIte, Bool.not_false, Bool.not_true, Bool.false_eq_true, String.append_assoc] <;> rfl
  · simp only [cb_getNodeWithinDistance2D, SPI_execute]
    rw [if_neg h1, spatialResult_exists _ _ _ _ d rest hp hv]
    cases dist.isZero <;> simp only [reduceIte, Bool.not_false, Bool.not_true, Bool.false_eq_true, String.append_assoc] <;> rfl
  · simp only [cb_getNodeWithinBox2D, SPI_execute]
    rw [if_neg h1, spatialResult_exists _ _ _ _ d rest hp hv]
    simp only [reduceIte, String.append_assoc]
    rfl
  · simp only [cb_getEdgeWithinBox2D, SPI_execute]
    rw [if_neg h1, spatialResult_exists _ _ _ _ d rest hp hv]
    simp only [reduceIte, String.append_assoc]
    rfl

/-- C13 at a store that answers true: the node fetch within a box reports the
count 1 and no records. -/
theorem C13_existence_mode_witness :
    (cb_getNodeWithinBox2D answersTrue tp (fun _ => newNode) unitBox LWT_COL_NODE_ALL (-1) be0).2
      = { elems := none, numelems := 1 } :=
  (congrArg Prod.snd (C13_existence_mode answersTrue tp (fun _ => newEdge) (fun _ => newNode)
    samplePoint distance2_5 unitBox LWT_COL_NODE_ALL be0 (Datum.word 1) []
    (by decide) (by decide) (by decide)).2.2.1).trans (by decide)

/-! ## C14: the distance argument of the within-distance fetches -/

/-- C14 (code defect): for the distance 2.5, cb_getEdgeWithinDistance2D renders
the distance as the last argument of ST_DWithin, but cb_getNodeWithinDistance2D
renders the text dist in its place; for the distance 0 both render an
ST_Within test without a distance argument. -/
theorem C14_node_distance_not_rendered :
    (cb_getNodeWithinDistance2D alwaysFails tp (fun _ => newNode) samplePoint distance2_5
        LWT_COL_NODE_NODE_ID 0 be0).1.calls.map (fun c => c.sql) =
      ["SELECT node_id FROM \"tp\".node WHERE ST_DWithin(geom, '0101'::geometry, dist)"] ∧
    (cb_getEdgeWithinDistance2D alwaysFails tp (fun _ => newEdge) samplePoint distance2_5
        LWT_COL_EDGE_EDGE_ID 0 be0).1.calls.map (fun c => c.sql) =
      ["SELECT edge_id FROM \"tp\".edge_data WHERE ST_DWithin('0101'::geometry, geom, 2.5)"] ∧
    (cb_getNodeWithinDistance2D alwaysFails tp (fun _ => newNode) samplePoint distance0
        LWT_COL_NODE_NODE_ID 0 be0).1.calls.map (fun c => c.sql) =
      ["SELECT node_id FROM \"tp\".node WHERE ST_Within(geom, '0101'::geometry)"] ∧
    (cb_getEdgeWithinDistance2D alwaysFails tp (fun _ => newEdge) samplePoint distance0
        LWT_COL_EDGE_EDGE_ID 0 be0).1.calls.map (fun c => c.sql) =
      ["SELECT edge_id FROM \"tp\".edge_data WHERE ST_Within('0101'::geometry, geom)"] := by
  decide

/-! ## C16: the value table of the updates by identifier -/

set_option maxRecDepth 8000 in
/-- C16 (code defect): when the field set contains the identifier field, the
value table of cb_updateNodesById names node_id twice and has one column more
than each VALUES row has values; cb_updateEdgesById does the same with edge_id
and, for the field set made of the identifier alone, renders an empty SET
clause. Without the identifier field the columns are distinct and match the
values. -/
theorem C16_identifier_field_duplicates_column :
    (cb_updateNodesById alwaysFails tp [node7] (LWT_COL_NODE_NODE_ID + LWT_COL_NODE_GEOM)
        be0).1.calls.map (fun c => c.sql) =
      ["WITH newnodes(node_id,node_id,geom) AS ( VALUES (7,'0101'::geometry) ) " ++
       "UPDATE \"tp\".node n SET node_id = o.node_id,geom = o.geom " ++
       "FROM newnodes o WHERE n.node_id = o.node_id"] ∧
    (cb_updateEdgesById alwaysFails tp [sampleEdge] LWT_COL_EDGE_EDGE_ID
        be0).1.calls.map (fun c => c.sql) =
      ["WITH newedges(edge_id,edge_id) AS ( VALUES (7)) " ++
       "UPDATE \"tp\".edge_data e SET  FROM newedges o WHERE e.edge_id = o.edge_id"] ∧
    (cb_updateNodesById alwaysFails tp [node7] LWT_COL_NODE_GEOM
        be0).1.calls.map (fun c => c.sql) =
      ["WITH newnodes(node_id,geom) AS ( VALUES (7,'0101'::geometry) ) " ++
       "UPDATE \"tp\".node n SET geom = o.geom FROM newnodes o WHERE n.node_id = o.node_id"] := by
  decide

/-! ## C17: the value table of cb_updateFacesById -/

set_option maxRecDepth 8000 in
/-- C17 (code defect): for a batch of two faces cb_updateFacesById renders the
two (id, mbr) rows one after the other with nothing between them (the text
reads mbr2 id), a single malformed SELECT list instead of a value table of two
rows; cb_updateNodesById separates the rows of its value table with a comma. -/
theorem C17_face_rows_not_separated :
    (cb_updateFacesById alwaysFails tp twoFaces be0).1.calls.map (fun c => c.sql) =
      ["WITH newfaces AS ( SELECT 1 id, ST_SetSRID(ST_MakeEnvelope(0,0,1,1),4326) mbr" ++
       "2 id, ST_SetSRID(ST_MakeEnvelope(1,1,2,2),4326) mbr) " ++
       "UPDATE \"tp\".face o SET mbr = i.mbr FROM newfaces i WHERE o.face_id = i.id"] ∧
    (cb_updateNodesById alwaysFails tp [node7, node7] LWT_COL_NODE_GEOM
        be0).1.calls.map (fun c => c.sql) =
      ["WITH newnodes(node_id,geom) AS ( VALUES (7,'0101'::geometry),(7,'0101'::geometry) ) " ++
       "UPDATE \"tp\".node n SET geom = o.geom FROM newnodes o WHERE n.node_id = o.node_id"] := by
  decide

/-! ## Builders append to the buffer they are given -/

theorem foldl_append_hom (parts : List String) (str : String) :
    parts.foldl (· ++ ·) str = str ++ parts.foldl (· ++ ·) "" := by
  induction parts generalizing str with
  | nil => simp
  | cons p rest ih =>
    simp only [List.foldl_cons]
    rw [ih (str ++ p), ih ("" ++ p), String.append_assoc, String.empty_append]

theorem addEdgeFields_parts (str : String) (fields : Int) (full : Bool) :
    addEdgeFields str fields full = (addEdgeFieldsParts fields full).foldl (· ++ ·) str := by
  unfold addEdgeFields addEdgeFieldsParts
  generalize hasField fields LWT_COL_EDGE_EDGE_ID = b0
  generalize hasField fields LWT_COL_EDGE_START_NODE = b1
  generalize hasField fields LWT_COL_EDGE_END_NODE = b2
  generalize hasField fields LWT_COL_EDGE_FACE_LEFT = b3
  generalize hasField fields LWT_COL_EDGE_FACE_RIGHT = b4
  generalize hasField fields LWT_COL_EDGE_NEXT_LEFT = b5
  generalize hasField fields LWT_COL_EDGE_NEXT_RIGHT = b6
  generalize hasField fields LWT_COL_EDGE_GEOM = b7
  cases full <;> cases b0 <;> cases b1 <;> cases b2 <;> cases b3 <;> cases b4 <;> cases b5 <;>
    cases b6 <;> cases b7 <;> rfl

theorem addEdgeFields_hom (str : String) (fields : Int) (full : Bool) :
    addEdgeFields str fields full = str ++ addEdgeFields "" fields full := by
  rw [addEdgeFields_parts str, addEdgeFields_parts "", foldl_append_hom]

theorem addNodeFields_parts (str : String) (fields : Int) :
    addNodeFields str fields = (addNodeFieldsParts fields).foldl (· ++ ·) str := by
  unfold addNodeFields addNodeFieldsParts
  generalize hasField fields LWT_COL_NODE_NODE_ID = b0
  generalize hasField fields LWT_COL_NODE_CONTAINING_FACE = b1
  generalize hasField fields LWT_COL_NODE_GEOM = b2
  cases b0 <;> cases b1 <;> cases b2 <;> rfl

theorem addNodeFields_hom (str : String) (fields : Int) :
    addNodeFields str fields = str ++ addNodeFields "" fields := by
  rw [addNodeFields_parts str, addNodeFields_parts "", foldl_append_hom]

theorem addFaceFields_parts (str : String) (fields : Int) :
    addFaceFields str fields = (addFaceFieldsParts fields).foldl (· ++ ·) str := by
  unfold addFaceFields addFaceFieldsParts
  generalize hasField fields LWT_COL_FACE_FACE_ID = b0
  generalize hasField fields LWT_COL_FACE_MBR = b1
  cases b0 <;> cases b1 <;> rfl

theorem addFaceFields_hom (str : String) (fields : Int) :
    addFaceFields str fields = str ++ addFaceFields "" fields := by
  rw [addFaceFields_parts str, addFaceFields_parts "", foldl_append_hom]

theorem selectColumns_edge (fields : Int) :
    selectColumns edgeFieldColumns fields = canonicalEdgeColumns fields false := by
  simp only [selectColumns, edgeFieldColumns, canonicalEdgeColumns]
  generalize hasField fields LWT_COL_EDGE_EDGE_ID = b0
  generalize hasField fields LWT_COL_EDGE_START_NODE = b1
  generalize hasField fields LWT_COL_EDGE_END_NODE = b2
  generalize hasField fields LWT_COL_EDGE_FACE_LEFT = b3
  generalize hasField fields LWT_COL_EDGE_FACE_RIGHT = b4
  generalize hasField fields LWT_COL_EDGE_NEXT_LEFT = b5
  generalize hasField fields LWT_COL_EDGE_NEXT_RIGHT = b6
  generalize hasField fields LWT_COL_EDGE_GEOM = b7
  revert b0 b1 b2 b3 b4 b5 b6 b7
  decide

theorem selectColumns_node (fields : Int) :
    selectColumns nodeFieldColumns fields =
      (if hasField fields LWT_COL_NODE_NODE_ID then ["node_id"] else []) ++
      (if hasField fields LWT_COL_NODE_CONTAINING_FACE then ["containing_face"] else []) ++
      (if hasField fields LWT_COL_NODE_GEOM then ["geom"] else []) := by
  simp only [selectColumns, nodeFieldColumns]
  generalize hasField fields LWT_COL_NODE_NODE_ID = b0
  generalize hasField fields LWT_COL_NODE_CONTAINING_FACE = b1
  generalize hasField fields LWT_COL_NODE_GEOM = b2
  revert b0 b1 b2
  decide

theorem selectColumns_face (fields : Int) :
    selectColumns faceFieldColumns fields =
      (if hasField fields LWT_COL_FACE_FACE_ID then ["face_id"] else []) ++
      (if hasField fields LWT_COL_FACE_MBR then ["mbr"] else []) := by
  simp only [selectColumns, faceFieldColumns]
  generalize hasField fields LWT_COL_FACE_FACE_ID = b0
  generalize hasField fields LWT_COL_FACE_MBR = b1
  revert b0 b1
  decide

theorem addEdgeFields_empty (fields : Int) :
    addEdgeFields "" fields false = commaJoined (selectColumns edgeFieldColumns fields) := by
  rw [selectColumns_edge]
  unfold addEdgeFields canonicalEdgeColumns
  generalize hasField fields LWT_COL_EDGE_EDGE_ID = b0
  generalize hasField fields LWT_COL_EDGE_START_NODE = b1
  generalize hasField fields LWT_COL_EDGE_END_NODE = b2
  generalize hasField fields LWT_COL_EDGE_FACE_LEFT = b3
  generalize hasField fields LWT_COL_EDGE_FACE_RIGHT = b4
  generalize hasField fields LWT_COL_EDGE_NEXT_LEFT = b5
  generalize hasField fields LWT_COL_EDGE_NEXT_RIGHT = b6
  generalize hasField fields LWT_COL_EDGE_GEOM = b7
  revert b0 b1 b2 b3 b4 b5 b6 b7
  decide

theorem addNodeFields_empty (fields : Int) :
    addNodeFields "" fields = commaJoined (selectColumns nodeFieldColumns fields) := by
  rw [selectColumns_node]
  unfold addNodeFields
  generalize hasField fields LWT_COL_NODE_NODE_ID = b0
  generalize hasField fields LWT_COL_NODE_CONTAINING_FACE = b1
  generalize hasField fields LWT_COL_NODE_GEOM = b2
  revert b0 b1 b2
  decide

theorem addFaceFields_empty (fields : Int) :
    addFaceFields "" fields = commaJoined (selectColumns faceFieldColumns fields) := by
  rw [selectColumns_face]
  unfold addFaceFields
  generalize hasField fields LWT_COL_FACE_FACE_ID = b0
  generalize hasField fields LWT_COL_FACE_MBR = b1
  revert b0 b1
  decide

/-! ## C20: canonical order of the projections -/

/-- C20: for every field set, addEdgeFields in plain mode appends to the buffer
exactly the comma-joined subsequence, selected by the field set, of edge_id,
start_node, end_node, left_face, right_face, next_left_edge, next_right_edge,
geom (nothing for the empty set); likewise addNodeFields over node_id,
containing_face, geom and addFaceFields over face_id, mbr. -/
theorem C20_projection_is_comma_joined_selection (str : String) (fields : Int) :
    addEdgeFields str fields false =
      str ++ commaJoined (selectColumns
        [(LWT_COL_EDGE_EDGE_ID, "edge_id"), (LWT_COL_EDGE_START_NODE, "start_node"),
         (LWT_COL_EDGE_END_NODE, "end_node"), (LWT_COL_EDGE_FACE_LEFT, "left_face"),
         (LWT_COL_EDGE_FACE_RIGHT, "right_face"), (LWT_COL_EDGE_NEXT_LEFT, "next_left_edge"),
         (LWT_COL_EDGE_NEXT_RIGHT, "next_right_edge"), (LWT_COL_EDGE_GEOM, "geom")] fields) ∧
    addNodeFields str fields =
      str ++ commaJoined (selectColumns
        [(LWT_COL_NODE_NODE_ID, "node_id"), (LWT_COL_NODE_CONTAINING_FACE, "containing_face"),
         (LWT_COL_NODE_GEOM, "geom")] fields) ∧
    addFaceFields str fields =
      str ++ commaJoined (selectColumns
        [(LWT_COL_FACE_FACE_ID, "face_id"), (LWT_COL_FACE_MBR, "mbr")] fields) :=
  ⟨(addEdgeFields_hom str fields false).trans (congrArg (str ++ ·) (addEdgeFields_empty fields)),
   (addNodeFields_hom str fields).trans (congrArg (str ++ ·) (addNodeFields_empty fields)),
   (addFaceFields_hom str fields).trans (congrArg (str ++ ·) (addFaceFields_empty fields))⟩

/-! ## The materializers read the row along the projection -/

theorem readColumns_congr {α : Type} (fill : String → α → Datum × Bool → α)
    (names : List String) (row1 row2 : HeapTuple) (colno : Nat) (rec : α)
    (h : ∀ k, colno ≤ k → k < colno + names.length →
      SPI_getbinval row1 k = SPI_getbinval row2 k) :
    readColumns fill names row1 colno rec = readColumns fill names row2 colno rec := by
  induction names generalizing colno rec with
  | nil => rfl
  | cons name rest ih =>
    simp only [readColumns]
    rw [h colno (Nat.le_refl _) (by simp)]
    apply ih
    intro k h1 h2
    apply h k (by omega)
    simp only [List.length_cons]
    omega

theorem fillEdgeFields_readColumns (edge : LWT_ISO_EDGE) (row : HeapTuple) (fields : Int) :
    fillEdgeFields edge row fields =
      readColumns fillEdgeColumn (projectionColumns (addEdgeFields "" fields false)) row 1
        edge := by
  rw [projectionColumns_addEdgeFields]
  unfold fillEdgeFields canonicalEdgeColumns
  generalize hasField fields LWT_COL_EDGE_EDGE_ID = b0
  generalize hasField fields LWT_COL_EDGE_START_NODE = b1
  generalize hasField fields LWT_COL_EDGE_END_NODE = b2
  generalize hasField fields LWT_COL_EDGE_FACE_LEFT = b3
  generalize hasField fields LWT_COL_EDGE_FACE_RIGHT = b4
  generalize hasField fields LWT_COL_EDGE_NEXT_LEFT = b5
  generalize hasField fields LWT_COL_EDGE_NEXT_RIGHT = b6
  generalize hasField fields LWT_COL_EDGE_GEOM = b7
  cases b0 <;> cases b1 <;> cases b2 <;> cases b3 <;> cases b4 <;> cases b5 <;>
    cases b6 <;> cases b7 <;> rfl

theorem fillNodeFields_readColumns (node : LWT_ISO_NODE) (row : HeapTuple) (fields : Int) :
    fillNodeFields node row fields =
      readColumns fillNodeColumn (projectionColumns (addNodeFields "" fields)) row 1 node := by
  unfold fillNodeFields addNodeFields
  generalize hasField fields LWT_COL_NODE_NODE_ID = b0
  generalize hasField fields LWT_COL_NODE_CONTAINING_FACE = b1
  generalize hasField fields LWT_COL_NODE_GEOM = b2
  cases b0 <;> cases b1 <;> cases b2 <;> rfl

theorem fillFaceFields_readColumns (face : LWT_ISO_FACE) (row : HeapTuple) (fields : Int) :
    fillFaceFields face row fields =
      readColumns fillFaceColumn (projectionColumns (addFaceFields "" fields)) row 1 face := by
  unfold fillFaceFields addFaceFields
  generalize hasField fields LWT_COL_FACE_FACE_ID = b0
  generalize hasField fields LWT_COL_FACE_MBR = b1
  cases b0 <;> cases b1 <;> rfl

theorem readColumns_first_cells {α : Type} (fill : String → α → Datum × Bool → α)
    (names : List String) (row1 row2 : HeapTuple) (rec : α)
    (h : ∀ k, 1 ≤ k → k ≤ names.length → SPI_getbinval row1 k = SPI_getbinval row2 k) :
    readColumns fill names row1 1 rec = readColumns fill names row2 1 rec :=
  readColumns_congr fill names row1 row2 1 rec (fun k h1 h2 => h k h1 (by omega))

/-! ## C19: the materializer reads the columns the projection renders -/

/-- C19: for every field set, fillEdgeFields (fillNodeFields, fillFaceFields)
reads the row along the column names that addEdgeFields in plain mode
(addNodeFields, addFaceFields) renders for the field set: the cursor starts at
column 1 and advances by one per name, so that exactly the columns 1..n are
read, n being the number of names rendered, and the cell of column k is handled
by the block of the column named in position k, which assigns the field of
that name from the cell. -/
theorem C19_materializer_follows_projection (edge : LWT_ISO_EDGE) (node : LWT_ISO_NODE)
    (face : LWT_ISO_FACE) (row : HeapTuple) (fields : Int) :
    (fillEdgeFields edge row fields =
        readColumns fillEdgeColumn (projectionColumns (addEdgeFields "" fields false)) row 1 edge ∧
     fillNodeFields node row fields =
        readColumns fillNodeColumn (projectionColumns (addNodeFields "" fields)) row 1 node ∧
     fillFaceFields face row fields =
        readColumns fillFaceColumn (projectionColumns (addFaceFields "" fields)) row 1 face) ∧
    (∀ row2 : HeapTuple,
      ((∀ k, 1 ≤ k → k ≤ (projectionColumns (addEdgeFields "" fields false)).length →
          SPI_getbinval row k = SPI_getbinval row2 k) →
        fillEdgeFields edge row fields = fillEdgeFields edge row2 fields) ∧
      ((∀ k, 1 ≤ k → k ≤ (projectionColumns (addNodeFields "" fields)).length →
          SPI_getbinval row k = SPI_getbinval row2 k) →
        fillNodeFields node row fields = fillNodeFields node row2 fields) ∧
      ((∀ k, 1 ≤ k → k ≤ (projectionColumns (addFaceFields "" fields)).length →
          SPI_getbinval row k = SPI_getbinval row2 k) →
        fillFaceFields face row fields = fillFaceFields face row2 fields)) ∧
    (∀ cell : Datum × Bool,
      (fillEdgeColumn "edge_id" edge cell).edge_id = DatumGetInt32 cell.1 ∧
      (fillEdgeColumn "start_node" edge cell).start_node = DatumGetInt32 cell.1 ∧
      (fillEdgeColumn "end_node" edge cell).end_node = DatumGetInt32 cell.1 ∧
      (fillEdgeColumn "left_face" edge cell).face_left = DatumGetInt32 cell.1 ∧
      (fillEdgeColumn "right_face" edge cell).face_right = DatumGetInt32 cell.1 ∧
      (fillEdgeColumn "next_left_edge" edge cell).next_left = DatumGetInt32 cell.1 ∧
      (fillEdgeColumn "next_right_edge" edge cell).next_right = DatumGetInt32 cell.1 ∧
      (fillEdgeColumn "geom" edge cell).geom =
        (if cell.2 then none else lwgeom_as_lwline (lwgeom_from_gserialized cell.1)) ∧
      (fillNodeColumn "node_id" node cell).node_id = DatumGetInt32 cell.1 ∧
      (fillNodeColumn "containing_face" node cell).containing_face =
        (if cell.2 then -1 else DatumGetInt32 cell.1) ∧
      (fillNodeColumn "geom" node cell).geom =
        (if cell.2 then none else lwgeom_as_lwpoint (lwgeom_from_gserialized cell.1)) ∧
      (fillFaceColumn "face_id" face cell).face_id = DatumGetInt32 cell.1 ∧
      (fillFaceColumn "mbr" face cell).mbr =
        (if cell.2 then none else lwgeom_get_bbox (lwgeom_from_gserialized cell.1))) := by
  refine ⟨⟨fillEdgeFields_readColumns edge row fields, fillNodeFields_readColumns node row fields,
    fillFaceFields_readColumns face row fields⟩, fun row2 => ⟨fun h => ?_, fun h => ?_, fun h => ?_⟩,
    fun cell => ?_⟩
  · rw [fillEdgeFields_readColumns, fillEdgeFields_readColumns edge row2]
    exact readColumns_first_cells _ _ _ _ _ h
  · rw [fillNodeFields_readColumns, fillNodeFields_readColumns node row2]
    exact readColumns_first_cells _ _ _ _ _ h
  · rw [fillFaceFields_readColumns, fillFaceFields_readColumns face row2]
    exact readColumns_first_cells _ _ _ _ _ h
  · obtain ⟨dat, isnull⟩ := cell
    cases isnull
    · refine ⟨rfl, rfl, rfl, rfl, rfl, rfl, rfl, rfl, rfl, rfl, rfl, rfl, ?_⟩
      show (fillFaceColumn "mbr" face (dat, false)).mbr = lwgeom_get_bbox (lwgeom_from_gserialized dat)
      unfold fillFaceColumn
      simp only [String.reduceEq, if_false, if_true, Bool.not_false]
      cases lwgeom_get_bbox (lwgeom_from_gserialized dat) <;> rfl
    · exact ⟨rfl, rfl, rfl, rfl, rfl, rfl, rfl, rfl, rfl, rfl, rfl, rfl, rfl⟩

set_option maxHeartbeats 1000000 in
theorem addEdgeUpdate_parts (str : String) (edge : LWT_ISO_EDGE) (fields : Int) (full : Bool)
    (updType : UpdateType) :
    addEdgeUpdate str edge fields full updType =
      (addEdgeUpdateParts edge fields full updType).foldl (· ++ ·) str := by
  unfold addEdgeUpdate addEdgeUpdateParts
  generalize hasField fields LWT_COL_EDGE_EDGE_ID = b0
  generalize hasField fields LWT_COL_EDGE_START_NODE = b1
  generalize hasField fields LWT_COL_EDGE_END_NODE = b2
  generalize hasField fields LWT_COL_EDGE_FACE_LEFT = b3
  generalize hasField fields LWT_COL_EDGE_FACE_RIGHT = b4
  generalize hasField fields LWT_COL_EDGE_NEXT_LEFT = b5
  generalize hasField fields LWT_COL_EDGE_NEXT_RIGHT = b6
  generalize hasField fields LWT_COL_EDGE_GEOM = b7
  generalize updSep1 updType = sep1
  generalize updOp updType = op
  cases full <;> cases b0 <;> cases b1 <;> cases b2 <;> cases b3 <;> cases b4 <;> cases b5 <;>
    cases b6 <;> cases b7 <;> rfl

theorem addEdgeUpdate_hom (str : String) (edge : LWT_ISO_EDGE) (fields : Int) (full : Bool)
    (updType : UpdateType) :
    addEdgeUpdate str edge fields full updType =
      str ++ addEdgeUpdate "" edge fields full updType := by
  rw [addEdgeUpdate_parts str, addEdgeUpdate_parts "", foldl_append_hom]

theorem addNodeUpdate_parts (str : String) (node : LWT_ISO_NODE) (fields : Int) (full : Bool)
    (updType : UpdateType) :
    addNodeUpdate str node fields full updType =
      (addNodeUpdateParts node fields updType).foldl (· ++ ·) str := by
  unfold addNodeUpdate addNodeUpdateParts
  generalize hasField fields LWT_COL_NODE_NODE_ID = b0
  generalize hasField fields LWT_COL_NODE_CONTAINING_FACE = b1
  generalize hasField fields LWT_COL_NODE_GEOM = b2
  generalize (node.containing_face != -1) = c
  generalize updSep1 updType = sep1
  generalize updOp updType = op
  cases c <;> cases b0 <;> cases b1 <;> cases b2 <;> rfl

theorem addNodeUpdate_hom (str : String) (node : LWT_ISO_NODE) (fields : Int) (full : Bool)
    (updType : UpdateType) :
    addNodeUpdate str node fields full updType =
      str ++ addNodeUpdate "" node fields full updType := by
  rw [addNodeUpdate_parts str, addNodeUpdate_parts "", foldl_append_hom]

theorem finishMutation_calls (spi : SPIScript) (be : Backend) (sql : String) (ok : Int) :
    (finishMutation spi be sql ok).1.calls =
      be.calls ++ [{ sql := sql, read_only := false, count := 0 }] := by
  simp only [finishMutation, SPI_execute]
  split
  · rfl
  · exact markChanged_calls _ _

/-! ## Statements of the updates by selector -/

theorem updateEdges_calls (spi : SPIScript) (topo : LWT_BE_TOPOLOGY) (be : Backend)
    (sel_edge exc_edge : Option LWT_ISO_EDGE) (upd_edge : LWT_ISO_EDGE)
    (sel_fields upd_fields exc_fields : Int) :
    (cb_updateEdges spi topo sel_edge sel_fields upd_edge upd_fields exc_edge exc_fields
        be).1.calls =
      be.calls ++
        [{ sql := "UPDATE \"" ++ topo.name ++ "\".edge_data SET " ++
              addEdgeUpdate "" upd_edge upd_fields true UpdateType.updSet ++
              edgeWhereClause sel_edge sel_fields exc_edge exc_fields,
           read_only := false, count := 0 }] := by
  unfold cb_updateEdges edgeWhereClause
  rw [finishMutation_calls]
  refine congrArg
    (fun s => be.calls ++ [({ sql := s, read_only := false, count := 0 } : SPICall)]) ?_
  cases sel_edge with
  | none =>
    cases exc_edge with
    | none =>
      show addEdgeUpdate _ upd_edge _ _ _ = _
      rw [addEdgeUpdate_hom, String.append_empty]
    | some exc =>
      show addEdgeUpdate (addEdgeUpdate _ upd_edge _ _ _ ++ " WHERE ")
        exc _ _ _ = _
      rw [addEdgeUpdate_hom _ exc, addEdgeUpdate_hom _ upd_edge]
      simp only [String.append_assoc]
  | some sel =>
    cases exc_edge with
    | none =>
      show addEdgeUpdate (addEdgeUpdate _ upd_edge _ _ _ ++ " WHERE ")
        sel _ _ _ = _
      rw [addEdgeUpdate_hom _ sel, addEdgeUpdate_hom _ upd_edge]
      simp only [String.append_assoc]
    | some exc =>
      show addEdgeUpdate (addEdgeUpdate
        (addEdgeUpdate _ upd_edge _ _ _ ++ " WHERE ") sel _ _ _ ++ " AND ")
        exc _ _ _ = _
      rw [addEdgeUpdate_hom _ exc, addEdgeUpdate_hom _ sel, addEdgeUpdate_hom _ upd_edge]
      simp only [String.append_assoc]

theorem updateNodes_calls (spi : SPIScript) (topo : LWT_BE_TOPOLOGY) (be : Backend)
    (sel_node exc_node : Option LWT_ISO_NODE) (upd_node : LWT_ISO_NODE)
    (sel_fields upd_fields exc_fields : Int) :
    (cb_updateNodes spi topo sel_node sel_fields upd_node upd_fields exc_node exc_fields
        be).1.calls =
      be.calls ++
        [{ sql := "UPDATE \"" ++ topo.name ++ "\".node SET " ++
              addNodeUpdate "" upd_node upd_fields true UpdateType.updSet ++
              nodeWhereClause sel_node sel_fields exc_node exc_fields,
           read_only := false, count := 0 }] := by
  unfold cb_updateNodes nodeWhereClause
  rw [finishMutation_calls]
  refine congrArg
    (fun s => be.calls ++ [({ sql := s, read_only := false, count := 0 } : SPICall)]) ?_
  cases sel_node with
  | none =>
    cases exc_node with
    | none =>
      show addNodeUpdate _ upd_node _ true _ = _
      rw [addNodeUpdate_hom, String.append_empty]
    | some exc =>
      show addNodeUpdate (addNodeUpdate _ upd_node _ true _ ++ " WHERE ")
        exc _ true _ = _
      rw [addNodeUpdate_hom _ exc, addNodeUpdate_hom _ upd_node]
      simp only [String.append_assoc]
  | some sel =>
    cases exc_node with
    | none =>
      show addNodeUpdate (addNodeUpdate _ upd_node _ true _ ++ " WHERE ")
        sel _ true _ = _
      rw [addNodeUpdate_hom _ sel, addNodeUpdate_hom _ upd_node]
      simp only [String.append_assoc]
    | some exc =>
      show addNodeUpdate (addNodeUpdate
        (addNodeUpdate _ upd_node _ true _ ++ " WHERE ") sel _ true _ ++ " AND ")
        exc _ true _ = _
      rw [addNodeUpdate_hom _ exc, addNodeUpdate_hom _ sel, addNodeUpdate_hom _ upd_node]
      simp only [String.append_assoc]

/-! ## C15: the WHERE clause of the updates by selector -/

/-- C15: the statement of cb_updateEdges (cb_updateNodes) is the text
UPDATE "<topology>".edge_data SET (".node SET") followed by the assignments
and, when neither selector nor excluder is given, by nothing more; when at
least one is given, by one WHERE clause: the selector's predicates, rendered
with =, then, joined by AND, the excluder's predicates, rendered with !=. -/
theorem C15_update_where_clause (spi : SPIScript) (topo : LWT_BE_TOPOLOGY) (be : Backend)
    (sel_edge exc_edge : Option LWT_ISO_EDGE) (upd_edge : LWT_ISO_EDGE)
    (sel_node exc_node : Option LWT_ISO_NODE) (upd_node : LWT_ISO_NODE)
    (sel_fields upd_fields exc_fields : Int) :
    (cb_updateEdges spi topo sel_edge sel_fields upd_edge upd_fields exc_edge exc_fields
        be).1.calls =
      be.calls ++
        [{ sql := "UPDATE \"" ++ topo.name ++ "\".edge_data SET " ++
              addEdgeUpdate "" upd_edge upd_fields true UpdateType.updSet ++
              (match sel_edge, exc_edge with
               | none, none => ""
               | some sel, none =>
                 " WHERE " ++ addEdgeUpdate "" sel sel_fields true UpdateType.updSel
               | none, some exc =>
                 " WHERE " ++ addEdgeUpdate "" exc exc_fields true UpdateType.updNot
               | some sel, some exc =>
                 " WHERE " ++ addEdgeUpdate "" sel sel_fields true UpdateType.updSel ++
                 " AND " ++ addEdgeUpdate "" exc exc_fields true UpdateType.updNot),
           read_only := false, count := 0 }] ∧
    (cb_updateNodes spi topo sel_node sel_fields upd_node upd_fields exc_node exc_fields
        be).1.calls =
      be.calls ++
        [{ sql := "UPDATE \"" ++ topo.name ++ "\".node SET " ++
              addNodeUpdate "" upd_node upd_fields true UpdateType.updSet ++
              (match sel_node, exc_node with
               | none, none => ""
               | some sel, none =>
                 " WHERE " ++ addNodeUpdate "" sel sel_fields true UpdateType.updSel
               | none, some exc =>
                 " WHERE " ++ addNodeUpdate "" exc exc_fields true UpdateType.updNot
               | some sel, some exc =>
                 " WHERE " ++ addNodeUpdate "" sel sel_fields true UpdateType.updSel ++
                 " AND " ++ addNodeUpdate "" exc exc_fields true UpdateType.updNot),
           read_only := false, count := 0 }] := by
  constructor
  · cases sel_edge <;> cases exc_edge <;> exact updateEdges_calls _ _ _ _ _ _ _ _ _
  · cases sel_node <;> cases exc_node <;> exact updateNodes_calls _ _ _ _ _ _ _ _ _

/-! ## Rendering of templates -/

theorem escapeChars_of_not_mem (q : Char) (cs : List Char) (h : q ∉ cs) :
    escapeChars q cs = cs := by
  induction cs with
  | nil => rfl
  | cons c rest ih =>
    have hc : ¬ c = q := fun e => h (e ▸ List.mem_cons_self _ _)
    have hr : q ∉ rest := fun m => h (List.mem_cons_of_mem _ m)
    simp only [escapeChars, if_neg hc, ih hr]

theorem quoteIdent_plain (name : String) (h : plainName name) :
    quoteIdent name = "\"" ++ name ++ "\"" := by
  unfold quoteIdent
  rw [escapeChars_of_not_mem _ _ h.1]

theorem quoteLiteral_plain (name : String) (h : plainName name) :
    quoteLiteral name = "'" ++ name ++ "'" := by
  unfold quoteLiteral
  rw [escapeChars_of_not_mem _ _ h.2]

theorem render_ident (name : String) (h : plainName name) (a b : String) :
    renderTemplate name [Seg.text a, Seg.ident, Seg.text b] =
      a ++ ("\"" ++ name ++ "\"") ++ b := by
  simp only [renderTemplate, Seg.render, quoteIdent_plain name h, String.append_assoc,
    String.append_empty]

theorem render_literal (name : String) (h : plainName name) (a b : String) :
    renderTemplate name [Seg.text a, Seg.literal, Seg.text b] =
      a ++ ("'" ++ name ++ "'") ++ b := by
  simp only [renderTemplate, Seg.render, quoteLiteral_plain name h, String.append_assoc,
    String.append_empty]

theorem appendIds_hom (str : String) (i : Nat) (ids : List LWT_ELEMID) :
    appendIds str i ids = str ++ appendIds "" i ids := by
  induction ids generalizing str i with
  | nil => simp [appendIds]
  | cons id rest ih =>
    simp only [appendIds]
    rw [ih (str ++ _ ++ _), ih ("" ++ _ ++ _)]
    simp only [String.append_assoc, String.empty_append]

theorem statement_of_calls {be1 be : Backend} {call : SPICall}
    (h : be1.calls = be.calls ++ [call]) :
    (be1.calls.drop be.calls.length).map (fun c => c.sql) = [call.sql] := by
  rw [h, List.drop_left]
  rfl

theorem getEdgeById_statement (spi : SPIScript) (topo : LWT_BE_TOPOLOGY)
    (mem : Nat → LWT_ISO_EDGE) (ids : List LWT_ELEMID) (fields : Int) (be : Backend) :
    ((cb_getEdgeById spi topo mem ids fields be).1.calls.drop be.calls.length).map
        (fun c => c.sql) =
      [addEdgeFields "SELECT " fields false ++ " FROM " ++ ("\"" ++ topo.name ++ "\"") ++
        (".edge_data" ++ " WHERE edge_id IN (" ++ appendIds "" 0 ids ++ ")")] := by
  simp only [cb_getEdgeById, SPI_execute, apply_ite Prod.fst, apply_ite Backend.calls,
    cberror_calls, ite_self, List.drop_left, List.map]
  rw [show (" FROM \"" : String) = " FROM " ++ "\"" from rfl,
    show ("\".edge_data" : String) = "\"" ++ ".edge_data" from rfl, appendIds_hom]
  simp only [String.append_assoc]

theorem render_ident_ident (name : String) (h : plainName name) (a b c : String) :
    renderTemplate name [Seg.text a, Seg.ident, Seg.text b, Seg.ident, Seg.text c] =
      a ++ ("\"" ++ name ++ "\"") ++ b ++ ("\"" ++ name ++ "\"") ++ c := by
  simp only [renderTemplate, Seg.render, quoteIdent_plain name h, String.append_assoc,
    String.append_empty]

theorem render_ident_literal (name : String) (h : plainName name) (a b c : String) :
    renderTemplate name [Seg.text a, Seg.ident, Seg.text b, Seg.literal, Seg.text c] =
      a ++ ("\"" ++ name ++ "\"") ++ b ++ ("'" ++ name ++ "'") ++ c := by
  simp only [renderTemplate, Seg.render, quoteIdent_plain name h, quoteLiteral_plain name h,
    String.append_assoc, String.append_empty]

theorem loadTopologyByName_statement (spi : SPIScript) (name : String) (be : Backend) :
    ((cb_loadTopologyByName spi name be).1.calls.drop be.calls.length).map (fun c => c.sql) =
      ["SELECT id,srid FROM topology.topology WHERE name = " ++ ("'" ++ name ++ "'") ++ ""] := by
  simp only [cb_loadTopologyByName, SPI_execute, apply_ite Prod.fst, apply_ite Backend.calls,
    cberror_calls, ite_self, List.drop_left, List.map]
  rw [show ("SELECT id,srid FROM topology.topology WHERE name = '" : String) =
    "SELECT id,srid FROM topology.topology WHERE name = " ++ "'" from rfl]
  simp only [String.append_assoc, String.append_empty]

theorem getEdgeByNode_statement (spi : SPIScript) (topo : LWT_BE_TOPOLOGY)
    (mem : Nat → LWT_ISO_EDGE) (ids : List LWT_ELEMID) (fields : Int) (be : Backend) :
    ((cb_getEdgeByNode spi topo mem ids fields be).1.calls.drop be.calls.length).map
        (fun c => c.sql) =
      [addEdgeFields "SELECT " fields false ++ " FROM " ++ ("\"" ++ topo.name ++ "\"") ++
        (".edge_data" ++ " WHERE start_node IN (" ++ appendIds "" 0 ids ++
          ") OR end_node IN (" ++ appendIds "" 0 ids ++ ")")] := by
  simp only [cb_getEdgeByNode, SPI_execute, apply_ite Prod.fst, apply_ite Backend.calls,
    cberror_calls, ite_self, List.drop_left, List.map]
  rw [show (" FROM \"" : String) = " FROM " ++ "\"" from rfl,
    show ("\".edge_data" : String) = "\"" ++ ".edge_data" from rfl, appendIds_hom,
    appendIds_hom (_ ++ " WHERE start_node IN (")]
  simp only [String.append_assoc]

theorem getEdgeByFace_statement (spi : SPIScript) (topo : LWT_BE_TOPOLOGY)
    (mem : Nat → LWT_ISO_EDGE) (ids : List LWT_ELEMID) (fields : Int) (be : Backend) :
    ((cb_getEdgeByFace spi topo mem ids fields be).1.calls.drop be.calls.length).map
        (fun c => c.sql) =
      [addEdgeFields "SELECT " fields false ++ " FROM " ++ ("\"" ++ topo.name ++ "\"") ++
        (".edge_data" ++ " WHERE left_face IN (" ++ appendIds "" 0 ids ++
          ") OR right_face IN (" ++ appendIds "" 0 ids ++ ")")] := by
  simp only [cb_getEdgeByFace, SPI_execute, apply_ite Prod.fst, apply_ite Backend.calls,
    cberror_calls, ite_self, List.drop_left, List.map]
  rw [show (" FROM \"" : String) = " FROM " ++ "\"" from rfl,
    show ("\".edge_data" : String) = "\"" ++ ".edge_data" from rfl, appendIds_hom,
    appendIds_hom (_ ++ " WHERE left_face IN (")]
  simp only [String.append_assoc]

theorem getFacesById_statement (spi : SPIScript) (topo : LWT_BE_TOPOLOGY)
    (mem : Nat → LWT_ISO_FACE) (ids : List LWT_ELEMID) (fields : Int) (be : Backend) :
    ((cb_getFacesById spi topo mem ids fields be).1.calls.drop be.calls.length).map
        (fun c => c.sql) =
      [addFaceFields "SELECT " fields ++ " FROM " ++ ("\"" ++ topo.name ++ "\"") ++
        (".face" ++ " WHERE face_id IN (" ++ appendIds "" 0 ids ++ ")")] := by
  simp only [cb_getFacesById, SPI_execute, apply_ite Prod.fst, apply_ite Backend.calls,
    cberror_calls, ite_self, List.drop_left, List.map]
  rw [show (" FROM \"" : String) = " FROM " ++ "\"" from rfl,
    show ("\".face" : String) = "\"" ++ ".face" from rfl, appendIds_hom]
  simp only [String.append_assoc]

theorem getNodeById_statement (spi : SPIScript) (topo : LWT_BE_TOPOLOGY)
    (mem : Nat → LWT_ISO_NODE) (ids : List LWT_ELEMID) (fields : Int) (be : Backend) :
    ((cb_getNodeById spi topo mem ids fields be).1.calls.drop be.calls.length).map
        (fun c => c.sql) =
      [addNodeFields "SELECT " fields ++ " FROM " ++ ("\"" ++ topo.name ++ "\"") ++
        (".node" ++ " WHERE node_id IN (" ++ appendIds "" 0 ids ++ ")")] := by
  simp only [cb_getNodeById, SPI_execute, apply_ite Prod.fst, apply_ite Backend.calls,
    cberror_calls, ite_self, List.drop_left, List.map]
  rw [show (" FROM \"" : String) = " FROM " ++ "\"" from rfl,
    show ("\".node" : String) = "\"" ++ ".node" from rfl, appendIds_hom]
  simp only [String.append_assoc]

theorem getNodeByFace_statement (spi : SPIScript) (topo : LWT_BE_TOPOLOGY)
    (mem : Nat → LWT_ISO_NODE) (ids : List LWT_ELEMID) (fields : Int) (be : Backend) :
    ((cb_getNodeByFace spi topo mem ids fields be).1.calls.drop be.calls.length).map
        (fun c => c.sql) =
      [addNodeFields "SELECT " fields ++ " FROM " ++ ("\"" ++ topo.name ++ "\"") ++
        (".node" ++ " WHERE containing_face IN (" ++ appendIds "" 0 ids ++ ")")] := by
  simp only [cb_getNodeByFace, SPI_execute, apply_ite Prod.fst, apply_ite Backend.calls,
    cberror_calls, ite_self, List.drop_left, List.map]
  rw [show (" FROM \"" : String) = " FROM " ++ "\"" from rfl,
    show ("\".node" : String) = "\"" ++ ".node" from rfl, appendIds_hom]
  simp only [String.append_assoc]

theorem getNextEdgeId_statement (spi : SPIScript) (topo : LWT_BE_TOPOLOGY) (be : Backend) :
    ((cb_getNextEdgeId spi topo be).1.calls.drop be.calls.length).map (fun c => c.sql) =
      ["SELECT nextval('" ++ ("\"" ++ topo.name ++ "\"") ++ ".edge_data_edge_id_seq')"] := by
  simp only [cb_getNextEdgeId, SPI_execute, apply_ite Prod.fst, apply_ite Backend.calls,
    cberror_calls, markChanged_calls, ite_self, List.drop_left, List.map]
  rw [show ("SELECT nextval('\"" : String) = "SELECT nextval('" ++ "\"" from rfl,
    show ("\".edge_data_edge_id_seq')" : String) = "\"" ++ ".edge_data_edge_id_seq')" from rfl]
  simp only [String.append_assoc]

theorem getFaceContainingPoint_statement (spi : SPIScript) (topo : LWT_BE_TOPOLOGY)
    (pt : LWPOINT) (be : Backend) :
    ((cb_getFaceContainingPoint spi topo pt be).1.calls.drop be.calls.length).map
        (fun c => c.sql) =
      ["SELECT face_id FROM " ++ ("\"" ++ topo.name ++ "\"") ++
        (".face WHERE mbr && '" ++ lwgeom_to_hexwkb (lwpoint_as_lwgeom pt) ++
          "'::geometry AND ST_Contains(topology.ST_GetFaceGeometry(") ++
        ("'" ++ topo.name ++ "'") ++
        (", face_id), '" ++ lwgeom_to_hexwkb (lwpoint_as_lwgeom pt) ++
          "'::geometry) LIMIT 1")] := by
  simp only [cb_getFaceContainingPoint, SPI_execute, apply_ite Prod.fst,
    apply_ite Backend.calls, cberror_calls, ite_self, List.drop_left, List.map]
  rw [show ("SELECT face_id FROM \"" : String) = "SELECT face_id FROM " ++ "\"" from rfl,
    show ("\".face WHERE mbr && '" : String) = "\"" ++ ".face WHERE mbr && '" from rfl,
    show ("'::geometry AND ST_Contains(topology.ST_GetFaceGeometry('" : String) =
      "'::geometry AND ST_Contains(topology.ST_GetFaceGeometry(" ++ "'" from rfl,
    show ("', face_id), '" : String) = "'" ++ ", face_id), '" from rfl]
  simp only [String.append_assoc]

set_option maxRecDepth 8000 in
theorem ringEdgesQuery_split (name : String) (edge : LWT_ELEMID) :
    ringEdgesQuery name edge =
      "WITH RECURSIVE edgering AS ( SELECT " ++ fmtInt edge ++
          " as signed_edge_id, edge_id, next_left_edge, next_right_edge FROM " ++
        ("\"" ++ name ++ "\"") ++
        (".edge_data WHERE edge_id = " ++ fmtInt (ABS edge) ++
          (" UNION SELECT CASE WHEN p.signed_edge_id < 0 THEN p.next_right_edge " ++
           "ELSE p.next_left_edge END, e.edge_id, e.next_left_edge, e.next_right_edge FROM ")) ++
        ("\"" ++ name ++ "\"") ++
        (".edge_data e, edgering p WHERE e.edge_id = CASE WHEN p.signed_edge_id < 0 THEN " ++
          "abs(p.next_right_edge) ELSE abs(p.next_left_edge) END ) SELECT * FROM edgering") := by
  unfold ringEdgesQuery
  simp only [String.append_assoc]
  rfl

theorem getRingEdges_statement (spi : SPIScript) (topo : LWT_BE_TOPOLOGY) (edge : LWT_ELEMID)
    (limit : Int) (be : Backend) :
    ((cb_getRingEdges spi topo edge limit be).1.calls.drop be.calls.length).map
        (fun c => c.sql) =
      ["WITH RECURSIVE edgering AS ( SELECT " ++ fmtInt edge ++
          " as signed_edge_id, edge_id, next_left_edge, next_right_edge FROM " ++
        ("\"" ++ topo.name ++ "\"") ++
        (".edge_data WHERE edge_id = " ++ fmtInt (ABS edge) ++
          (" UNION SELECT CASE WHEN p.signed_edge_id < 0 THEN p.next_right_edge " ++
           "ELSE p.next_left_edge END, e.edge_id, e.next_left_edge, e.next_right_edge FROM ")) ++
        ("\"" ++ topo.name ++ "\"") ++
        ((".edge_data e, edgering p WHERE e.edge_id = CASE WHEN p.signed_edge_id < 0 THEN " ++
          "abs(p.next_right_edge) ELSE abs(p.next_left_edge) END ) SELECT * FROM edgering") ++
          (if limit != 0 then " LIMIT " ++ fmtInt (toInt32 (limit + 1)) else ""))] := by
  simp only [cb_getRingEdges, SPI_execute, ringEdgesQuery_split]
  cases hl : (limit != 0)
  · simp only [Bool.false_eq_true, if_false]
    repeat' split
    all_goals simp only [cberror_calls, List.drop_left, List.map, String.append_empty]
  · simp only [if_true]
    repeat' split
    all_goals simp only [cberror_calls, List.drop_left, List.map, String.append_assoc]

theorem appendEach_hom {α : Type} (render : String → α → String)
    (hr : ∀ s x, render s x = s ++ render "" x) (str : String) (i : Nat) (xs : List α) :
    appendEach render str i xs = str ++ appendEach render "" i xs := by
  induction xs generalizing str i with
  | nil => simp [appendEach]
  | cons x rest ih =>
    simp only [appendEach]
    rw [ih (render _ x), ih (render _ x)]
    cases (i != 0)
    · simp only [Bool.false_eq_true, if_false]
      rw [hr str x, String.append_assoc]
    · simp only [if_true]
      rw [hr (str ++ ","), hr ("" ++ ",")]
      simp only [String.append_assoc, String.empty_append]

theorem addNodeValues_all_hom (str : String) (node : LWT_ISO_NODE) :
    addNodeValues str node LWT_COL_NODE_ALL = str ++ addNodeValues "" node LWT_COL_NODE_ALL := by
  have h0 : hasField LWT_COL_NODE_ALL LWT_COL_NODE_NODE_ID = true := by decide
  have h1 : hasField LWT_COL_NODE_ALL LWT_COL_NODE_CONTAINING_FACE = true := by decide
  have h2 : hasField LWT_COL_NODE_ALL LWT_COL_NODE_GEOM = true := by decide
  unfold addNodeValues
  rw [h0, h1, h2]
  generalize (node.node_id != -1) = c0
  generalize (node.containing_face != -1) = c1
  generalize node.geom = g
  cases c0 <;> cases c1 <;> cases g <;>
    simp only [if_true, if_false, Bool.false_eq_true, String.append_assoc, String.empty_append]

theorem addEdgeValues_all_hom (str : String) (edge : LWT_ISO_EDGE) :
    addEdgeValues str edge LWT_COL_EDGE_ALL true =
      str ++ addEdgeValues "" edge LWT_COL_EDGE_ALL true := by
  have h0 : hasField LWT_COL_EDGE_ALL LWT_COL_EDGE_EDGE_ID = true := by decide
  have h1 : hasField LWT_COL_EDGE_ALL LWT_COL_EDGE_START_NODE = true := by decide
  have h2 : hasField LWT_COL_EDGE_ALL LWT_COL_EDGE_END_NODE = true := by decide
  have h3 : hasField LWT_COL_EDGE_ALL LWT_COL_EDGE_FACE_LEFT = true := by decide
  have h4 : hasField LWT_COL_EDGE_ALL LWT_COL_EDGE_FACE_RIGHT = true := by decide
  have h5 : hasField LWT_COL_EDGE_ALL LWT_COL_EDGE_NEXT_LEFT = true := by decide
  have h6 : hasField LWT_COL_EDGE_ALL LWT_COL_EDGE_NEXT_RIGHT = true := by decide
  have h7 : hasField LWT_COL_EDGE_ALL LWT_COL_EDGE_GEOM = true := by decide
  unfold addEdgeValues
  rw [h0, h1, h2, h3, h4, h5, h6, h7]
  generalize (edge.edge_id != -1) = c0
  generalize edge.geom = g
  cases c0 <;> cases g <;>
    simp only [if_true, if_false, Bool.false_eq_true, String.append_assoc, String.empty_append]

theorem addFaceValues_hom (str : String) (face : LWT_ISO_FACE) (srid : Int) :
    addFaceValues str face srid = str ++ addFaceValues "" face srid := by
  unfold addFaceValues
  generalize (face.face_id != -1) = c0
  generalize face.mbr = g
  cases c0 <;> cases g <;>
    simp only [if_true, if_false, Bool.false_eq_true, String.append_assoc, String.empty_append]

theorem insertNodes_statement (spi : SPIScript) (topo : LWT_BE_TOPOLOGY)
    (nodes : List LWT_ISO_NODE) (be : Backend) :
    ((cb_insertNodes spi topo nodes be).1.calls.drop be.calls.length).map (fun c => c.sql) =
      ["INSERT INTO " ++ ("\"" ++ topo.name ++ "\"") ++
        (".node (" ++ addNodeFields "" LWT_COL_NODE_ALL ++ ") VALUES " ++
          appendEach (fun s n => addNodeValues s n LWT_COL_NODE_ALL) "" 0 nodes ++
          " RETURNING node_id")] := by
  simp only [cb_insertNodes, SPI_execute, apply_ite Prod.fst, apply_ite Backend.calls,
    cberror_calls, markChanged_calls, ite_self, List.drop_left, List.map]
  rw [show ("INSERT INTO \"" : String) = "INSERT INTO " ++ "\"" from rfl,
    show ("\".node (" : String) = "\"" ++ ".node (" from rfl,
    appendEach_hom _ (fun s x => addNodeValues_all_hom s x), addNodeFields_hom]
  simp only [String.append_assoc]

theorem insertEdges_statement (spi : SPIScript) (topo : LWT_BE_TOPOLOGY)
    (edges : List LWT_ISO_EDGE) (be : Backend) :
    ((cb_insertEdges spi topo edges be).1.calls.drop be.calls.length).map (fun c => c.sql) =
      ["INSERT INTO " ++ ("\"" ++ topo.name ++ "\"") ++
        (".edge_data (" ++ addEdgeFields "" LWT_COL_EDGE_ALL true ++ ") VALUES " ++
          appendEach (fun s e => addEdgeValues s e LWT_COL_EDGE_ALL true) "" 0 edges ++
          (if edges.any (fun e => e.edge_id == -1) then " RETURNING edge_id" else ""))] := by
  simp only [cb_insertEdges, SPI_execute, apply_ite Prod.fst, apply_ite Backend.calls,
    cberror_calls, markChanged_calls, ite_self, List.drop_left, List.map]
  rw [show ("INSERT INTO \"" : String) = "INSERT INTO " ++ "\"" from rfl,
    show ("\".edge_data (" : String) = "\"" ++ ".edge_data (" from rfl,
    appendEach_hom _ (fun s x => addEdgeValues_all_hom s x), addEdgeFields_hom]
  cases edges.any (fun e => e.edge_id == -1) <;>
    simp only [if_true, if_false, Bool.false_eq_true, String.append_assoc, String.append_empty]

theorem insertFaces_statement (spi : SPIScript) (topo : LWT_BE_TOPOLOGY)
    (faces : List LWT_ISO_FACE) (be : Backend) :
    ((cb_insertFaces spi topo faces be).1.calls.drop be.calls.length).map (fun c => c.sql) =
      ["INSERT INTO " ++ ("\"" ++ topo.name ++ "\"") ++
        (".face (" ++ addFaceFields "" LWT_COL_FACE_ALL ++ ") VALUES " ++
          appendEach (fun s f => addFaceValues s f topo.srid) "" 0 faces ++
          (if faces.any (fun f => f.face_id == -1) then " RETURNING face_id" else ""))] := by
  simp only [cb_insertFaces, SPI_execute, apply_ite Prod.fst, apply_ite Backend.calls,
    cberror_calls, markChanged_calls, ite_self, List.drop_left, List.map]
  rw [show ("INSERT INTO \"" : String) = "INSERT INTO " ++ "\"" from rfl,
    show ("\".face (" : String) = "\"" ++ ".face (" from rfl,
    appendEach_hom _ (fun s x => addFaceValues_hom s x topo.srid), addFaceFields_hom]
  cases faces.any (fun f => f.face_id == -1) <;>
    simp only [if_true, if_false, Bool.false_eq_true, String.append_assoc, String.append_empty]

theorem getEdgeWithinDistance2D_statement (spi : SPIScript) (topo : LWT_BE_TOPOLOGY)
    (mem : Nat → LWT_ISO_EDGE) (pt : LWPOINT) (dist : Double) (fields : Int) (limit : Int)
    (be : Backend) :
    ((cb_getEdgeWithinDistance2D spi topo mem pt dist fields limit be).1.calls.drop
        be.calls.length).map (fun c => c.sql) =
      [(if limit = -1 then "SELECT EXISTS ( SELECT 1" else addEdgeFields "SELECT " fields false)
          ++ " FROM " ++ ("\"" ++ topo.name ++ "\"") ++
        (".edge_data" ++
          (if dist.isZero then
            " WHERE ST_Within('" ++ lwgeom_to_hexwkb (lwpoint_as_lwgeom pt) ++ "'::geometry, geom)"
           else " WHERE ST_DWithin('" ++ lwgeom_to_hexwkb (lwpoint_as_lwgeom pt) ++
            "'::geometry, geom, " ++ dist.g ++ ")") ++
          (if limit = -1 then ")" else if limit > 0 then " LIMIT " ++ fmtInt limit else ""))] := by
  simp only [cb_getEdgeWithinDistance2D, SPI_execute, apply_ite Prod.fst,
    apply_ite Backend.calls, cberror_calls, ite_self, List.drop_left, List.map]
  rw [show (" FROM \"" : String) = " FROM " ++ "\"" from rfl,
    show ("\".edge_data" : String) = "\"" ++ ".edge_data" from rfl]
  by_cases h1 : limit = -1
  · simp only [if_pos h1]
    cases dist.isZero <;>
      simp only [Bool.not_false, Bool.not_true, if_true, if_false, Bool.false_eq_true,
        String.append_assoc]
  · simp only [if_neg h1]
    by_cases h2 : limit > 0
    · simp only [if_pos h2]
      cases dist.isZero <;>
        simp only [Bool.not_false, Bool.not_true, if_true, if_false, Bool.false_eq_true,
          String.append_assoc]
    · simp only [if_neg h2]
      cases dist.isZero <;>
        simp only [Bool.not_false, Bool.not_true, if_true, if_false, Bool.false_eq_true,
          String.append_assoc, String.append_empty]

theorem getNodeWithinDistance2D_statement (spi : SPIScript) (topo : LWT_BE_TOPOLOGY)
    (mem : Nat → LWT_ISO_NODE) (pt : LWPOINT) (dist : Double) (fields : Int) (limit : Int)
    (be : Backend) :
    ((cb_getNodeWithinDistance2D spi topo mem pt dist fields limit be).1.calls.drop
        be.calls.length).map (fun c => c.sql) =
      [(if limit = -1 then "SELECT EXISTS ( SELECT 1"
        else if fields != 0 then addNodeFields "SELECT " fields else "SELECT " ++ "*")
          ++ " FROM " ++ ("\"" ++ topo.name ++ "\"") ++
        (".node" ++
          (if dist.isZero then
            " WHERE ST_Within(geom, '" ++ lwgeom_to_hexwkb (lwpoint_as_lwgeom pt) ++ "'::geometry)"
           else " WHERE ST_DWithin(geom, '" ++ lwgeom_to_hexwkb (lwpoint_as_lwgeom pt) ++
            "'::geometry, dist)") ++
          (if limit = -1 then ")" else if limit > 0 then " LIMIT " ++ fmtInt limit else ""))] := by
  simp only [cb_getNodeWithinDistance2D, SPI_execute, apply_ite Prod.fst,
    apply_ite Backend.calls, cberror_calls, ite_self, List.drop_left, List.map]
  rw [show (" FROM \"" : String) = " FROM " ++ "\"" from rfl,
    show ("\".node" : String) = "\"" ++ ".node" from rfl]
  by_cases h1 : limit = -1
  · simp only [if_pos h1]
    cases dist.isZero <;>
      simp only [Bool.not_false, Bool.not_true, if_true, if_false, Bool.false_eq_true,
        String.append_assoc]
  · simp only [if_neg h1]
    by_cases h2 : limit > 0
    · simp only [if_pos h2]
      cases dist.isZero <;>
        simp only [Bool.not_false, Bool.not_true, if_true, if_false, Bool.false_eq_true,
          String.append_assoc]
    · simp only [if_neg h2]
      cases dist.isZero <;>
        simp only [Bool.not_false, Bool.not_true, if_true, if_false, Bool.false_eq_true,
          String.append_assoc, String.append_empty]

theorem getNodeWithinBox2D_statement (spi : SPIScript) (topo : LWT_BE_TOPOLOGY)
    (mem : Nat → LWT_ISO_NODE) (box : GBOX) (fields : Int) (limit : Int) (be : Backend) :
    ((cb_getNodeWithinBox2D spi topo mem box fields limit be).1.calls.drop
        be.calls.length).map (fun c => c.sql) =
      [(if limit = -1 then "SELECT EXISTS ( SELECT 1" else addNodeFields "SELECT " fields)
          ++ " FROM " ++ ("\"" ++ topo.name ++ "\"") ++
        (".node WHERE geom && " ++ fmtEnvelope box topo.srid ++
          (if limit = -1 then ")" else if limit > 0 then " LIMIT " ++ fmtInt limit else ""))] := by
  simp only [cb_getNodeWithinBox2D, SPI_execute, apply_ite Prod.fst,
    apply_ite Backend.calls, cberror_calls, ite_self, List.drop_left, List.map]
  rw [show (" FROM \"" : String) = " FROM " ++ "\"" from rfl,
    show ("\".node WHERE geom && " : String) = "\"" ++ ".node WHERE geom && " from rfl]
  by_cases h1 : limit = -1
  · simp only [if_pos h1, String.append_assoc]
  · simp only [if_neg h1]
    by_cases h2 : limit > 0
    · simp only [if_pos h2, String.append_assoc]
    · simp only [if_neg h2, String.append_assoc, String.append_empty]

theorem getEdgeWithinBox2D_statement (spi : SPIScript) (topo : LWT_BE_TOPOLOGY)
    (mem : Nat → LWT_ISO_EDGE) (box : GBOX) (fields : Int) (limit : Int) (be : Backend) :
    ((cb_getEdgeWithinBox2D spi topo mem box fields limit be).1.calls.drop
        be.calls.length).map (fun c => c.sql) =
      [(if limit = -1 then "SELECT EXISTS ( SELECT 1" else addEdgeFields "SELECT " fields false)
          ++ " FROM " ++ ("\"" ++ topo.name ++ "\"") ++
        (".edge WHERE geom && " ++ fmtEnvelope box topo.srid ++
          (if limit = -1 then ")" else if limit > 0 then " LIMIT " ++ fmtInt limit else ""))] := by
  simp only [cb_getEdgeWithinBox2D, SPI_execute, apply_ite Prod.fst,
    apply_ite Backend.calls, cberror_calls, ite_self, List.drop_left, List.map]
  rw [show (" FROM \"" : String) = " FROM " ++ "\"" from rfl,
    show ("\".edge WHERE geom && " : String) = "\"" ++ ".edge WHERE geom && " from rfl]
  by_cases h1 : limit = -1
  · simp only [if_pos h1, String.append_assoc]
  · simp only [if_neg h1]
    by_cases h2 : limit > 0
    · simp only [if_pos h2, String.append_assoc]
    · simp only [if_neg h2, String.append_assoc, String.append_empty]

theorem finishMutation_statement (spi : SPIScript) (be : Backend) (sql : String) (ok : Int) :
    ((finishMutation spi be sql ok).1.calls.drop be.calls.length).map (fun c => c.sql) =
      [sql] :=
  statement_of_calls (finishMutation_calls spi be sql ok)

theorem deleteEdges_statement (spi : SPIScript) (topo : LWT_BE_TOPOLOGY)
    (sel_edge : LWT_ISO_EDGE) (sel_fields : Int) (be : Backend) :
    ((cb_deleteEdges spi topo sel_edge sel_fields be).1.calls.drop be.calls.length).map
        (fun c => c.sql) =
      ["DELETE FROM " ++ ("\"" ++ topo.name ++ "\"") ++
        (".edge_data WHERE " ++ addEdgeUpdate "" sel_edge sel_fields false UpdateType.updSel)] := by
  unfold cb_deleteEdges
  rw [finishMutation_statement, addEdgeUpdate_hom,
    show ("DELETE FROM \"" : String) = "DELETE FROM " ++ "\"" from rfl,
    show ("\".edge_data WHERE " : String) = "\"" ++ ".edge_data WHERE " from rfl]
  simp only [String.append_assoc]

theorem deleteFacesById_statement (spi : SPIScript) (topo : LWT_BE_TOPOLOGY)
    (ids : List LWT_ELEMID) (be : Backend) :
    ((cb_deleteFacesById spi topo ids be).1.calls.drop be.calls.length).map
        (fun c => c.sql) =
      ["DELETE FROM " ++ ("\"" ++ topo.name ++ "\"") ++
        (".face WHERE face_id IN (" ++ appendIds "" 0 ids ++ ")")] := by
  unfold cb_deleteFacesById
  rw [finishMutation_statement, appendIds_hom,
    show ("DELETE FROM \"" : String) = "DELETE FROM " ++ "\"" from rfl,
    show ("\".face WHERE face_id IN (" : String) = "\"" ++ ".face WHERE face_id IN (" from rfl]
  simp only [String.append_assoc]

theorem updateFacesById_statement (spi : SPIScript) (topo : LWT_BE_TOPOLOGY)
    (faces : List LWT_ISO_FACE) (be : Backend) :
    ((cb_updateFacesById spi topo faces be).1.calls.drop be.calls.length).map
        (fun c => c.sql) =
      [appendFaceRows topo.srid "WITH newfaces AS ( SELECT " faces ++ ") UPDATE " ++
        ("\"" ++ topo.name ++ "\"") ++
        ".face o SET mbr = i.mbr FROM newfaces i WHERE o.face_id = i.id"] := by
  unfold cb_updateFacesById
  rw [finishMutation_statement,
    show (") UPDATE \"" : String) = ") UPDATE " ++ "\"" from rfl,
    show ("\".face o SET mbr = i.mbr FROM newfaces i WHERE o.face_id = i.id" : String) =
      "\"" ++ ".face o SET mbr = i.mbr FROM newfaces i WHERE o.face_id = i.id" from rfl]
  simp only [String.append_assoc]

theorem updateEdges_statement (spi : SPIScript) (topo : LWT_BE_TOPOLOGY) (be : Backend)
    (sel_edge exc_edge : Option LWT_ISO_EDGE) (upd_edge : LWT_ISO_EDGE)
    (sel_fields upd_fields exc_fields : Int) :
    ((cb_updateEdges spi topo sel_edge sel_fields upd_edge upd_fields exc_edge exc_fields
        be).1.calls.drop be.calls.length).map (fun c => c.sql) =
      ["UPDATE " ++ ("\"" ++ topo.name ++ "\"") ++
        (".edge_data SET " ++ addEdgeUpdate "" upd_edge upd_fields true UpdateType.updSet ++
          edgeWhereClause sel_edge sel_fields exc_edge exc_fields)] := by
  rw [statement_of_calls (updateEdges_calls spi topo be sel_edge exc_edge upd_edge sel_fields
    upd_fields exc_fields)]
  show [_] = [_]
  rw [show ("UPDATE \"" : String) = "UPDATE " ++ "\"" from rfl,
    show ("\".edge_data SET " : String) = "\"" ++ ".edge_data SET " from rfl]
  simp only [String.append_assoc]

theorem updateNodes_statement (spi : SPIScript) (topo : LWT_BE_TOPOLOGY) (be : Backend)
    (sel_node exc_node : Option LWT_ISO_NODE) (upd_node : LWT_ISO_NODE)
    (sel_fields upd_fields exc_fields : Int) :
    ((cb_updateNodes spi topo sel_node sel_fields upd_node upd_fields exc_node exc_fields
        be).1.calls.drop be.calls.length).map (fun c => c.sql) =
      ["UPDATE " ++ ("\"" ++ topo.name ++ "\"") ++
        (".node SET " ++ addNodeUpdate "" upd_node upd_fields true UpdateType.updSet ++
          nodeWhereClause sel_node sel_fields exc_node exc_fields)] := by
  rw [statement_of_calls (updateNodes_calls spi topo be sel_node exc_node upd_node sel_fields
    upd_fields exc_fields)]
  show [_] = [_]
  rw [show ("UPDATE \"" : String) = "UPDATE " ++ "\"" from rfl,
    show ("\".node SET " : String) = "\"" ++ ".node SET " from rfl]
  simp only [String.append_assoc]

theorem updateNodesById_calls (spi : SPIScript) (topo : LWT_BE_TOPOLOGY)
    (nodes : List LWT_ISO_NODE) (fields : Int) (be : Backend) (hf : fields ≠ 0) :
    (cb_updateNodesById spi topo nodes fields be).1.calls =
      be.calls ++
        [{ sql := (updateNodesByIdSetParts fields).foldl (· ++ ·)
              (appendEach (fun s n => addNodeValues s n (Int.lor LWT_COL_NODE_NODE_ID fields))
                (addNodeFields "WITH newnodes(node_id," fields ++ ") AS ( VALUES ") 0 nodes ++
                " ) UPDATE \"" ++ topo.name ++ "\".node n SET ") ++
              " FROM newnodes o WHERE n.node_id = o.node_id",
           read_only := false, count := 0 }] := by
  unfold cb_updateNodesById updateNodesByIdSetParts
  rw [if_neg hf, finishMutation_calls]
  generalize hasField fields LWT_COL_NODE_NODE_ID = b0
  generalize hasField fields LWT_COL_NODE_CONTAINING_FACE = b1
  generalize hasField fields LWT_COL_NODE_GEOM = b2
  cases b0 <;> cases b1 <;> cases b2 <;> rfl

theorem updateEdgesById_calls (spi : SPIScript) (topo : LWT_BE_TOPOLOGY)
    (edges : List LWT_ISO_EDGE) (fields : Int) (be : Backend) (hf : fields ≠ 0) :
    (cb_updateEdgesById spi topo edges fields be).1.calls =
      be.calls ++
        [{ sql := (updateEdgesByIdSetParts fields).foldl (· ++ ·)
              (appendEach
                (fun s e => addEdgeValues s e (Int.lor fields LWT_COL_EDGE_EDGE_ID) false)
                (addEdgeFields "WITH newedges(edge_id," fields false ++ ") AS ( VALUES ") 0 edges
                ++ ") UPDATE \"" ++ topo.name ++ "\".edge_data e SET ") ++
              " FROM newedges o WHERE e.edge_id = o.edge_id",
           read_only := false, count := 0 }] := by
  unfold cb_updateEdgesById updateEdgesByIdSetParts
  rw [if_neg hf, finishMutation_calls]
  generalize hasField fields LWT_COL_EDGE_START_NODE = b1
  generalize hasField fields LWT_COL_EDGE_END_NODE = b2
  generalize hasField fields LWT_COL_EDGE_FACE_LEFT = b3
  generalize hasField fields LWT_COL_EDGE_FACE_RIGHT = b4
  generalize hasField fields LWT_COL_EDGE_NEXT_LEFT = b5
  generalize hasField fields LWT_COL_EDGE_NEXT_RIGHT = b6
  generalize hasField fields LWT_COL_EDGE_GEOM = b7
  cases b1 <;> cases b2 <;> cases b3 <;> cases b4 <;> cases b5 <;> cases b6 <;> cases b7 <;> rfl

theorem updateNodesById_statement (spi : SPIScript) (topo : LWT_BE_TOPOLOGY)
    (nodes : List LWT_ISO_NODE) (fields : Int) (be : Backend) (hf : fields ≠ 0) :
    ((cb_updateNodesById spi topo nodes fields be).1.calls.drop be.calls.length).map
        (fun c => c.sql) =
      [appendEach (fun s n => addNodeValues s n (Int.lor LWT_COL_NODE_NODE_ID fields))
          (addNodeFields "WITH newnodes(node_id," fields ++ ") AS ( VALUES ") 0 nodes ++
          " ) UPDATE " ++ ("\"" ++ topo.name ++ "\"") ++
        (".node n SET " ++ (updateNodesByIdSetParts fields).foldl (· ++ ·) "" ++
          " FROM newnodes o WHERE n.node_id = o.node_id")] := by
  rw [statement_of_calls (updateNodesById_calls spi topo nodes fields be hf)]
  show [_] = [_]
  rw [foldl_append_hom, show (" ) UPDATE \"" : String) = " ) UPDATE " ++ "\"" from rfl,
    show ("\".node n SET " : String) = "\"" ++ ".node n SET " from rfl]
  simp only [String.append_assoc]

theorem updateEdgesById_statement (spi : SPIScript) (topo : LWT_BE_TOPOLOGY)
    (edges : List LWT_ISO_EDGE) (fields : Int) (be : Backend) (hf : fields ≠ 0) :
    ((cb_updateEdgesById spi topo edges fields be).1.calls.drop be.calls.length).map
        (fun c => c.sql) =
      [appendEach (fun s e => addEdgeValues s e (Int.lor fields LWT_COL_EDGE_EDGE_ID) false)
          (addEdgeFields "WITH newedges(edge_id," fields false ++ ") AS ( VALUES ") 0 edges ++
          ") UPDATE " ++ ("\"" ++ topo.name ++ "\"") ++
        (".edge_data e SET " ++ (updateEdgesByIdSetParts fields).foldl (· ++ ·) "" ++
          " FROM newedges o WHERE e.edge_id = o.edge_id")] := by
  rw [statement_of_calls (updateEdgesById_calls spi topo edges fields be hf)]
  show [_] = [_]
  rw [foldl_append_hom, show (") UPDATE \"" : String) = ") UPDATE " ++ "\"" from rfl,
    show ("\".edge_data e SET " : String) = "\"" ++ ".edge_data e SET " from rfl]
  simp only [String.append_assoc]

theorem updateNodesById_no_statement (spi : SPIScript) (topo : LWT_BE_TOPOLOGY)
    (nodes : List LWT_ISO_NODE) (be : Backend) :
    ((cb_updateNodesById spi topo nodes 0 be).1.calls.drop be.calls.length).map
        (fun c => c.sql) = [] := by
  unfold cb_updateNodesById
  rw [if_pos rfl]
  simp

theorem updateEdgesById_no_statement (spi : SPIScript) (topo : LWT_BE_TOPOLOGY)
    (edges : List LWT_ISO_EDGE) (be : Backend) :
    ((cb_updateEdgesById spi topo edges 0 be).1.calls.drop be.calls.length).map
        (fun c => c.sql) = [] := by
  unfold cb_updateEdgesById
  rw [if_pos rfl]
  simp

theorem renderTemplate_length (tpl : List Seg) :
    ∃ k, ∀ name, (renderTemplate name tpl).length =
      k + tpl.count Seg.ident * (quoteIdent name).length +
        tpl.count Seg.literal * (quoteLiteral name).length := by
  induction tpl with
  | nil => exact ⟨0, fun _ => by simp [renderTemplate]⟩
  | cons s rest ih =>
    obtain ⟨k, hk⟩ := ih
    cases s with
    | text t =>
      refine ⟨t.length + k, fun name => ?_⟩
      have h1 : List.count Seg.ident (Seg.text t :: rest) = List.count Seg.ident rest := by
        simp [List.count_cons]
      have h2 : List.count Seg.literal (Seg.text t :: rest) = List.count Seg.literal rest := by
        simp [List.count_cons]
      rw [h1, h2]
      simp only [renderTemplate, Seg.render, String.length_append, hk name]
      omega
    | ident =>
      refine ⟨k, fun name => ?_⟩
      have h1 : List.count Seg.ident (Seg.ident :: rest) = List.count Seg.ident rest + 1 := by
        simp [List.count_cons]
      have h2 : List.count Seg.literal (Seg.ident :: rest) = List.count Seg.literal rest := by
        simp [List.count_cons]
      rw [h1, h2]
      simp only [renderTemplate, Seg.render, String.length_append, hk name, Nat.add_mul,
        Nat.one_mul]
      omega
    | literal =>
      refine ⟨k, fun name => ?_⟩
      have h1 : List.count Seg.ident (Seg.literal :: rest) = List.count Seg.ident rest := by
        simp [List.count_cons]
      have h2 : List.count Seg.literal (Seg.literal :: rest) =
          List.count Seg.literal rest + 1 := by
        simp [List.count_cons]
      rw [h1, h2]
      simp only [renderTemplate, Seg.render, String.length_append, hk name, Nat.add_mul,
        Nat.one_mul]
      omega

theorem count_of_namePlaces (tpl : List Seg) (places : List Seg) (s : Seg)
    (hs : s.isName = true) (h : tpl.filter Seg.isName = places) :
    tpl.count s = places.count s := by
  rw [← h, List.count_filter hs]

/-! ## C18: the topology name in the statements -/

/-- C18 (amended): for every topology name without single and double quotes,
the statements of cb_loadTopologyByName and of every element-store callback
are a fixed text, the same for all such names, with the name filled in: once
between single quotes as a string literal in cb_loadTopologyByName, and
between double quotes as an identifier in the element-store statements (twice
in cb_getRingEdges; cb_getFaceContainingPoint also passes it once as a string
literal). -/
theorem C18_plain_name_rendered_verbatim (spi : SPIScript) (c : Callback) (be : Backend)
    (hc : c.isPropagator = false) :
    ∃ tpls : List (List Seg),
      (∀ tpl ∈ tpls, tpl.filter Seg.isName = c.namePlaces) ∧
      ∀ name, plainName name →
        (issuedBy spi (c.withName name) be).map (fun call => call.sql) =
          tpls.map (renderTemplate name) := by
  cases c with
  | loadTopologyByName old =>
    exact ⟨[[Seg.text "SELECT id,srid FROM topology.topology WHERE name = ", Seg.literal,
        Seg.text ""]],
      fun tpl h => by rw [List.mem_singleton.mp h]; rfl,
      fun name hq => (loadTopologyByName_statement spi name be).trans
        (congrArg (fun s => [s]) (render_literal name hq _ _).symm)⟩
  | getNodeById topo mem ids fields =>
    exact ⟨[[Seg.text (addNodeFields "SELECT " fields ++ " FROM "), Seg.ident,
        Seg.text (".node" ++ " WHERE node_id IN (" ++ appendIds "" 0 ids ++ ")")]],
      fun tpl h => by rw [List.mem_singleton.mp h]; rfl,
      fun name hq => (getNodeById_statement spi { topo with name := name } mem ids fields be).trans
        (congrArg (fun s => [s]) (render_ident name hq _ _).symm)⟩
  | getNodeWithinDistance2D topo mem pt dist fields limit =>
    exact ⟨[[Seg.text ((if limit = -1 then "SELECT EXISTS ( SELECT 1"
          else if fields != 0 then addNodeFields "SELECT " fields else "SELECT " ++ "*")
          ++ " FROM "), Seg.ident,
        Seg.text (".node" ++
          (if dist.isZero then
            " WHERE ST_Within(geom, '" ++ lwgeom_to_hexwkb (lwpoint_as_lwgeom pt) ++ "'::geometry)"
           else " WHERE ST_DWithin(geom, '" ++ lwgeom_to_hexwkb (lwpoint_as_lwgeom pt) ++
            "'::geometry, dist)") ++
          (if limit = -1 then ")" else if limit > 0 then " LIMIT " ++ fmtInt limit else ""))]],
      fun tpl h => by rw [List.mem_singleton.mp h]; rfl,
      fun name hq => (getNodeWithinDistance2D_statement spi { topo with name := name } mem pt dist
          fields limit be).trans
        (congrArg (fun s => [s]) (render_ident name hq _ _).symm)⟩
  | insertNodes topo nodes =>
    exact ⟨[[Seg.text "INSERT INTO ", Seg.ident,
        Seg.text (".node (" ++ addNodeFields "" LWT_COL_NODE_ALL ++ ") VALUES " ++
          appendEach (fun s n => addNodeValues s n LWT_COL_NODE_ALL) "" 0 nodes ++
          " RETURNING node_id")]],
      fun tpl h => by rw [List.mem_singleton.mp h]; rfl,
      fun name hq => (insertNodes_statement spi { topo with name := name } nodes be).trans
        (congrArg (fun s => [s]) (render_ident name hq _ _).symm)⟩
  | getEdgeById topo mem ids fields =>
    exact ⟨[[Seg.text (addEdgeFields "SELECT " fields false ++ " FROM "), Seg.ident,
        Seg.text (".edge_data" ++ " WHERE edge_id IN (" ++ appendIds "" 0 ids ++ ")")]],
      fun tpl h => by rw [List.mem_singleton.mp h]; rfl,
      fun name hq => (getEdgeById_statement spi { topo with name := name } mem ids fields be).trans
        (congrArg (fun s => [s]) (render_ident name hq _ _).symm)⟩
  | getEdgeWithinDistance2D topo mem pt dist fields limit =>
    exact ⟨[[Seg.text ((if limit = -1 then "SELECT EXISTS ( SELECT 1"
          else addEdgeFields "SELECT " fields false) ++ " FROM "), Seg.ident,
        Seg.text (".edge_data" ++
          (if dist.isZero then
            " WHERE ST_Within('" ++ lwgeom_to_hexwkb (lwpoint_as_lwgeom pt) ++ "'::geometry, geom)"
           else " WHERE ST_DWithin('" ++ lwgeom_to_hexwkb (lwpoint_as_lwgeom pt) ++
            "'::geometry, geom, " ++ dist.g ++ ")") ++
          (if limit = -1 then ")" else if limit > 0 then " LIMIT " ++ fmtInt limit else ""))]],
      fun tpl h => by rw [List.mem_singleton.mp h]; rfl,
      fun name hq => (getEdgeWithinDistance2D_statement spi { topo with name := name } mem pt dist
          fields limit be).trans
        (congrArg (fun s => [s]) (render_ident name hq _ _).symm)⟩
  | getNextEdgeId topo =>
    exact ⟨[[Seg.text "SELECT nextval('", Seg.ident, Seg.text ".edge_data_edge_id_seq')"]],
      fun tpl h => by rw [List.mem_singleton.mp h]; rfl,
      fun name hq => (getNextEdgeId_statement spi { topo with name := name } be).trans
        (congrArg (fun s => [s]) (render_ident name hq _ _).symm)⟩
  | insertEdges topo edges =>
    exact ⟨[[Seg.text "INSERT INTO ", Seg.ident,
        Seg.text (".edge_data (" ++ addEdgeFields "" LWT_COL_EDGE_ALL true ++ ") VALUES " ++
          appendEach (fun s e => addEdgeValues s e LWT_COL_EDGE_ALL true) "" 0 edges ++
          (if edges.any (fun e => e.edge_id == -1) then " RETURNING edge_id" else ""))]],
      fun tpl h => by rw [List.mem_singleton.mp h]; rfl,
      fun name hq => (insertEdges_statement spi { topo with name := name } edges be).trans
        (congrArg (fun s => [s]) (render_ident name hq _ _).symm)⟩
  | updateEdges topo sel sf upd uf exc ef =>
    exact ⟨[[Seg.text "UPDATE ", Seg.ident,
        Seg.text (".edge_data SET " ++ addEdgeUpdate "" upd uf true UpdateType.updSet ++
          edgeWhereClause sel sf exc ef)]],
      fun tpl h => by rw [List.mem_singleton.mp h]; rfl,
      fun name hq => (updateEdges_statement spi { topo with name := name } be sel exc upd sf uf
          ef).trans
        (congrArg (fun s => [s]) (render_ident name hq _ _).symm)⟩
  | getFacesById topo mem ids fields =>
    exact ⟨[[Seg.text (addFaceFields "SELECT " fields ++ " FROM "), Seg.ident,
        Seg.text (".face" ++ " WHERE face_id IN (" ++ appendIds "" 0 ids ++ ")")]],
      fun tpl h => by rw [List.mem_singleton.mp h]; rfl,
      fun name hq => (getFacesById_statement spi { topo with name := name } mem ids fields
          be).trans
        (congrArg (fun s => [s]) (render_ident name hq _ _).symm)⟩
  | getFaceContainingPoint topo pt =>
    exact ⟨[[Seg.text "SELECT face_id FROM ", Seg.ident,
        Seg.text (".face WHERE mbr && '" ++ lwgeom_to_hexwkb (lwpoint_as_lwgeom pt) ++
          "'::geometry AND ST_Contains(topology.ST_GetFaceGeometry("), Seg.literal,
        Seg.text (", face_id), '" ++ lwgeom_to_hexwkb (lwpoint_as_lwgeom pt) ++
          "'::geometry) LIMIT 1")]],
      fun tpl h => by rw [List.mem_singleton.mp h]; rfl,
      fun name hq => (getFaceContainingPoint_statement spi { topo with name := name } pt be).trans
        (congrArg (fun s => [s]) (render_ident_literal name hq _ _ _).symm)⟩
  | updateTopoGeomEdgeSplit topo s n1 n2 => exact Bool.noConfusion hc
  | deleteEdges topo sel sf =>
    exact ⟨[[Seg.text "DELETE FROM ", Seg.ident,
        Seg.text (".edge_data WHERE " ++ addEdgeUpdate "" sel sf false UpdateType.updSel)]],
      fun tpl h => by rw [List.mem_singleton.mp h]; rfl,
      fun name hq => (deleteEdges_statement spi { topo with name := name } sel sf be).trans
        (congrArg (fun s => [s]) (render_ident name hq _ _).symm)⟩
  | getNodeWithinBox2D topo mem box fields limit =>
    exact ⟨[[Seg.text ((if limit = -1 then "SELECT EXISTS ( SELECT 1"
          else addNodeFields "SELECT " fields) ++ " FROM "), Seg.ident,
        Seg.text (".node WHERE geom && " ++ fmtEnvelope box topo.srid ++
          (if limit = -1 then ")" else if limit > 0 then " LIMIT " ++ fmtInt limit else ""))]],
      fun tpl h => by rw [List.mem_singleton.mp h]; rfl,
      fun name hq => (getNodeWithinBox2D_statement spi { topo with name := name } mem box fields
          limit be).trans
        (congrArg (fun s => [s]) (render_ident name hq _ _).symm)⟩
  | getEdgeWithinBox2D topo mem box fields limit =>
    exact ⟨[[Seg.text ((if limit = -1 then "SELECT EXISTS ( SELECT 1"
          else addEdgeFields "SELECT " fields false) ++ " FROM "), Seg.ident,
        Seg.text (".edge WHERE geom && " ++ fmtEnvelope box topo.srid ++
          (if limit = -1 then ")" else if limit > 0 then " LIMIT " ++ fmtInt limit else ""))]],
      fun tpl h => by rw [List.mem_singleton.mp h]; rfl,
      fun name hq => (getEdgeWithinBox2D_statement spi { topo with name := name } mem box fields
          limit be).trans
        (congrArg (fun s => [s]) (render_ident name hq _ _).symm)⟩
  | getEdgeByNode topo mem ids fields =>
    exact ⟨[[Seg.text (addEdgeFields "SELECT " fields false ++ " FROM "), Seg.ident,
        Seg.text (".edge_data" ++ " WHERE start_node IN (" ++ appendIds "" 0 ids ++
          ") OR end_node IN (" ++ appendIds "" 0 ids ++ ")")]],
      fun tpl h => by rw [List.mem_singleton.mp h]; rfl,
      fun name hq => (getEdgeByNode_statement spi { topo with name := name } mem ids fields
          be).trans
        (congrArg (fun s => [s]) (render_ident name hq _ _).symm)⟩
  | updateNodes topo sel sf upd uf exc ef =>
    exact ⟨[[Seg.text "UPDATE ", Seg.ident,
        Seg.text (".node SET " ++ addNodeUpdate "" upd uf true UpdateType.updSet ++
          nodeWhereClause sel sf exc ef)]],
      fun tpl h => by rw [List.mem_singleton.mp h]; rfl,
      fun name hq => (updateNodes_statement spi { topo with name := name } be sel exc upd sf uf
          ef).trans
        (congrArg (fun s => [s]) (render_ident name hq _ _).symm)⟩
  | updateTopoGeomFaceSplit topo s n1 n2 => exact Bool.noConfusion hc
  | insertFaces topo faces =>
    exact ⟨[[Seg.text "INSERT INTO ", Seg.ident,
        Seg.text (".face (" ++ addFaceFields "" LWT_COL_FACE_ALL ++ ") VALUES " ++
          appendEach (fun s f => addFaceValues s f topo.srid) "" 0 faces ++
          (if faces.any (fun f => f.face_id == -1) then " RETURNING face_id" else ""))]],
      fun tpl h => by rw [List.mem_singleton.mp h]; rfl,
      fun name hq => (insertFaces_statement spi { topo with name := name } faces be).trans
        (congrArg (fun s => [s]) (render_ident name hq _ _).symm)⟩
  | updateFacesById topo faces =>
    exact ⟨[[Seg.text (appendFaceRows topo.srid "WITH newfaces AS ( SELECT " faces ++
          ") UPDATE "), Seg.ident,
        Seg.text ".face o SET mbr = i.mbr FROM newfaces i WHERE o.face_id = i.id"]],
      fun tpl h => by rw [List.mem_singleton.mp h]; rfl,
      fun name hq => (updateFacesById_statement spi { topo with name := name } faces be).trans
        (congrArg (fun s => [s]) (render_ident name hq _ _).symm)⟩
  | getRingEdges topo edge limit =>
    exact ⟨[[Seg.text ("WITH RECURSIVE edgering AS ( SELECT " ++ fmtInt edge ++
          " as signed_edge_id, edge_id, next_left_edge, next_right_edge FROM "), Seg.ident,
        Seg.text (".edge_data WHERE edge_id = " ++ fmtInt (ABS edge) ++
          (" UNION SELECT CASE WHEN p.signed_edge_id < 0 THEN p.next_right_edge " ++
           "ELSE p.next_left_edge END, e.edge_id, e.next_left_edge, e.next_right_edge FROM ")),
        Seg.ident,
        Seg.text ((".edge_data e, edgering p WHERE e.edge_id = CASE WHEN p.signed_edge_id < 0 THEN "
          ++ "abs(p.next_right_edge) ELSE abs(p.next_left_edge) END ) SELECT * FROM edgering") ++
          (if limit != 0 then " LIMIT " ++ fmtInt (toInt32 (limit + 1)) else ""))]],
      fun tpl h => by rw [List.mem_singleton.mp h]; rfl,
      fun name hq => (getRingEdges_statement spi { topo with name := name } edge limit be).trans
        (congrArg (fun s => [s]) (render_ident_ident name hq _ _ _).symm)⟩
  | updateEdgesById topo edges fields =>
    by_cases hf : fields = 0
    · subst hf
      exact ⟨[], fun tpl h => absurd h (List.not_mem_nil _),
        fun name _ => updateEdgesById_no_statement spi { topo with name := name } edges be⟩
    · exact ⟨[[Seg.text (appendEach
            (fun s e => addEdgeValues s e (Int.lor fields LWT_COL_EDGE_EDGE_ID) false)
            (addEdgeFields "WITH newedges(edge_id," fields false ++ ") AS ( VALUES ") 0 edges ++
            ") UPDATE "), Seg.ident,
          Seg.text (".edge_data e SET " ++ (updateEdgesByIdSetParts fields).foldl (· ++ ·) "" ++
            " FROM newedges o WHERE e.edge_id = o.edge_id")]],
        fun tpl h => by rw [List.mem_singleton.mp h]; rfl,
        fun name hq => (updateEdgesById_statement spi { topo with name := name } edges fields be
            hf).trans
          (congrArg (fun s => [s]) (render_ident name hq _ _).symm)⟩
  | getEdgeByFace topo mem ids fields =>
    exact ⟨[[Seg.text (addEdgeFields "SELECT " fields false ++ " FROM "), Seg.ident,
        Seg.text (".edge_data" ++ " WHERE left_face IN (" ++ appendIds "" 0 ids ++
          ") OR right_face IN (" ++ appendIds "" 0 ids ++ ")")]],
      fun tpl h => by rw [List.mem_singleton.mp h]; rfl,
      fun name hq => (getEdgeByFace_statement spi { topo with name := name } mem ids fields
          be).trans
        (congrArg (fun s => [s]) (render_ident name hq _ _).symm)⟩
  | getNodeByFace topo mem ids fields =>
    exact ⟨[[Seg.text (addNodeFields "SELECT " fields ++ " FROM "), Seg.ident,
        Seg.text (".node" ++ " WHERE containing_face IN (" ++ appendIds "" 0 ids ++ ")")]],
      fun tpl h => by rw [List.mem_singleton.mp h]; rfl,
      fun name hq => (getNodeByFace_statement spi { topo with name := name } mem ids fields
          be).trans
        (congrArg (fun s => [s]) (render_ident name hq _ _).symm)⟩
  | updateNodesById topo nodes fields =>
    by_cases hf : fields = 0
    · subst hf
      exact ⟨[], fun tpl h => absurd h (List.not_mem_nil _),
        fun name _ => updateNodesById_no_statement spi { topo with name := name } nodes be⟩
    · exact ⟨[[Seg.text (appendEach
            (fun s n => addNodeValues s n (Int.lor LWT_COL_NODE_NODE_ID fields))
            (addNodeFields "WITH newnodes(node_id," fields ++ ") AS ( VALUES ") 0 nodes ++
            " ) UPDATE "), Seg.ident,
          Seg.text (".node n SET " ++ (updateNodesByIdSetParts fields).foldl (· ++ ·) "" ++
            " FROM newnodes o WHERE n.node_id = o.node_id")]],
        fun tpl h => by rw [List.mem_singleton.mp h]; rfl,
        fun name hq => (updateNodesById_statement spi { topo with name := name } nodes fields be
            hf).trans
          (congrArg (fun s => [s]) (render_ident name hq _ _).symm)⟩
  | deleteFacesById topo ids =>
    exact ⟨[[Seg.text "DELETE FROM ", Seg.ident,
        Seg.text (".face WHERE face_id IN (" ++ appendIds "" 0 ids ++ ")")]],
      fun tpl h => by rw [List.mem_singleton.mp h]; rfl,
      fun name hq => (deleteFacesById_statement spi { topo with name := name } ids be).trans
        (congrArg (fun s => [s]) (render_ident name hq _ _).symm)⟩

set_option maxRecDepth 8000 in
/-- C18 (as stated, refuted): a double quote in the topology name reaches the
statement of cb_getEdgeById unescaped, and a single quote that of
cb_loadTopologyByName; and there is no statement text with the name filled in
once as an identifier (as a string literal) with its quotes escaped that gives
the statement of cb_getEdgeById (cb_loadTopologyByName) for every name. -/
theorem C18_quote_in_name_not_escaped :
    (issuedBy alwaysFails
        (Callback.getEdgeById { tp with name := nameWithDoubleQuote } (fun _ => blankEdge) [1]
          LWT_COL_EDGE_EDGE_ID) be0).map (fun call => call.sql) =
      ["SELECT edge_id FROM \"a\"b\".edge_data WHERE edge_id IN (1)"] ∧
    (issuedBy alwaysFails (Callback.loadTopologyByName nameWithSingleQuote) be0).map
        (fun call => call.sql) =
      ["SELECT id,srid FROM topology.topology WHERE name = 'a'b'"] ∧
    (¬ ∃ tpl : List Seg, tpl.filter Seg.isName = [Seg.ident] ∧
      ∀ name, (issuedBy alwaysFails
          (Callback.getEdgeById { tp with name := name } (fun _ => blankEdge) [1]
            LWT_COL_EDGE_EDGE_ID) be0).map (fun call => call.sql) =
        [renderTemplate name tpl]) ∧
    (¬ ∃ tpl : List Seg, tpl.filter Seg.isName = [Seg.literal] ∧
      ∀ name, (issuedBy alwaysFails (Callback.loadTopologyByName name) be0).map
          (fun call => call.sql) =
        [renderTemplate name tpl]) := by
  refine ⟨by decide, by decide, ?_, ?_⟩
  · rintro ⟨tpl, hshape, hall⟩
    obtain ⟨k, hk⟩ := renderTemplate_length tpl
    have ci : tpl.count Seg.ident = 1 := count_of_namePlaces tpl _ Seg.ident rfl hshape
    have cl : tpl.count Seg.literal = 0 := count_of_namePlaces tpl _ Seg.literal rfl hshape
    have h1 := congrArg (List.map String.length) (hall "x")
    have h2 := congrArg (List.map String.length) (hall "\"")
    have e1 : ((issuedBy alwaysFails
        (Callback.getEdgeById { tp with name := "x" } (fun _ => blankEdge) [1]
          LWT_COL_EDGE_EDGE_ID) be0).map (fun call => call.sql)).map String.length = [54] := by
      decide
    have e2 : ((issuedBy alwaysFails
        (Callback.getEdgeById { tp with name := "\"" } (fun _ => blankEdge) [1]
          LWT_COL_EDGE_EDGE_ID) be0).map (fun call => call.sql)).map String.length = [54] := by
      decide
    have q1 : (quoteIdent "x").length = 3 := by decide
    have q2 : (quoteIdent "\"").length = 4 := by decide
    rw [e1] at h1
    rw [e2] at h2
    simp only [List.map, List.cons.injEq, and_true] at h1 h2
    rw [hk, ci, cl, q1] at h1
    rw [hk, ci, cl, q2] at h2
    omega
  · rintro ⟨tpl, hshape, hall⟩
    obtain ⟨k, hk⟩ := renderTemplate_length tpl
    have ci : tpl.count Seg.ident = 0 := count_of_namePlaces tpl _ Seg.ident rfl hshape
    have cl : tpl.count Seg.literal = 1 := count_of_namePlaces tpl _ Seg.literal rfl hshape
    have h1 := congrArg (List.map String.length) (hall "x")
    have h2 := congrArg (List.map String.length) (hall "'")
    have e1 : ((issuedBy alwaysFails (Callback.loadTopologyByName "x") be0).map
        (fun call => call.sql)).map String.length = [54] := by
      decide
    have e2 : ((issuedBy alwaysFails (Callback.loadTopologyByName "'") be0).map
        (fun call => call.sql)).map String.length = [54] := by
      decide
    have q1 : (quoteLiteral "x").length = 3 := by decide
    have q2 : (quoteLiteral "'").length = 4 := by decide
    rw [e1] at h1
    rw [e2] at h2
    simp only [List.map, List.cons.injEq, and_true] at h1 h2
    rw [hk, ci, cl, q1] at h1
    rw [hk, ci, cl, q2] at h2
    omega

/-- C18 (amended) at the lookup of an edge in the topology named tp: its
statement is one of the fixed texts with tp filled in. -/
theorem C18_plain_name_rendered_verbatim_witness :
    ∃ tpls : List (List Seg),
      (issuedBy alwaysFails
          (Callback.getEdgeById tp (fun _ => blankEdge) [1] LWT_COL_EDGE_EDGE_ID) be0).map
        (fun call => call.sql) = tpls.map (renderTemplate "tp") :=
  (C18_plain_name_rendered_verbatim alwaysFails
    (Callback.getEdgeById tp (fun _ => blankEdge) [1] LWT_COL_EDGE_EDGE_ID) be0 rfl).elim
    (fun tpls h => ⟨tpls, h.2 "tp" (by decide)⟩)

/-! ## Lists rendered item by item -/

theorem intercalate_go_snoc (sep acc v : String) (vs : List String) :
    String.intercalate.go acc sep (vs ++ [v]) = String.intercalate.go acc sep vs ++ sep ++ v := by
  induction vs generalizing acc with
  | nil => rfl
  | cons a rest ih => exact ih (acc ++ sep ++ a)

theorem intercalate_snoc (sep v : String) (vs : List String) :
    sep.intercalate (vs ++ [v]) =
      sep.intercalate vs ++ (if vs.isEmpty then "" else sep) ++ v := by
  cases vs with
  | nil => simp [String.intercalate, String.intercalate.go]
  | cons a rest =>
    show String.intercalate.go a sep (rest ++ [v]) = String.intercalate.go a sep rest ++ sep ++ v
    exact intercalate_go_snoc sep a v rest

theorem listState_snoc (sep1 s v : String) (vs : List String) :
    ((listState sep1 s vs).1 ++ (listState sep1 s vs).2 ++ v, sep1) =
      listState sep1 s (vs ++ [v]) := by
  unfold listState
  rw [intercalate_snoc]
  simp [String.append_assoc]

theorem joinStep_listState (sep1 s v : String) (sel : Bool) (vs : List String) :
    joinStep sep1 sel v (listState sep1 s vs) =
      listState sep1 s (vs ++ if sel then [v] else []) := by
  cases sel
  · simp [joinStep]
  · simp only [joinStep, if_true]
    exact listState_snoc sep1 s v vs

theorem partsStep_listState (sep1 s : String) (sel : Bool) (ps vs : List String) :
    partsStep sep1 sel ps (listState sep1 s vs) =
      listState sep1 s (vs ++ if sel then [ps.foldl (· ++ ·) ""] else []) := by
  rw [← joinStep_listState]
  cases sel
  · rfl
  · simp only [partsStep, joinStep, if_true]
    rw [foldl_append_hom]

theorem headStep_listState (sep1 s : String) (sel : Bool) (ps : List String) :
    headStep sep1 sel ps (s, "") =
      listState sep1 s (if sel then [ps.foldl (· ++ ·) ""] else []) := by
  cases sel
  · simp [headStep, listState, String.intercalate]
  · simp only [headStep, if_true]
    rw [foldl_append_hom]
    simp [listState, String.intercalate, String.intercalate.go]

theorem pairStep_listState (sep1 s : String) (sel full : Bool) (ps1 ps2 vs : List String) :
    pairStep sep1 sep1 sel full ps1 ps2 (listState sep1 s vs) =
      listState sep1 s (vs ++ if sel then
        (if full then [ps1.foldl (· ++ ·) "", ps2.foldl (· ++ ·) ""]
         else [ps1.foldl (· ++ ·) ""]) else []) := by
  cases sel
  · simp [pairStep]
  · cases full
    · simp only [pairStep, if_true, if_false, Bool.false_eq_true]
      rw [foldl_append_hom]
      exact listState_snoc sep1 s _ vs
    · simp only [pairStep, if_true]
      rw [foldl_append_hom ps2, foldl_append_hom ps1]
      have h1 := listState_snoc sep1 s (ps1.foldl (· ++ ·) "") vs
      have h2 := listState_snoc sep1 s (ps2.foldl (· ++ ·) "") (vs ++ [ps1.foldl (· ++ ·) ""])
      rw [← h1] at h2
      simpa using h2

theorem lastStep_listState (sep1 s : String) (sel : Bool) (ps vs : List String) :
    lastStep sel ps (listState sep1 s vs) =
      s ++ sep1.intercalate (vs ++ if sel then [ps.foldl (· ++ ·) ""] else []) := by
  cases sel
  · simp [lastStep, listState]
  · simp only [lastStep, if_true]
    rw [foldl_append_hom]
    exact congrArg Prod.fst (listState_snoc sep1 s _ vs)

/-! ## The decimal text of an integer -/

theorem toDigitsCore_digits (fuel n : Nat) (ds : List Char) :
    ∃ p, Nat.toDigitsCore 10 fuel n ds = p ++ ds ∧ ∀ c ∈ p, isDigitChar c := by
  induction fuel generalizing n ds with
  | zero => exact ⟨[], rfl, fun c h => absurd h (List.not_mem_nil c)⟩
  | succ fuel ih =>
    unfold Nat.toDigitsCore
    by_cases h : n / 10 = 0
    · simp only [h, if_true]
      refine ⟨[Nat.digitChar (n % 10)], rfl, fun c hc => ?_⟩
      rw [List.mem_singleton.mp hc]
      exact ⟨n % 10, Nat.mod_lt _ (by decide), rfl⟩
    · simp only [h, if_false]
      obtain ⟨p, hp, hd⟩ := ih (n / 10) (Nat.digitChar (n % 10) :: ds)
      refine ⟨p ++ [Nat.digitChar (n % 10)], ?_, ?_⟩
      · rw [hp]
        simp
      · intro c hc
        rcases List.mem_append.mp hc with h1 | h1
        · exact hd c h1
        · rw [List.mem_singleton.mp h1]
          exact ⟨n % 10, Nat.mod_lt _ (by decide), rfl⟩

theorem toDigits_digits (n : Nat) :
    ∃ p, Nat.toDigits 10 n = p ++ [Nat.digitChar (n % 10)] ∧ ∀ c ∈ p, isDigitChar c := by
  unfold Nat.toDigits Nat.toDigitsCore
  by_cases h : n / 10 = 0
  · simp only [h, if_true]
    exact ⟨[], rfl, fun c h => absurd h (List.not_mem_nil c)⟩
  · simp only [h, if_false]
    exact toDigitsCore_digits n (n / 10) [Nat.digitChar (n % 10)]

theorem toDigits_eq_one (n : Nat) (h : Nat.toDigits 10 n = ['1']) : n = 1 := by
  unfold Nat.toDigits Nat.toDigitsCore at h
  by_cases h0 : n / 10 = 0
  · simp only [h0, if_true] at h
    have hn : n < 10 := by omega
    have hd : Nat.digitChar (n % 10) = '1' := by
      have := List.cons.inj h
      exact this.1
    rw [Nat.mod_eq_of_lt hn] at hd
    revert hd
    interval_cases n <;> decide
  · simp only [h0, if_false] at h
    cases n with
    | zero => exact absurd rfl h0
    | succ m =>
      exfalso
      unfold Nat.toDigitsCore at h
      by_cases h1 : (m + 1) / 10 / 10 = 0
      · simp only [h1, if_true] at h
        exact List.noConfusion (List.cons.inj h).2
      · simp only [h1, if_false] at h
        obtain ⟨p, hp, _⟩ := toDigitsCore_digits m ((m + 1) / 10 / 10)
          [Nat.digitChar ((m + 1) / 10 % 10), Nat.digitChar ((m + 1) % 10)]
        rw [hp] at h
        have hl := congrArg List.length h
        simp at hl

theorem fmtInt_data (v : Int) :
    ∃ p k, k < 10 ∧ (fmtInt v).data = p ++ [Nat.digitChar k] := by
  cases v with
  | ofNat m =>
    obtain ⟨p, hp, _⟩ := toDigits_digits m
    exact ⟨p, m % 10, Nat.mod_lt _ (by decide), hp⟩
  | negSucc m =>
    obtain ⟨p, hp, _⟩ := toDigits_digits (m + 1)
    refine ⟨'-' :: p, (m + 1) % 10, Nat.mod_lt _ (by decide), ?_⟩
    show ("-" ++ (Nat.toDigits 10 (m + 1)).asString).data = _
    simp [String.data_append, List.asString, hp]

theorem fmtInt_ne_of_last (v : Int) (s : String)
    (hs : ∀ k, k < 10 → s.data.getLast? ≠ some (Nat.digitChar k)) : fmtInt v ≠ s := by
  intro h
  obtain ⟨p, k, hk, hd⟩ := fmtInt_data v
  rw [h] at hd
  exact hs k hk (by rw [hd]; simp)

theorem fmtInt_ne_DEFAULT (v : Int) : fmtInt v ≠ "DEFAULT" :=
  fmtInt_ne_of_last v _ (by decide)

theorem fmtInt_ne_null (v : Int) : fmtInt v ≠ "null" :=
  fmtInt_ne_of_last v _ (by decide)

theorem fmtInt_eq_minus_one (v : Int) (h : fmtInt v = "-1") : v = -1 := by
  cases v with
  | ofNat m =>
    exfalso
    have hd : (Nat.toDigits 10 m) = ['-', '1'] := congrArg String.data h
    obtain ⟨p, hp, hdig⟩ := toDigits_digits m
    rw [hp] at hd
    cases p with
    | nil => exact List.noConfusion (List.cons.inj hd).2
    | cons c rest =>
      have hc : c = '-' := (List.cons.inj hd).1
      obtain ⟨k, hk, hck⟩ := hdig c (List.mem_cons_self _ _)
      rw [hc] at hck
      revert hck
      interval_cases k <;> decide
  | negSucc m =>
    have hd : ('-' :: Nat.toDigits 10 (m + 1)) = ['-', '1'] := by
      have h2 : ("-" ++ (Nat.toDigits 10 (m + 1)).asString).data = ['-', '1'] :=
        congrArg String.data h
      simpa [String.data_append, List.asString] using h2
    have h1 : m + 1 = 1 := toDigits_eq_one (m + 1) (List.cons.inj hd).2
    have h0 : m = 0 := by omega
    rw [h0]
    rfl

/-! ## Values of the inserts as lists -/

theorem addEdgeValues_steps (str : String) (edge : LWT_ISO_EDGE) (fields : Int) (full : Bool) :
    addEdgeValues str edge fields full =
      lastStep (hasField fields LWT_COL_EDGE_GEOM)
        (geomValueParts (edge.geom.map (fun l => lwgeom_to_hexwkb (lwline_as_lwgeom l))))
        (pairStep "," "," (hasField fields LWT_COL_EDGE_NEXT_RIGHT) full
          [fmtInt edge.next_right] [fmtInt (ABS edge.next_right)]
        (pairStep "," "," (hasField fields LWT_COL_EDGE_NEXT_LEFT) full
          [fmtInt edge.next_left] [fmtInt (ABS edge.next_left)]
        (partsStep "," (hasField fields LWT_COL_EDGE_FACE_RIGHT) [fmtInt edge.face_right]
        (partsStep "," (hasField fields LWT_COL_EDGE_FACE_LEFT) [fmtInt edge.face_left]
        (partsStep "," (hasField fields LWT_COL_EDGE_END_NODE) [fmtInt edge.end_node]
        (partsStep "," (hasField fields LWT_COL_EDGE_START_NODE) [fmtInt edge.start_node]
        (headStep "," (hasField fields LWT_COL_EDGE_EDGE_ID) [idValueText edge.edge_id]
          (str ++ "(", "")))))))) ++ ")" := by
  unfold addEdgeValues idValueText
  generalize (edge.edge_id != -1) = c0
  generalize edge.geom = g
  cases c0 <;> cases g <;> rfl

theorem geomValueParts_fold (hex : Option String) :
    (geomValueParts hex).foldl (· ++ ·) "" = geomValueText hex := by
  cases hex <;> rfl

theorem edgeInsertColumns_names (edge : LWT_ISO_EDGE) (fields : Int) (full : Bool) :
    (edgeInsertColumns edge fields full).map Prod.fst =
      projectionColumns (addEdgeFields "" fields full) := by
  rw [projectionColumns_addEdgeFields]
  simp only [edgeInsertColumns, canonicalEdgeColumns, List.map_append,
    apply_ite (List.map Prod.fst), List.map_cons, List.map_nil]

theorem addEdgeValues_list (str : String) (edge : LWT_ISO_EDGE) (fields : Int) (full : Bool) :
    addEdgeValues str edge fields full =
      str ++ "(" ++
        ",".intercalate ((edgeInsertColumns edge fields full).map Prod.snd) ++ ")" := by
  rw [addEdgeValues_steps, headStep_listState, partsStep_listState, partsStep_listState,
    partsStep_listState, partsStep_listState, pairStep_listState, pairStep_listState,
    lastStep_listState, geomValueParts_fold]
  simp only [edgeInsertColumns, List.map_append, apply_ite (List.map Prod.snd), List.map_cons,
    List.map_nil, List.foldl, String.empty_append]

theorem addNodeValues_steps (str : String) (node : LWT_ISO_NODE) (fields : Int) :
    addNodeValues str node fields =
      lastStep (hasField fields LWT_COL_NODE_GEOM)
        (geomValueParts (node.geom.map (fun p => lwgeom_to_hexwkb (lwpoint_as_lwgeom p))))
        (lastStep (hasField fields LWT_COL_NODE_CONTAINING_FACE)
            [faceRefValueText node.containing_face]
            (headStep "," (hasField fields LWT_COL_NODE_NODE_ID) [idValueText node.node_id]
              (str ++ "(", "")),
          (headStep "," (hasField fields LWT_COL_NODE_NODE_ID) [idValueText node.node_id]
              (str ++ "(", "")).2) ++ ")" := by
  unfold addNodeValues idValueText faceRefValueText
  generalize (node.node_id != -1) = c0
  generalize (node.containing_face != -1) = c1
  generalize node.geom = g
  cases c0 <;> cases c1 <;> cases g <;> rfl

theorem listState_cons (sep1 s v : String) (vs : List String) :
    (s ++ sep1.intercalate (v :: vs), sep1) = listState sep1 s (v :: vs) := rfl

theorem addNodeValues_list (str : String) (node : LWT_ISO_NODE) (fields : Int)
    (hid : hasField fields LWT_COL_NODE_NODE_ID = true) :
    addNodeValues str node fields =
      str ++ "(" ++ ",".intercalate ((nodeInsertColumns node fields).map Prod.snd) ++ ")" := by
  rw [addNodeValues_steps, hid, headStep_listState, lastStep_listState]
  simp only [if_true, List.cons_append, List.nil_append, List.foldl, String.empty_append]
  rw [show (listState "," (str ++ "(") [idValueText node.node_id]).2 = "," from rfl,
    listState_cons, lastStep_listState, geomValueParts_fold]
  simp only [nodeInsertColumns, hid, if_true, List.map_append, apply_ite (List.map Prod.snd),
    List.map_cons, List.map_nil, List.foldl, String.empty_append, List.cons_append,
    List.nil_append]

theorem addFaceValues_list (str : String) (face : LWT_ISO_FACE) (srid : Int) :
    addFaceValues str face srid =
      str ++ "(" ++ ",".intercalate
        [idValueText face.face_id,
         match face.mbr with
         | some box => fmtEnvelope box srid
         | none => "null"] ++ ")" := by
  unfold addFaceValues idValueText
  generalize (face.face_id != -1) = c0
  generalize face.mbr = g
  cases c0 <;> cases g <;>
    simp only [if_true, if_false, Bool.false_eq_true, String.intercalate,
      String.intercalate.go, String.append_assoc] <;> rfl

/-! ## C21: values and columns of a node insert -/

/-- C21 (code defect): for the field set {containing_face, geom} addNodeFields
renders the two column names containing_face,geom but addNodeValues renders
the two values with no comma between them, (5'0101'::geometry): the
containing_face block does not set the separator. With node_id in the field
set the values are separated, and addEdgeValues separates the values of every
field set. -/
theorem C21_node_values_not_separated :
    addNodeFields "" (LWT_COL_NODE_CONTAINING_FACE + LWT_COL_NODE_GEOM) = "containing_face,geom" ∧
    addNodeValues "" nodeInFace5 (LWT_COL_NODE_CONTAINING_FACE + LWT_COL_NODE_GEOM) =
      "(5'0101'::geometry)" ∧
    addNodeValues "" nodeInFace5 LWT_COL_NODE_ALL = "(7,5,'0101'::geometry)" ∧
    addEdgeValues "" sampleEdge (LWT_COL_EDGE_START_NODE + LWT_COL_EDGE_GEOM) false =
      "(1,'0102'::geometry)" := by
  decide

/-! ## C24, C25, C30: NULL columns in fillEdgeFields, fillNodeFields, fillFaceFields -/

/-- C24 (code defect): a NULL identifier column is materialized as 0, not -1,
by all three materializers (fillEdgeFields assigns -1 and then overwrites it
with the value read from the NULL datum; the other two have no NULL test); the
remaining fields of the row and the remaining rows are decoded. -/
theorem C24_null_identifier_reads_as_zero :
    (fillEdgeFields sampleEdge [none, some (Datum.word 4)]
        (LWT_COL_EDGE_EDGE_ID + LWT_COL_EDGE_START_NODE)).edge_id = 0 ∧
    (fillEdgeFields sampleEdge [none, some (Datum.word 4)]
        (LWT_COL_EDGE_EDGE_ID + LWT_COL_EDGE_START_NODE)).start_node = 4 ∧
    (fillNodeFields node7 [none] LWT_COL_NODE_NODE_ID).node_id = 0 ∧
    (fillFaceFields face3 [none] LWT_COL_FACE_FACE_ID).face_id = 0 ∧
    (fillRows fillEdgeFields (fun _ => sampleEdge) [[none], [some (Datum.word 9)]]
        LWT_COL_EDGE_EDGE_ID 2).map (fun e => e.edge_id) = [0, 9] := by
  decide

/-- C25 (code defect): for a NULL left_face (right_face) column fillEdgeFields
sets face_left (face_right) to 0, the value read from the NULL datum, and
writes the -1 to start_node. -/
theorem C25_null_face_reads_as_zero :
    (fillEdgeFields edgeInFaces [none] LWT_COL_EDGE_FACE_LEFT).face_left = 0 ∧
    (fillEdgeFields edgeInFaces [none] LWT_COL_EDGE_FACE_LEFT).start_node = -1 ∧
    (fillEdgeFields edgeInFaces [none] LWT_COL_EDGE_FACE_RIGHT).face_right = 0 ∧
    (fillEdgeFields edgeInFaces [none] LWT_COL_EDGE_FACE_RIGHT).start_node = -1 := by
  decide

/-- C30 (code defect): materializing the field set {end_node} from a row whose
end_node column is NULL changes start_node, a field that was not requested,
from 1 to -1. -/
theorem C30_null_column_overwrites_start_node :
    hasField LWT_COL_EDGE_END_NODE LWT_COL_EDGE_START_NODE = false ∧
    sampleEdge.start_node = 1 ∧
    (fillEdgeFields sampleEdge [none] LWT_COL_EDGE_END_NODE).start_node = -1 := by
  decide

/-! ## C29: the last error message -/

theorem cberror_message (be : Backend) (msg : String) :
    cb_lastErrorMessage (cberror be msg) = String.mk (msg.data.take (MAXERRLEN - 1)) := rfl

/-- C29: after a sequence of recorded failures cb_lastErrorMessage returns the
text of the last one cut to its first 255 characters: at most 255 characters
long, and the text itself when it is not longer. -/
theorem C29_last_error_is_latest_truncated (be : Backend) (earlier : List String)
    (msg : String) :
    cb_lastErrorMessage ((earlier ++ [msg]).foldl cberror be) =
        String.mk (msg.data.take 255) ∧
    (cb_lastErrorMessage ((earlier ++ [msg]).foldl cberror be)).length ≤ 255 ∧
    (msg.length ≤ 255 →
      cb_lastErrorMessage ((earlier ++ [msg]).foldl cberror be) = msg) := by
  rw [List.foldl_append]
  simp only [List.foldl, cberror_message]
  refine ⟨rfl, ?_, fun h => ?_⟩
  · show (msg.data.take (MAXERRLEN - 1)).length ≤ 255
    rw [List.length_take]
    exact Nat.min_le_left _ _
  · show String.mk (msg.data.take (MAXERRLEN - 1)) = msg
    rw [List.take_of_length_le]
    exact h

/-! ## C22: the identifier value of an insert -/

theorem idValueText_unset : idValueText (-1) = "DEFAULT" := rfl

theorem idValueText_set (id : LWT_ELEMID) (h : id ≠ -1) : idValueText id = fmtInt id := by
  unfold idValueText
  rw [if_pos]
  simpa using h

theorem idValueText_facts (id : LWT_ELEMID) :
    (idValueText id = "DEFAULT" ↔ id = -1) ∧
    (id ≠ -1 → idValueText id = fmtInt id) ∧
    idValueText id ≠ "-1" := by
  by_cases h : id = -1
  · subst h
    exact ⟨⟨fun _ => rfl, fun _ => rfl⟩, fun h => absurd rfl h, by decide⟩
  · rw [idValueText_set id h]
    exact ⟨⟨fun e => absurd e (fmtInt_ne_DEFAULT id), fun e => absurd e h⟩, fun _ => rfl,
      fun e => h (fmtInt_eq_minus_one id e)⟩

theorem edgeInsertColumns_head (edge : LWT_ISO_EDGE) (fields : Int) (full : Bool)
    (id : LWT_ELEMID) (he : hasField fields LWT_COL_EDGE_EDGE_ID = true) :
    (edgeInsertColumns { edge with edge_id := id } fields full).map Prod.snd =
      idValueText id :: ((edgeInsertColumns edge fields full).map Prod.snd).tail := by
  simp only [edgeInsertColumns, he, if_true, List.cons_append, List.nil_append,
    List.append_assoc, List.map_cons, List.tail_cons]

theorem nodeInsertColumns_head (node : LWT_ISO_NODE) (fields : Int)
    (id : LWT_ELEMID) (hn : hasField fields LWT_COL_NODE_NODE_ID = true) :
    (nodeInsertColumns { node with node_id := id } fields).map Prod.snd =
      idValueText id :: ((nodeInsertColumns node fields).map Prod.snd).tail := by
  simp only [nodeInsertColumns, hn, if_true, List.cons_append, List.nil_append,
    List.append_assoc, List.map_cons, List.tail_cons]

/-- C22: with the identifier field requested, the first value of the list
rendered by addEdgeValues and addNodeValues, and the first value rendered by
addFaceValues, is a text of the identifier alone (the other values do not
depend on it); that text is DEFAULT exactly when the identifier is -1, is the
decimal text of the identifier otherwise, and is never the text -1. -/
theorem C22_unset_identifier_renders_default (str : String) (edge : LWT_ISO_EDGE)
    (node : LWT_ISO_NODE) (face : LWT_ISO_FACE) (efields nfields srid : Int) (full : Bool)
    (he : hasField efields LWT_COL_EDGE_EDGE_ID = true)
    (hn : hasField nfields LWT_COL_NODE_NODE_ID = true) :
    (∃ rest : List String, ∀ id : LWT_ELEMID,
      addEdgeValues str { edge with edge_id := id } efields full =
        str ++ "(" ++ ",".intercalate (idValueText id :: rest) ++ ")") ∧
    (∃ rest : List String, ∀ id : LWT_ELEMID,
      addNodeValues str { node with node_id := id } nfields =
        str ++ "(" ++ ",".intercalate (idValueText id :: rest) ++ ")") ∧
    (∃ rest : List String, ∀ id : LWT_ELEMID,
      addFaceValues str { face with face_id := id } srid =
        str ++ "(" ++ ",".intercalate (idValueText id :: rest) ++ ")") ∧
    (∀ id : LWT_ELEMID,
      (idValueText id = "DEFAULT" ↔ id = -1) ∧
      (id ≠ -1 → idValueText id = fmtInt id) ∧
      idValueText id ≠ "-1") := by
  refine ⟨⟨((edgeInsertColumns edge efields full).map Prod.snd).tail, fun id => ?_⟩,
    ⟨((nodeInsertColumns node nfields).map Prod.snd).tail, fun id => ?_⟩,
    ⟨[match face.mbr with
      | some box => fmtEnvelope box srid
      | none => "null"], fun id => ?_⟩, idValueText_facts⟩
  · rw [addEdgeValues_list, edgeInsertColumns_head edge efields full id he]
  · rw [addNodeValues_list _ _ _ hn, nodeInsertColumns_head node nfields id hn]
  · rw [addFaceValues_list]

theorem C22_unset_identifier_renders_default_witness :
    (∃ rest : List String, ∀ id : LWT_ELEMID,
      addEdgeValues "" { sampleEdge with edge_id := id } LWT_COL_EDGE_ALL true =
        "" ++ "(" ++ ",".intercalate (idValueText id :: rest) ++ ")") ∧
    (∃ rest : List String, ∀ id : LWT_ELEMID,
      addNodeValues "" { node7 with node_id := id } LWT_COL_NODE_ALL =
        "" ++ "(" ++ ",".intercalate (idValueText id :: rest) ++ ")") ∧
    (∃ rest : List String, ∀ id : LWT_ELEMID,
      addFaceValues "" { face3 with face_id := id } 4326 =
        "" ++ "(" ++ ",".intercalate (idValueText id :: rest) ++ ")") ∧
    (∀ id : LWT_ELEMID,
      (idValueText id = "DEFAULT" ↔ id = -1) ∧
      (id ≠ -1 → idValueText id = fmtInt id) ∧
      idValueText id ≠ "-1") :=
  C22_unset_identifier_renders_default "" sampleEdge node7 face3 LWT_COL_EDGE_ALL
    LWT_COL_NODE_ALL 4326 true (by decide) (by decide)

/-! ## C23: the abs_ columns of an insert -/

theorem ABS_eq_abs (x : Int) (h : isInt64 x) (hmin : x ≠ -9223372036854775808) :
    ABS x = |x| ∧ 0 ≤ ABS x := by
  unfold isInt64 at h
  unfold ABS neg64 toInt64
  by_cases hx : x < 0
  · rw [if_pos hx, abs_of_neg hx]
    constructor <;> omega
  · rw [if_neg hx, abs_of_nonneg (by omega)]
    constructor <;> omega

/-- C23 (counterexample): the least 64-bit integer is a next-left edge whose
abs_next_left_edge value is rendered negative: ABS wraps back to it. -/
theorem C23_abs_of_least_int64_is_negative :
    isInt64 edgeAtInt64Min.next_left ∧
    ABS edgeAtInt64Min.next_left < 0 ∧
    addEdgeFields "" LWT_COL_EDGE_NEXT_LEFT true = "next_left_edge, abs_next_left_edge" ∧
    addEdgeValues "" edgeAtInt64Min LWT_COL_EDGE_NEXT_LEFT true =
      "(-9223372036854775808,-9223372036854775808)" := by
  decide

/-- C23 (amended): in full-edge-data mode addEdgeValues renders the
comma-joined list of the values of edgeInsertColumns, whose names are the
columns rendered by addEdgeFields, so there are as many values as columns; the
value of abs_next_left_edge (abs_next_right_edge) immediately follows the
signed next_left (next_right) value and is ABS of it, which is its absolute
value and non-negative for every 64-bit identifier other than the least one,
-9223372036854775808. -/
theorem C23_abs_columns_follow_signed (str : String) (edge : LWT_ISO_EDGE) (fields : Int) :
    addEdgeValues str edge fields true =
      str ++ "(" ++ ",".intercalate ((edgeInsertColumns edge fields true).map Prod.snd) ++ ")" ∧
    (edgeInsertColumns edge fields true).map Prod.fst =
      projectionColumns (addEdgeFields "" fields true) ∧
    ((edgeInsertColumns edge fields true).map Prod.snd).length =
      (projectionColumns (addEdgeFields "" fields true)).length ∧
    (hasField fields LWT_COL_EDGE_NEXT_LEFT = true →
      ∃ before after, edgeInsertColumns edge fields true =
        before ++ [("next_left_edge", fmtInt edge.next_left),
                   ("abs_next_left_edge", fmtInt (ABS edge.next_left))] ++ after) ∧
    (hasField fields LWT_COL_EDGE_NEXT_RIGHT = true →
      ∃ before after, edgeInsertColumns edge fields true =
        before ++ [("next_right_edge", fmtInt edge.next_right),
                   ("abs_next_right_edge", fmtInt (ABS edge.next_right))] ++ after) ∧
    (∀ x : LWT_ELEMID, isInt64 x → x ≠ -9223372036854775808 → ABS x = |x| ∧ 0 ≤ ABS x) := by
  refine ⟨addEdgeValues_list str edge fields true, edgeInsertColumns_names edge fields true,
    ?_, fun hl => ?_, fun hr => ?_, ABS_eq_abs⟩
  · rw [← edgeInsertColumns_names edge fields true, List.length_map, List.length_map]
  · unfold edgeInsertColumns
    rw [hl]
    simp only [if_true]
    exact ⟨_, _, List.append_assoc _ _ _⟩
  · unfold edgeInsertColumns
    rw [hr]
    simp only [if_true]
    exact ⟨_, _, rfl⟩

theorem C23_abs_columns_follow_signed_witness :
    (∃ before after, edgeInsertColumns sampleEdge LWT_COL_EDGE_ALL true =
        before ++ [("next_left_edge", fmtInt sampleEdge.next_left),
                   ("abs_next_left_edge", fmtInt (ABS sampleEdge.next_left))] ++ after) ∧
    (∃ before after, edgeInsertColumns sampleEdge LWT_COL_EDGE_ALL true =
        before ++ [("next_right_edge", fmtInt sampleEdge.next_right),
                   ("abs_next_right_edge", fmtInt (ABS sampleEdge.next_right))] ++ after) ∧
    (ABS (-7) = |(-7 : Int)| ∧ 0 ≤ ABS (-7)) :=
  ⟨(C23_abs_columns_follow_signed "" sampleEdge LWT_COL_EDGE_ALL).2.2.2.1 (by decide),
   (C23_abs_columns_follow_signed "" sampleEdge LWT_COL_EDGE_ALL).2.2.2.2.1 (by decide),
   (C23_abs_columns_follow_signed "" sampleEdge LWT_COL_EDGE_ALL).2.2.2.2.2 (-7)
     (by decide) (by decide)⟩

/-! ## C27: absent geometry -/

theorem readColumns_snoc {α : Type} (fill : String → α → Datum × Bool → α)
    (names : List String) (name : String) (row : HeapTuple) (colno : Nat) (rec : α) :
    readColumns fill (names ++ [name]) row colno rec =
      fill name (readColumns fill names row colno rec)
        (SPI_getbinval row (colno + names.length)) := by
  induction names generalizing colno rec with
  | nil => rfl
  | cons n rest ih =>
    show readColumns fill (rest ++ [name]) row (colno + 1) (fill n rec (SPI_getbinval row colno)) =
      fill name (readColumns fill rest row (colno + 1) (fill n rec (SPI_getbinval row colno)))
        (SPI_getbinval row (colno + (rest.length + 1)))
    rw [ih, show colno + 1 + rest.length = colno + (rest.length + 1) by omega]

theorem fillEdgeColumn_geom_null (edge : LWT_ISO_EDGE) (cell : Datum × Bool)
    (h : cell.2 = true) : (fillEdgeColumn "geom" edge cell).geom = none := by
  simp [fillEdgeColumn, h]

theorem fillNodeColumn_geom_null (node : LWT_ISO_NODE) (cell : Datum × Bool)
    (h : cell.2 = true) : (fillNodeColumn "geom" node cell).geom = none := by
  simp [fillNodeColumn, h]

theorem fillEdgeFields_geom_null (edge : LWT_ISO_EDGE) (row : HeapTuple) (fields : Int)
    (hg : hasField fields LWT_COL_EDGE_GEOM = true)
    (hnull : (SPI_getbinval row
      (projectionColumns (addEdgeFields "" fields false)).length).2 = true) :
    (fillEdgeFields edge row fields).geom = none := by
  rw [fillEdgeFields_readColumns]
  rw [projectionColumns_addEdgeFields] at hnull ⊢
  unfold canonicalEdgeColumns at hnull ⊢
  rw [hg] at hnull ⊢
  simp only [if_true] at hnull ⊢
  rw [readColumns_snoc]
  rw [List.length_append, List.length_singleton, Nat.add_comm] at hnull
  exact fillEdgeColumn_geom_null _ _ hnull

theorem projectionColumns_addNodeFields_geom (fields : Int)
    (hg : hasField fields LWT_COL_NODE_GEOM = true) :
    projectionColumns (addNodeFields "" fields) =
      ((if hasField fields LWT_COL_NODE_NODE_ID then ["node_id"] else []) ++
       (if hasField fields LWT_COL_NODE_CONTAINING_FACE then ["containing_face"] else [])) ++
      ["geom"] := by
  unfold addNodeFields
  rw [hg]
  generalize hasField fields LWT_COL_NODE_NODE_ID = b0
  generalize hasField fields LWT_COL_NODE_CONTAINING_FACE = b1
  cases b0 <;> cases b1 <;> rfl

theorem fillNodeFields_geom_null (node : LWT_ISO_NODE) (row : HeapTuple) (fields : Int)
    (hg : hasField fields LWT_COL_NODE_GEOM = true)
    (hnull : (SPI_getbinval row (projectionColumns (addNodeFields "" fields)).length).2 = true) :
    (fillNodeFields node row fields).geom = none := by
  rw [fillNodeFields_readColumns]
  rw [projectionColumns_addNodeFields_geom fields hg] at hnull ⊢
  rw [readColumns_snoc]
  rw [List.length_append, List.length_singleton, Nat.add_comm] at hnull
  exact fillNodeColumn_geom_null _ _ hnull

theorem edgeInsertColumns_last (edge : LWT_ISO_EDGE) (fields : Int) (full : Bool)
    (g : Option LWLINE) (hg : hasField fields LWT_COL_EDGE_GEOM = true) :
    (edgeInsertColumns { edge with geom := g } fields full).map Prod.snd =
      ((edgeInsertColumns edge fields full).map Prod.snd).dropLast ++
        [geomValueText (g.map (fun l => lwgeom_to_hexwkb (lwline_as_lwgeom l)))] := by
  simp only [edgeInsertColumns, hg, if_true, List.map_append, List.map_cons, List.map_nil,
    List.dropLast_concat]

theorem nodeInsertColumns_last (node : LWT_ISO_NODE) (fields : Int)
    (g : Option LWPOINT) (hg : hasField fields LWT_COL_NODE_GEOM = true) :
    (nodeInsertColumns { node with geom := g } fields).map Prod.snd =
      ((nodeInsertColumns node fields).map Prod.snd).dropLast ++
        [geomValueText (g.map (fun p => lwgeom_to_hexwkb (lwpoint_as_lwgeom p)))] := by
  simp only [nodeInsertColumns, hg, if_true, List.map_append, List.map_cons, List.map_nil,
    List.dropLast_concat]

theorem lastStep_selected (ps : List String) (st : String × String) :
    lastStep true ps st = st.1 ++ st.2 ++ ps.foldl (· ++ ·) "" := by
  unfold lastStep
  rw [if_pos rfl, foldl_append_hom]

theorem addNodeValues_geom_suffix (str : String) (node : LWT_ISO_NODE) (fields : Int)
    (g : Option LWPOINT) (hg : hasField fields LWT_COL_NODE_GEOM = true) :
    addNodeValues str { node with geom := g } fields =
      lastStep (hasField fields LWT_COL_NODE_CONTAINING_FACE)
          [faceRefValueText node.containing_face]
          (headStep "," (hasField fields LWT_COL_NODE_NODE_ID) [idValueText node.node_id]
            (str ++ "(", "")) ++
        (headStep "," (hasField fields LWT_COL_NODE_NODE_ID) [idValueText node.node_id]
            (str ++ "(", "")).2 ++
        geomValueText (g.map (fun p => lwgeom_to_hexwkb (lwpoint_as_lwgeom p))) ++ ")" := by
  rw [addNodeValues_steps, hg, lastStep_selected, geomValueParts_fold]

/-- C27: with the geometry field requested, the last value of the list rendered
by addEdgeValues (and by addNodeValues, which closes its text with the
geometry value) is the geometry literal, the text null for an absent geometry,
and the values before it do not depend on the geometry, so that a record
without geometry renders as many values as one with geometry; fillEdgeFields
and fillNodeFields return a record with absent geometry for every row whose
geometry column, the last column of the projection, is NULL. -/
theorem C27_absent_geometry_is_null (str : String) (edge : LWT_ISO_EDGE) (node : LWT_ISO_NODE)
    (efields nfields : Int) (full : Bool)
    (he : hasField efields LWT_COL_EDGE_GEOM = true)
    (hn : hasField nfields LWT_COL_NODE_GEOM = true) :
    geomValueText none = "null" ∧
    (∃ init : List String, ∀ g : Option LWLINE,
      addEdgeValues str { edge with geom := g } efields full =
        str ++ "(" ++ ",".intercalate
          (init ++ [geomValueText (g.map (fun l => lwgeom_to_hexwkb (lwline_as_lwgeom l)))]) ++
          ")") ∧
    (∃ pre : String, ∀ g : Option LWPOINT,
      addNodeValues str { node with geom := g } nfields =
        pre ++ geomValueText (g.map (fun p => lwgeom_to_hexwkb (lwpoint_as_lwgeom p))) ++ ")") ∧
    (hasField nfields LWT_COL_NODE_NODE_ID = true →
      ∃ init : List String, ∀ g : Option LWPOINT,
        addNodeValues str { node with geom := g } nfields =
          str ++ "(" ++ ",".intercalate
            (init ++ [geomValueText (g.map (fun p => lwgeom_to_hexwkb (lwpoint_as_lwgeom p)))]) ++
            ")") ∧
    (∀ row : HeapTuple,
      (SPI_getbinval row (projectionColumns (addEdgeFields "" efields false)).length).2 = true →
      (fillEdgeFields edge row efields).geom = none) ∧
    (∀ row : HeapTuple,
      (SPI_getbinval row (projectionColumns (addNodeFields "" nfields)).length).2 = true →
      (fillNodeFields node row nfields).geom = none) := by
  refine ⟨rfl,
    ⟨((edgeInsertColumns edge efields full).map Prod.snd).dropLast, fun g => ?_⟩,
    ⟨_, fun g => addNodeValues_geom_suffix str node nfields g hn⟩,
    fun hid => ⟨((nodeInsertColumns node nfields).map Prod.snd).dropLast, fun g => ?_⟩,
    fun row h => fillEdgeFields_geom_null edge row efields he h,
    fun row h => fillNodeFields_geom_null node row nfields hn h⟩
  · rw [addEdgeValues_list, edgeInsertColumns_last edge efields full g he]
  · rw [addNodeValues_list _ _ _ hid, nodeInsertColumns_last node nfields g hn]

theorem C27_absent_geometry_is_null_witness :
    hasField LWT_COL_EDGE_ALL LWT_COL_EDGE_GEOM = true ∧
    hasField LWT_COL_NODE_ALL LWT_COL_NODE_GEOM = true ∧
    (fillEdgeFields sampleEdge (edgeRow blankEdge LWT_COL_EDGE_ALL) LWT_COL_EDGE_ALL).geom =
      none :=
  ⟨by decide, by decide,
   (C27_absent_geometry_is_null "" sampleEdge node7 LWT_COL_EDGE_ALL LWT_COL_NODE_ALL true
      (by decide) (by decide)).2.2.2.2.1 (edgeRow blankEdge LWT_COL_EDGE_ALL) (by decide)⟩

/-! ## C26: the containing face of a node -/

theorem lastStep_prefix (sel : Bool) (ps : List String) (a sep : String) :
    lastStep sel ps (a, sep) = a ++ lastStep sel ps ("", sep) := by
  cases sel
  · simp [lastStep]
  · rw [lastStep_selected, lastStep_selected]
    simp only [String.append_assoc, String.empty_append]

theorem addNodeValues_face_infix (str : String) (node : LWT_ISO_NODE) (fields : Int)
    (cf : LWT_ELEMID) (hcf : hasField fields LWT_COL_NODE_CONTAINING_FACE = true) :
    addNodeValues str { node with containing_face := cf } fields =
      (headStep "," (hasField fields LWT_COL_NODE_NODE_ID) [idValueText node.node_id]
          (str ++ "(", "")).1 ++
        (headStep "," (hasField fields LWT_COL_NODE_NODE_ID) [idValueText node.node_id]
          (str ++ "(", "")).2 ++
        faceRefValueText cf ++
        (lastStep (hasField fields LWT_COL_NODE_GEOM)
          (geomValueParts (node.geom.map (fun p => lwgeom_to_hexwkb (lwpoint_as_lwgeom p))))
          ("", (headStep "," (hasField fields LWT_COL_NODE_NODE_ID) [idValueText node.node_id]
            (str ++ "(", "")).2) ++ ")") := by
  rw [addNodeValues_steps, hcf, lastStep_prefix, lastStep_selected]
  simp only [List.foldl, String.empty_append, String.append_assoc]

theorem faceRefValueText_facts (cf : LWT_ELEMID) :
    (faceRefValueText cf = "null" ↔ cf = -1) ∧
    (cf ≠ -1 → faceRefValueText cf = fmtInt cf) := by
  by_cases h : cf = -1
  · subst h
    exact ⟨⟨fun _ => rfl, fun _ => rfl⟩, fun h => absurd rfl h⟩
  · have e : faceRefValueText cf = fmtInt cf := by
      unfold faceRefValueText
      rw [if_pos]
      simpa using h
    rw [e]
    exact ⟨⟨fun e => absurd e (fmtInt_ne_null cf), fun e => absurd e h⟩, fun _ => rfl⟩

theorem fillNodeFields_containing_face (node : LWT_ISO_NODE) (row : HeapTuple) (fields : Int)
    (hcf : hasField fields LWT_COL_NODE_CONTAINING_FACE = true) :
    (fillNodeFields node row fields).containing_face =
      if (SPI_getbinval row (containingFaceColumn fields)).2 then -1
      else DatumGetInt32 (SPI_getbinval row (containingFaceColumn fields)).1 := by
  unfold fillNodeFields containingFaceColumn
  rw [hcf]
  generalize hasField fields LWT_COL_NODE_NODE_ID = b0
  generalize hasField fields LWT_COL_NODE_GEOM = b2
  cases b0 <;> cases b2 <;>
    simp only [if_true, if_false, Bool.false_eq_true, Nat.zero_add, Nat.reduceAdd] <;>
    split_ifs <;> rfl

theorem containingFaceColumn_ne_zero (fields : Int) : containingFaceColumn fields ≠ 0 := by
  unfold containingFaceColumn
  split <;> decide

theorem SPI_getbinval_null_cell (row : HeapTuple) (fields : Int)
    (h : row.get? (containingFaceColumn fields - 1) = some none) :
    SPI_getbinval row (containingFaceColumn fields) = (Datum.word 0, true) := by
  unfold SPI_getbinval
  rw [if_neg (containingFaceColumn_ne_zero fields), h]

theorem SPI_getbinval_value_cell (row : HeapTuple) (fields : Int) (d : Datum)
    (h : row.get? (containingFaceColumn fields - 1) = some (some d)) :
    SPI_getbinval row (containingFaceColumn fields) = (d, false) := by
  unfold SPI_getbinval
  rw [if_neg (containingFaceColumn_ne_zero fields), h]

/-- C26: with the containing_face field requested, addNodeValues renders the
containing face as one text between parts that do not depend on it: null for
-1 and the decimal text for every other value; fillNodeFields decodes a NULL
containing_face column as -1 and any other content as its 32-bit value; so a
row holding what was rendered (NULL for null, the integer otherwise) is decoded
to the original containing face, for every value of the 32-bit range. -/
theorem C26_containing_face_round_trip (str : String) (node : LWT_ISO_NODE) (fields : Int)
    (hcf : hasField fields LWT_COL_NODE_CONTAINING_FACE = true) :
    (∃ pre post : String, ∀ cf : LWT_ELEMID,
      addNodeValues str { node with containing_face := cf } fields =
        pre ++ faceRefValueText cf ++ post) ∧
    (∀ cf : LWT_ELEMID,
      (faceRefValueText cf = "null" ↔ cf = -1) ∧ (cf ≠ -1 → faceRefValueText cf = fmtInt cf)) ∧
    (∀ row : HeapTuple, row.get? (containingFaceColumn fields - 1) = some none →
      (fillNodeFields node row fields).containing_face = -1) ∧
    (∀ (row : HeapTuple) (d : Datum),
      row.get? (containingFaceColumn fields - 1) = some (some d) →
      (fillNodeFields node row fields).containing_face = DatumGetInt32 d) ∧
    (∀ (cf : LWT_ELEMID) (row : HeapTuple), isInt32 cf →
      row.get? (containingFaceColumn fields - 1) = some (faceRefCell cf) →
      (fillNodeFields node row fields).containing_face = cf) := by
  refine ⟨⟨_, _, fun cf => addNodeValues_face_infix str node fields cf hcf⟩,
    faceRefValueText_facts, fun row h => ?_, fun row d h => ?_, fun cf row h32 h => ?_⟩
  · rw [fillNodeFields_containing_face node row fields hcf, SPI_getbinval_null_cell row fields h]
    rfl
  · rw [fillNodeFields_containing_face node row fields hcf,
      SPI_getbinval_value_cell row fields d h]
    rfl
  · by_cases hm : cf = -1
    · subst hm
      rw [fillNodeFields_containing_face node row fields hcf,
        SPI_getbinval_null_cell row fields h]
      rfl
    · have e : faceRefCell cf = some (Datum.word cf) := by
        unfold faceRefCell
        rw [if_pos]
        simpa using hm
      rw [e] at h
      rw [fillNodeFields_containing_face node row fields hcf,
        SPI_getbinval_value_cell row fields _ h]
      exact toInt32_of_isInt32 h32

theorem C26_containing_face_round_trip_witness :
    hasField LWT_COL_NODE_ALL LWT_COL_NODE_CONTAINING_FACE = true ∧
    (fillNodeFields node7 [some (Datum.word 7), faceRefCell 5, none]
      LWT_COL_NODE_ALL).containing_face = 5 ∧
    (fillNodeFields node7 [some (Datum.word 7), faceRefCell (-1), none]
      LWT_COL_NODE_ALL).containing_face = -1 :=
  ⟨by decide,
   (C26_containing_face_round_trip "" node7 LWT_COL_NODE_ALL (by decide)).2.2.2.2 5
     [some (Datum.word 7), faceRefCell 5, none] (by decide) (by decide),
   (C26_containing_face_round_trip "" node7 LWT_COL_NODE_ALL (by decide)).2.2.2.2 (-1)
     [some (Datum.word 7), faceRefCell (-1), none] (by decide) (by decide)⟩

/-! ## C28: the terms of an edge update clause -/

theorem addEdgeUpdate_steps (str : String) (edge : LWT_ISO_EDGE) (fields : Int) (full : Bool)
    (updType : UpdateType) :
    addEdgeUpdate str edge fields full updType =
      lastStep (hasField fields LWT_COL_EDGE_GEOM)
        ["geom", updOp updType, "'", hexOfLine edge.geom, "'::geometry"]
        (pairStep (updSep1 updType) (updSep1 updType) (hasField fields LWT_COL_EDGE_NEXT_RIGHT)
          full ["next_right_edge", updOp updType, " ", fmtInt edge.next_right]
          [" abs_next_right_edge", updOp updType, " ", fmtInt (ABS edge.next_right)]
        (pairStep (updSep1 updType) (updSep1 updType) (hasField fields LWT_COL_EDGE_NEXT_LEFT)
          full ["next_left_edge", updOp updType, " ", fmtInt edge.next_left]
          [" abs_next_left_edge", updOp updType, " ", fmtInt (ABS edge.next_left)]
        (partsStep (updSep1 updType) (hasField fields LWT_COL_EDGE_FACE_RIGHT)
          ["right_face", updOp updType, " ", fmtInt edge.face_right]
        (partsStep (updSep1 updType) (hasField fields LWT_COL_EDGE_FACE_LEFT)
          ["left_face", updOp updType, " ", fmtInt edge.face_left]
        (partsStep (updSep1 updType) (hasField fields LWT_COL_EDGE_END_NODE)
          ["end_node", updOp updType, " ", fmtInt edge.end_node]
        (partsStep (updSep1 updType) (hasField fields LWT_COL_EDGE_START_NODE)
          ["start_node ", updOp updType, " ", fmtInt edge.start_node]
        (headStep (updSep1 updType) (hasField fields LWT_COL_EDGE_EDGE_ID)
          ["edge_id ", updOp updType, " ", fmtInt edge.edge_id] (str, "")))))))) := rfl

theorem addEdgeUpdate_list (str : String) (edge : LWT_ISO_EDGE) (fields : Int) (full : Bool)
    (updType : UpdateType) :
    addEdgeUpdate str edge fields full updType =
      str ++ (updSep1 updType).intercalate
        (edgeUpdateTerms (updOp updType) edge fields full) := by
  rw [addEdgeUpdate_steps, headStep_listState, partsStep_listState, partsStep_listState,
    partsStep_listState, partsStep_listState, pairStep_listState, pairStep_listState,
    lastStep_listState]
  simp only [edgeUpdateTerms, List.foldl, String.empty_append]

theorem edgeUpdateColumns_names (edge : LWT_ISO_EDGE) (fields : Int) (full : Bool) :
    (edgeUpdateColumns edge fields full).map Prod.fst =
      projectionColumns (addEdgeFields "" fields full) := by
  rw [projectionColumns_addEdgeFields]
  simp only [edgeUpdateColumns, canonicalEdgeColumns, List.map_append,
    apply_ite (List.map Prod.fst), List.map_cons, List.map_nil]

theorem dropBlanks_append (a b : String) :
    dropBlanks (a ++ b) = dropBlanks a ++ dropBlanks b := by
  unfold dropBlanks
  rw [String.data_append, List.filter_append]
  rfl

theorem map_ite_list {α β : Type} (f : α → β) (c : Bool) (a b : List α) :
    List.map f (if c = true then a else b) = if c = true then List.map f a else List.map f b := by
  cases c <;> rfl

theorem edgeUpdateTerms_plain (op : String) (edge : LWT_ISO_EDGE) (fields : Int) (full : Bool) :
    (edgeUpdateTerms op edge fields full).map dropBlanks =
      (edgeUpdateColumns edge fields full).map (fun cv => dropBlanks (plainTerm op cv)) := by
  simp only [edgeUpdateTerms, edgeUpdateColumns, plainTerm, List.map_append, map_ite_list,
    List.map_cons, List.map_nil, dropBlanks_append,
    show dropBlanks "edge_id " = dropBlanks "edge_id" from by decide,
    show dropBlanks "start_node " = dropBlanks "start_node" from by decide,
    show dropBlanks " abs_next_left_edge" = dropBlanks "abs_next_left_edge" from by decide,
    show dropBlanks " abs_next_right_edge" = dropBlanks "abs_next_right_edge" from by decide,
    show dropBlanks " " = "" from by decide, String.append_empty, String.empty_append,
    String.append_assoc]

/-- C28: for an edge with geometry present, addEdgeUpdate renders the terms of
edgeUpdateTerms joined by the separator of the mode, with nothing before the
first and nothing after the last; without blanks every term is the text
column op value of one entry of edgeUpdateColumns, whose columns are those of
addEdgeFields for the field set and mode (canonical order, every next-edge
column followed by its abs_ column in full-edge-data mode); op is = for SET and
MATCH and != for EXCLUDE, the separator is a comma for SET and AND between
blanks for MATCH and EXCLUDE. -/
theorem C28_update_terms_joined (str : String) (edge : LWT_ISO_EDGE) (line : LWLINE)
    (fields : Int) (full : Bool) (updType : UpdateType) (hgeom : edge.geom = some line) :
    addEdgeUpdate str edge fields full updType =
      str ++ (updSep1 updType).intercalate
        (edgeUpdateTerms (updOp updType) edge fields full) ∧
    (edgeUpdateTerms (updOp updType) edge fields full).map dropBlanks =
      (edgeUpdateColumns edge fields full).map
        (fun cv => dropBlanks (plainTerm (updOp updType) cv)) ∧
    (edgeUpdateColumns edge fields full).map Prod.fst =
      projectionColumns (addEdgeFields "" fields full) ∧
    hexOfLine edge.geom = lwgeom_to_hexwkb (lwline_as_lwgeom line) ∧
    (updOp UpdateType.updSet = "=" ∧ updOp UpdateType.updSel = "=" ∧
      updOp UpdateType.updNot = "!=") ∧
    (updSep1 UpdateType.updSet = "," ∧ updSep1 UpdateType.updSel = " AND " ∧
      updSep1 UpdateType.updNot = " AND ") := by
  refine ⟨addEdgeUpdate_list str edge fields full updType,
    edgeUpdateTerms_plain (updOp updType) edge fields full,
    edgeUpdateColumns_names edge fields full, ?_, ⟨rfl, rfl, rfl⟩, ⟨rfl, rfl, rfl⟩⟩
  rw [hgeom]
  rfl

theorem C28_update_terms_joined_witness :
    sampleEdge.geom = some { hexewkb := "0102" } ∧
    addEdgeUpdate "" sampleEdge (LWT_COL_EDGE_NEXT_LEFT + LWT_COL_EDGE_GEOM) true
        UpdateType.updNot =
      "" ++ (updSep1 UpdateType.updNot).intercalate
        (edgeUpdateTerms (updOp UpdateType.updNot) sampleEdge
          (LWT_COL_EDGE_NEXT_LEFT + LWT_COL_EDGE_GEOM) true) :=
  ⟨rfl,
   (C28_update_terms_joined "" sampleEdge { hexewkb := "0102" }
      (LWT_COL_EDGE_NEXT_LEFT + LWT_COL_EDGE_GEOM) true UpdateType.updNot rfl).1⟩

end PostgisTopology
